import Mathlib

/-!
# Verification of the bolometric-correction interpolation engine (`src/bc_util.py`)

A shallow embedding of the core of `bc_util.py`: the embedded reference table
(`load_bolometric_data`, lines 76–299), the `BolometricCorrection` engine
(construction, lines 25–44; the three query methods, lines 46–74), and the
cubic-spline interpolants the engine builds through
`scipy.interpolate.interp1d(kind='cubic', bounds_error=False,
fill_value='extrapolate')`.

Reals are modelled by `ℚ`: every number in the embedded table is a finite
decimal, and all engine arithmetic on them is field arithmetic.  scipy's
`interp1d` is an external library (its source is not part of this repository);
its cubic interpolant is modelled from the spec as a natural cubic spline
(see `splineM` below), constructed and evaluated exactly over `ℚ`.
-/

namespace BCUtil

/-- One row of the embedded reference table: the four whitespace-separated
columns `B_V`, `logT`, `BC`, `T` that `load_bolometric_data` parses
(lines 297–298 name them in this order). -/
structure Row where
  b_v : ℚ
  logT : ℚ
  bc : ℚ
  t : ℚ
deriving DecidableEq, Repr

set_option maxRecDepth 16000
set_option exponentiation.threshold 500000
/-- The embedded dataset of `load_bolometric_data` (lines 78–295), one
`Row` per line of the `data` string; decimals are written as exact integer
fractions (`Rat.ofScientific` is irreducible, which would block kernel
evaluation).  The table is split into chunks of 36 rows to keep
list-literal elaboration linear; `rawData` below concatenates them in
source order. -/
def rawChunk0 : List Row := [
  ⟨-35/100, 47538/10000, -4720/1000, 56728⟩,
  ⟨-34/100, 47031/10000, -4506/1000, 50477⟩,
  ⟨-33/100, 46551/10000, -4197/1000, 45196⟩,
  ⟨-32/100, 46098/10000, -3861/1000, 40719⟩,
  ⟨-31/100, 45670/10000, -3534/1000, 36897⟩,
  ⟨-30/100, 45266/10000, -3234/1000, 33620⟩,
  ⟨-29/100, 44884/10000, -2966/1000, 30789⟩,
  ⟨-28/100, 44523/10000, -2730/1000, 28333⟩,
  ⟨-27/100, 44183/10000, -2523/1000, 26199⟩,
  ⟨-26/100, 43863/10000, -2341/1000, 24338⟩,
  ⟨-25/100, 43561/10000, -2177/1000, 22703⟩,
  ⟨-24/100, 43276/10000, -2028/1000, 21261⟩,
  ⟨-23/100, 43008/10000, -1891/1000, 19989⟩,
  ⟨-22/100, 42755/10000, -1762/1000, 18858⟩,
  ⟨-21/100, 42517/10000, -1641/1000, 17852⟩,
  ⟨-20/100, 42294/10000, -1525/1000, 16958⟩,
  ⟨-19/100, 42083/10000, -1414/1000, 16154⟩,
  ⟨-18/100, 41885/10000, -1307/1000, 15434⟩,
  ⟨-17/100, 41699/10000, -1205/1000, 14787⟩,
  ⟨-16/100, 41524/10000, -1107/1000, 14203⟩,
  ⟨-15/100, 41360/10000, -1013/1000, 13677⟩,
  ⟨-14/100, 41205/10000, -923/1000, 13197⟩,
  ⟨-13/100, 41060/10000, -839/1000, 12764⟩,
  ⟨-12/100, 40923/10000, -759/1000, 12368⟩,
  ⟨-11/100, 40795/10000, -684/1000, 12008⟩,
  ⟨-10/100, 40674/10000, -614/1000, 11678⟩,
  ⟨-9/100, 40560/10000, -549/1000, 11376⟩,
  ⟨-8/100, 40453/10000, -488/1000, 11099⟩,
  ⟨-7/100, 40353/10000, -432/1000, 10846⟩,
  ⟨-6/100, 40258/10000, -381/1000, 10612⟩,
  ⟨-5/100, 40169/10000, -334/1000, 10396⟩,
  ⟨-4/100, 40084/10000, -290/1000, 10195⟩,
  ⟨-3/100, 40005/10000, -252/1000, 10011⟩,
  ⟨-2/100, 39930/10000, -216/1000, 9840⟩,
  ⟨-1/100, 39859/10000, -184/1000, 9680⟩,
  ⟨0, 39791/10000, -155/1000, 9530⟩
]

def rawChunk1 : List Row := [
  ⟨1/100, 39728/10000, -129/1000, 9392⟩,
  ⟨2/100, 39667/10000, -106/1000, 9261⟩,
  ⟨3/100, 39609/10000, -85/1000, 9139⟩,
  ⟨4/100, 39555/10000, -67/1000, 9026⟩,
  ⟨5/100, 39502/10000, -50/1000, 8916⟩,
  ⟨6/100, 39452/10000, -36/1000, 8814⟩,
  ⟨7/100, 39404/10000, -24/1000, 8717⟩,
  ⟨8/100, 39358/10000, -13/1000, 8625⟩,
  ⟨9/100, 39314/10000, -4/1000, 8538⟩,
  ⟨10/100, 39271/10000, 4/1000, 8454⟩,
  ⟨11/100, 39229/10000, 10/1000, 8373⟩,
  ⟨12/100, 39189/10000, 15/1000, 8296⟩,
  ⟨13/100, 39150/10000, 19/1000, 8222⟩,
  ⟨14/100, 39113/10000, 22/1000, 8152⟩,
  ⟨15/100, 39076/10000, 24/1000, 8083⟩,
  ⟨16/100, 39040/10000, 26/1000, 8016⟩,
  ⟨17/100, 39004/10000, 28/1000, 7950⟩,
  ⟨18/100, 38969/10000, 29/1000, 7886⟩,
  ⟨19/100, 38935/10000, 31/1000, 7825⟩,
  ⟨20/100, 38902/10000, 32/1000, 7766⟩,
  ⟨21/100, 38869/10000, 33/1000, 7707⟩,
  ⟨22/100, 38836/10000, 33/1000, 7648⟩,
  ⟨23/100, 38804/10000, 34/1000, 7592⟩,
  ⟨24/100, 38771/10000, 34/1000, 7535⟩,
  ⟨25/100, 38740/10000, 35/1000, 7481⟩,
  ⟨26/100, 38708/10000, 35/1000, 7426⟩,
  ⟨27/100, 38676/10000, 35/1000, 7372⟩,
  ⟨28/100, 38645/10000, 35/1000, 7319⟩,
  ⟨29/100, 38614/10000, 35/1000, 7267⟩,
  ⟨30/100, 38583/10000, 34/1000, 7216⟩,
  ⟨31/100, 38552/10000, 34/1000, 7164⟩,
  ⟨32/100, 38521/10000, 33/1000, 7113⟩,
  ⟨33/100, 38490/10000, 32/1000, 7063⟩,
  ⟨34/100, 38460/10000, 31/1000, 7014⟩,
  ⟨35/100, 38429/10000, 30/1000, 6964⟩,
  ⟨36/100, 38399/10000, 28/1000, 6916⟩
]

def rawChunk2 : List Row := [
  ⟨37/100, 38368/10000, 26/1000, 6867⟩,
  ⟨38/100, 38338/10000, 25/1000, 6820⟩,
  ⟨39/100, 38307/10000, 22/1000, 6771⟩,
  ⟨40/100, 38277/10000, 20/1000, 6725⟩,
  ⟨41/100, 38247/10000, 18/1000, 6678⟩,
  ⟨42/100, 38217/10000, 15/1000, 6632⟩,
  ⟨43/100, 38187/10000, 12/1000, 6587⟩,
  ⟨44/100, 38157/10000, 9/1000, 6541⟩,
  ⟨45/100, 38127/10000, 6/1000, 6496⟩,
  ⟨46/100, 38098/10000, 3/1000, 6453⟩,
  ⟨47/100, 38068/10000, -1/1000, 6409⟩,
  ⟨48/100, 38039/10000, -4/1000, 6366⟩,
  ⟨49/100, 38010/10000, -8/1000, 6324⟩,
  ⟨50/100, 37981/10000, -12/1000, 6282⟩,
  ⟨51/100, 37952/10000, -16/1000, 6240⟩,
  ⟨52/100, 37923/10000, -21/1000, 6198⟩,
  ⟨53/100, 37895/10000, -25/1000, 6158⟩,
  ⟨54/100, 37866/10000, -30/1000, 6117⟩,
  ⟨55/100, 37838/10000, -35/1000, 6078⟩,
  ⟨56/100, 37811/10000, -39/1000, 6040⟩,
  ⟨57/100, 37783/10000, -45/1000, 6002⟩,
  ⟨58/100, 37756/10000, -50/1000, 5964⟩,
  ⟨59/100, 37729/10000, -55/1000, 5927⟩,
  ⟨60/100, 37702/10000, -61/1000, 5891⟩,
  ⟨61/100, 37676/10000, -67/1000, 5855⟩,
  ⟨62/100, 37649/10000, -73/1000, 5819⟩,
  ⟨63/100, 37623/10000, -79/1000, 5784⟩,
  ⟨64/100, 37598/10000, -85/1000, 5751⟩,
  ⟨65/100, 37572/10000, -91/1000, 5717⟩,
  ⟨66/100, 37547/10000, -98/1000, 5684⟩,
  ⟨67/100, 37523/10000, -104/1000, 5653⟩,
  ⟨68/100, 37498/10000, -111/1000, 5620⟩,
  ⟨69/100, 37474/10000, -117/1000, 5589⟩,
  ⟨70/100, 37450/10000, -124/1000, 5559⟩,
  ⟨71/100, 37426/10000, -132/1000, 5528⟩,
  ⟨72/100, 37403/10000, -139/1000, 5499⟩
]

def rawChunk3 : List Row := [
  ⟨73/100, 37380/10000, -146/1000, 5470⟩,
  ⟨74/100, 37358/10000, -153/1000, 5442⟩,
  ⟨75/100, 37335/10000, -161/1000, 5413⟩,
  ⟨76/100, 37313/10000, -168/1000, 5386⟩,
  ⟨77/100, 37291/10000, -176/1000, 5359⟩,
  ⟨78/100, 37270/10000, -184/1000, 5333⟩,
  ⟨79/100, 37249/10000, -192/1000, 5307⟩,
  ⟨80/100, 37228/10000, -200/1000, 5282⟩,
  ⟨81/100, 37207/10000, -208/1000, 5256⟩,
  ⟨82/100, 37186/10000, -216/1000, 5231⟩,
  ⟨83/100, 37166/10000, -225/1000, 5207⟩,
  ⟨84/100, 37146/10000, -233/1000, 5183⟩,
  ⟨85/100, 37126/10000, -242/1000, 5159⟩,
  ⟨86/100, 37107/10000, -250/1000, 5136⟩,
  ⟨87/100, 37088/10000, -259/1000, 5114⟩,
  ⟨88/100, 37068/10000, -268/1000, 5090⟩,
  ⟨89/100, 37049/10000, -277/1000, 5068⟩,
  ⟨90/100, 37031/10000, -285/1000, 5047⟩,
  ⟨91/100, 37012/10000, -295/1000, 5025⟩,
  ⟨92/100, 36994/10000, -304/1000, 5004⟩,
  ⟨93/100, 36976/10000, -313/1000, 4984⟩,
  ⟨94/100, 36958/10000, -322/1000, 4963⟩,
  ⟨95/100, 36940/10000, -332/1000, 4943⟩,
  ⟨96/100, 36922/10000, -342/1000, 4922⟩,
  ⟨97/100, 36904/10000, -352/1000, 4902⟩,
  ⟨98/100, 36887/10000, -361/1000, 4883⟩,
  ⟨99/100, 36869/10000, -372/1000, 4862⟩,
  ⟨100/100, 36852/10000, -382/1000, 4843⟩,
  ⟨101/100, 36835/10000, -392/1000, 4825⟩,
  ⟨102/100, 36818/10000, -403/1000, 4806⟩,
  ⟨103/100, 36800/10000, -414/1000, 4786⟩,
  ⟨104/100, 36783/10000, -426/1000, 4767⟩,
  ⟨105/100, 36766/10000, -437/1000, 4748⟩,
  ⟨106/100, 36750/10000, -448/1000, 4731⟩,
  ⟨107/100, 36733/10000, -459/1000, 4713⟩,
  ⟨108/100, 36716/10000, -471/1000, 4694⟩
]

def rawChunk4 : List Row := [
  ⟨109/100, 36699/10000, -482/1000, 4676⟩,
  ⟨110/100, 36682/10000, -494/1000, 4658⟩,
  ⟨111/100, 36666/10000, -505/1000, 4640⟩,
  ⟨112/100, 36649/10000, -517/1000, 4622⟩,
  ⟨113/100, 36633/10000, -528/1000, 4605⟩,
  ⟨114/100, 36616/10000, -540/1000, 4587⟩,
  ⟨115/100, 36599/10000, -552/1000, 4569⟩,
  ⟨116/100, 36583/10000, -564/1000, 4553⟩,
  ⟨117/100, 36566/10000, -576/1000, 4535⟩,
  ⟨118/100, 36550/10000, -588/1000, 4518⟩,
  ⟨119/100, 36533/10000, -601/1000, 4500⟩,
  ⟨120/100, 36516/10000, -614/1000, 4483⟩,
  ⟨121/100, 36500/10000, -626/1000, 4466⟩,
  ⟨122/100, 36483/10000, -640/1000, 4449⟩,
  ⟨123/100, 36467/10000, -652/1000, 4433⟩,
  ⟨124/100, 36450/10000, -666/1000, 4415⟩,
  ⟨125/100, 36434/10000, -679/1000, 4399⟩,
  ⟨126/100, 36417/10000, -694/1000, 4382⟩,
  ⟨127/100, 36401/10000, -707/1000, 4366⟩,
  ⟨128/100, 36384/10000, -722/1000, 4349⟩,
  ⟨129/100, 36368/10000, -736/1000, 4333⟩,
  ⟨130/100, 36351/10000, -752/1000, 4316⟩,
  ⟨131/100, 36335/10000, -766/1000, 4300⟩,
  ⟨132/100, 36318/10000, -782/1000, 4283⟩,
  ⟨133/100, 36301/10000, -798/1000, 4266⟩,
  ⟨134/100, 36285/10000, -814/1000, 4251⟩,
  ⟨135/100, 36268/10000, -831/1000, 4234⟩,
  ⟨136/100, 36251/10000, -848/1000, 4217⟩,
  ⟨137/100, 36235/10000, -865/1000, 4202⟩,
  ⟨138/100, 36218/10000, -883/1000, 4186⟩,
  ⟨139/100, 36201/10000, -901/1000, 4169⟩,
  ⟨140/100, 36184/10000, -920/1000, 4153⟩,
  ⟨141/100, 36167/10000, -939/1000, 4137⟩,
  ⟨142/100, 36149/10000, -960/1000, 4120⟩,
  ⟨143/100, 36132/10000, -980/1000, 4103⟩,
  ⟨144/100, 36114/10000, -1002/1000, 4086⟩
]

def rawChunk5 : List Row := [
  ⟨145/100, 36096/10000, -1024/1000, 4070⟩,
  ⟨146/100, 36078/10000, -1047/1000, 4053⟩,
  ⟨147/100, 36060/10000, -1071/1000, 4036⟩,
  ⟨148/100, 36041/10000, -1096/1000, 4018⟩,
  ⟨149/100, 36022/10000, -1122/1000, 4001⟩,
  ⟨150/100, 36002/10000, -1150/1000, 3982⟩,
  ⟨151/100, 35982/10000, -1178/1000, 3964⟩,
  ⟨152/100, 35961/10000, -1209/1000, 3945⟩,
  ⟨153/100, 35940/10000, -1241/1000, 3926⟩,
  ⟨154/100, 35918/10000, -1276/1000, 3906⟩,
  ⟨155/100, 35895/10000, -1312/1000, 3885⟩,
  ⟨156/100, 35872/10000, -1350/1000, 3865⟩,
  ⟨157/100, 35847/10000, -1393/1000, 3843⟩,
  ⟨158/100, 35822/10000, -1437/1000, 3821⟩,
  ⟨159/100, 35795/10000, -1486/1000, 3797⟩,
  ⟨160/100, 35767/10000, -1539/1000, 3773⟩,
  ⟨161/100, 35738/10000, -1595/1000, 3748⟩,
  ⟨162/100, 35707/10000, -1658/1000, 3721⟩,
  ⟨163/100, 35674/10000, -1728/1000, 3693⟩,
  ⟨164/100, 35640/10000, -1802/1000, 3664⟩,
  ⟨165/100, 35604/10000, -1885/1000, 3634⟩,
  ⟨166/100, 35565/10000, -1978/1000, 3601⟩,
  ⟨167/100, 35525/10000, -2078/1000, 3568⟩,
  ⟨168/100, 35482/10000, -2191/1000, 3533⟩,
  ⟨169/100, 35436/10000, -2318/1000, 3496⟩,
  ⟨170/100, 35387/10000, -2460/1000, 3457⟩,
  ⟨171/100, 35335/10000, -2620/1000, 3415⟩,
  ⟨172/100, 35279/10000, -2803/1000, 3372⟩,
  ⟨173/100, 35220/10000, -3007/1000, 3326⟩,
  ⟨174/100, 35157/10000, -3239/1000, 3278⟩,
  ⟨175/100, 35090/10000, -3502/1000, 3228⟩,
  ⟨176/100, 35018/10000, -3805/1000, 3175⟩,
  ⟨177/100, 34941/10000, -4152/1000, 3119⟩,
  ⟨178/100, 34860/10000, -4544/1000, 3061⟩,
  ⟨179/100, 34772/10000, -5004/1000, 3000⟩,
  ⟨180/100, 34678/10000, -5535/1000, 2936⟩
]

/-- The full embedded reference table, in the order it appears in the
source string of `load_bolometric_data` (216 rows, `B_V` from -0.35 to 1.80). -/
def rawData : List Row :=
  rawChunk0 ++ rawChunk1 ++ rawChunk2 ++ rawChunk3 ++ rawChunk4 ++ rawChunk5

/-- Stable insertion of a row into a list sorted ascending by `T`
(helper for `sortByT`): a row moves past entries with strictly smaller `T`
and stops before the first entry whose `T` is not smaller, so rows with
equal `T` keep their original relative order, as pandas' stable
`sort_values` does. -/
def insertByT (r : Row) : List Row → List Row
  | [] => [r]
  | s :: rest => if r.t < s.t then r :: s :: rest else s :: insertByT r rest

/-- `self.data.sort_values('T')` (line 28): stable sort ascending by the
`T` column. -/
def sortByT : List Row → List Row
  | [] => []
  | r :: rest => insertByT r (sortByT rest)

/-- Stable insertion of an `(x, y)` pair into a list sorted ascending by `x`
(helper for `sortPairs`). -/
def insertPair (p : ℚ × ℚ) : List (ℚ × ℚ) → List (ℚ × ℚ)
  | [] => [p]
  | q :: rest => if p.1 < q.1 then p :: q :: rest else q :: insertPair p rest

/-- `scipy.interpolate.interp1d` is called with its default
`assume_sorted=False`, so it sorts its `(x, y)` input pairs ascending by `x`
before building the spline; this models that sort. -/
def sortPairs : List (ℚ × ℚ) → List (ℚ × ℚ)
  | [] => []
  | p :: rest => insertPair p (sortPairs rest)

/-- Minimum of a column, `Series.min()` (lines 42–44); `0` for an empty
column (the engine is only built over the nonempty embedded table). -/
def listMin : List ℚ → ℚ
  | [] => 0
  | x :: xs => xs.foldl min x

/-- Maximum of a column, `Series.max()` (lines 42–44). -/
def listMax : List ℚ → ℚ
  | [] => 0
  | x :: xs => xs.foldl max x

/-! ## The cubic-spline interpolant

`interp1d(x, y, kind='cubic', bounds_error=False, fill_value='extrapolate')`
(lines 31–39) builds a cubic spline through the `(x, y)` pairs and, outside
`[min x, max x]`, evaluates the boundary polynomial piece unbounded.  scipy's
source is not part of this repository, so the spline itself is modelled from
the spec. -/

/-- Modelled from the spec: the tridiagonal system of the *natural cubic
spline* ("natural cubic spline interpolation — piecewise cubic polynomials
passing exactly through every tabulated point, with continuous first and
second derivatives at interior knots"), which the repository's code obtains
from the external `scipy.interpolate.interp1d(kind='cubic')`.  For knots
`x₀ < … < x_{n−1}` with values `y_i` and gaps `h_i = x_{i+1} − x_i`, row `j`
(for the interior knot `j`, `1 ≤ j ≤ n−2`) is
`(h_{j−1}/6)·M_{j−1} + ((h_{j−1}+h_j)/3)·M_j + (h_j/6)·M_{j+1}
  = (y_{j+1}−y_j)/h_j − (y_j−y_{j−1})/h_{j−1}`,
returned as `(a, b, c, d)` coefficient tuples. -/
def splineRows : List ℚ → List ℚ → List (ℚ × ℚ × ℚ × ℚ)
  | x0 :: x1 :: x2 :: xs, y0 :: y1 :: y2 :: ys =>
      let h0 := x1 - x0
      let h1 := x2 - x1
      (h0/6, (h0+h1)/3, h1/6, (y2 - y1)/h1 - (y1 - y0)/h0)
        :: splineRows (x1 :: x2 :: xs) (y1 :: y2 :: ys)
  | _, _ => []

/-- Forward sweep of the Thomas algorithm over the tridiagonal rows:
given `cp, dp` from the previous row, row `(a, b, c, d)` yields the
eliminated coefficients `c' = c/(b − a·cp)` and `d' = (d − a·dp)/(b − a·cp)`. -/
def thomasFwd (cp dp : ℚ) : List (ℚ × ℚ × ℚ × ℚ) → List (ℚ × ℚ)
  | [] => []
  | (a, b, c, d) :: rest =>
      let den := b - a * cp
      let cp' := c / den
      let dp' := (d - a * dp) / den
      (cp', dp') :: thomasFwd cp' dp' rest

/-- Back substitution of the Thomas algorithm: `x_j = d'_j − c'_j · x_{j+1}`,
with `x` past the last row taken as `0`. -/
def thomasBack : List (ℚ × ℚ) → List ℚ
  | [] => []
  | (cp, dp) :: rest =>
      let tail := thomasBack rest
      (dp - cp * tail.headD 0) :: tail

/-- Modelled from the spec: the vector `M` of second derivatives of the
natural cubic spline at the knots — `M₀ = M_{n−1} = 0` (the natural boundary
condition) and the interior values solve the system of `splineRows`. -/
def splineM (xs ys : List ℚ) : List ℚ :=
  if xs.length < 2 then List.replicate xs.length 0
  else 0 :: (thomasBack (thomasFwd 0 0 (splineRows xs ys)) ++ [0])

/-- Index of the spline segment used for query value `v`: the largest `i`
with `xs[i] ≤ v`, clamped into `[0, n−2]`, so that a value below every knot
uses segment `0` and a value above every knot uses the last segment
`n−2` — the boundary polynomial pieces are evaluated unbounded, which is
`fill_value='extrapolate'`. -/
def findSeg (xs : List ℚ) (v : ℚ) : Nat :=
  min (xs.length - 2) ((xs.takeWhile (fun x => decide (x ≤ v))).length - 1)

/-- The cubic polynomial piece of segment `i` in second-derivative form: with
`h = x_{i+1} − x_i`,
`S_i(v) = M_i·(x_{i+1}−v)³/(6h) + M_{i+1}·(v−x_i)³/(6h)
        + (y_i − M_i·h²/6)·(x_{i+1}−v)/h + (y_{i+1} − M_{i+1}·h²/6)·(v−x_i)/h`. -/
def segEval (xs ys M : List ℚ) (i : Nat) (v : ℚ) : ℚ :=
  let x0 := xs.getD i 0
  let x1 := xs.getD (i+1) 0
  let y0 := ys.getD i 0
  let y1 := ys.getD (i+1) 0
  let m0 := M.getD i 0
  let m1 := M.getD (i+1) 0
  let h := x1 - x0
  m0 * (x1 - v)^3 / (6*h) + m1 * (v - x0)^3 / (6*h)
    + (y0 - m0 * h^2 / 6) * (x1 - v) / h + (y1 - m1 * h^2 / 6) * (v - x0) / h

/-- First derivative of the cubic piece `segEval xs ys M i`
(see `segEval_hasDerivAt`). -/
def segEval1 (xs ys M : List ℚ) (i : Nat) (v : ℚ) : ℚ :=
  let x0 := xs.getD i 0
  let x1 := xs.getD (i+1) 0
  let y0 := ys.getD i 0
  let y1 := ys.getD (i+1) 0
  let m0 := M.getD i 0
  let m1 := M.getD (i+1) 0
  let h := x1 - x0
  m1 * (v - x0)^2 / (2*h) - m0 * (x1 - v)^2 / (2*h)
    + (y1 - m1 * h^2 / 6) / h - (y0 - m0 * h^2 / 6) / h

/-- Second derivative of the cubic piece `segEval xs ys M i`
(see `segEval1_hasDerivAt`); the `ys` argument is kept so all three
piece functions share one signature. -/
def segEval2 (xs _ys M : List ℚ) (i : Nat) (v : ℚ) : ℚ :=
  let x0 := xs.getD i 0
  let x1 := xs.getD (i+1) 0
  let m0 := M.getD i 0
  let m1 := M.getD (i+1) 0
  let h := x1 - x0
  m0 * (x1 - v) / h + m1 * (v - x0) / h

/-- Evaluation of the spline with knots `xs`, values `ys` and second
derivatives `M` at a query value `v`: the cubic piece of the segment
`findSeg` selects, evaluated there (inside the knot range this is cubic
spline interpolation; outside it, the boundary piece extended unbounded). -/
def splineEval (xs ys M : List ℚ) (v : ℚ) : ℚ :=
  segEval xs ys M (findSeg xs v) v

/-! ## The engine over the embedded table -/

/-- `self.data` after line 28: the embedded table sorted ascending by `T`. -/
def theData : List Row := sortByT rawData

/-- The `(x, y)` pairs `interp1d` holds for the `T` axis (line 31), sorted
ascending in `x` by `interp1d` itself. -/
def tPairs : List (ℚ × ℚ) := sortPairs (theData.map fun r => (r.t, r.bc))

/-- Knots of the `T`-axis interpolant. -/
def tXs : List ℚ := tPairs.map Prod.fst

/-- Values of the `T`-axis interpolant. -/
def tYs : List ℚ := tPairs.map Prod.snd

/-- Second derivatives of the `T`-axis spline. -/
def tM : List ℚ := splineM tXs tYs

/-- `self.bc_from_T` (lines 31–33): the `T`-axis interpolant. -/
def bc_from_T (v : ℚ) : ℚ := splineEval tXs tYs tM v

/-- The `(x, y)` pairs `interp1d` holds for the `logT` axis (line 34). -/
def lPairs : List (ℚ × ℚ) := sortPairs (theData.map fun r => (r.logT, r.bc))

/-- Knots of the `logT`-axis interpolant. -/
def lXs : List ℚ := lPairs.map Prod.fst

/-- Values of the `logT`-axis interpolant. -/
def lYs : List ℚ := lPairs.map Prod.snd

/-- Second derivatives of the `logT`-axis spline. -/
def lM : List ℚ := splineM lXs lYs

/-- `self.bc_from_logT` (lines 34–36): the `logT`-axis interpolant. -/
def bc_from_logT (v : ℚ) : ℚ := splineEval lXs lYs lM v

/-- The `(x, y)` pairs `interp1d` holds for the `B_V` axis (line 37); the
table is descending in `B_V` once sorted by `T`, so `interp1d`'s internal
sort reverses it. -/
def bPairs : List (ℚ × ℚ) := sortPairs (theData.map fun r => (r.b_v, r.bc))

/-- Knots of the `B_V`-axis interpolant. -/
def bXs : List ℚ := bPairs.map Prod.fst

/-- Values of the `B_V`-axis interpolant. -/
def bYs : List ℚ := bPairs.map Prod.snd

/-- Second derivatives of the `B_V`-axis spline. -/
def bM : List ℚ := splineM bXs bYs

/-- `self.bc_from_BV` (lines 37–39): the `B_V`-axis interpolant. -/
def bc_from_BV (v : ℚ) : ℚ := splineEval bXs bYs bM v

/-- `self.T_min` (line 42). -/
def T_min : ℚ := listMin (theData.map (·.t))

/-- `self.T_max` (line 42). -/
def T_max : ℚ := listMax (theData.map (·.t))

/-- `self.logT_min` (line 43). -/
def logT_min : ℚ := listMin (theData.map (·.logT))

/-- `self.logT_max` (line 43). -/
def logT_max : ℚ := listMax (theData.map (·.logT))

/-- `self.BV_min` (line 44). -/
def BV_min : ℚ := listMin (theData.map (·.b_v))

/-- `self.BV_max` (line 44). -/
def BV_max : ℚ := listMax (theData.map (·.b_v))

/-- The warning condition of `get_BC_from_T` (line 50) for a scalar query:
`T < self.T_min or T > self.T_max`. -/
def extrapT (v : ℚ) : Bool := decide (v < T_min) || decide (T_max < v)

/-- The warning condition of `get_BC_from_logT` (line 60). -/
def extrapLogT (v : ℚ) : Bool := decide (v < logT_min) || decide (logT_max < v)

/-- The warning condition of `get_BC_from_BV` (line 70). -/
def extrapBV (v : ℚ) : Bool := decide (v < BV_min) || decide (BV_max < v)

/-- `get_BC_from_T` (lines 46–54) on a scalar query: the spline value is
returned unconditionally; the out-of-range warning is printed exactly when
`verbose` holds and the value lies outside `[T_min, T_max]`.  The boolean
component records whether that warning fired. -/
def get_BC_from_T (temperature : ℚ) (verbose : Bool) : ℚ × Bool :=
  (bc_from_T temperature, verbose && extrapT temperature)

/-- `get_BC_from_logT` (lines 56–64) on a scalar query. -/
def get_BC_from_logT (log_temperature : ℚ) (verbose : Bool) : ℚ × Bool :=
  (bc_from_logT log_temperature, verbose && extrapLogT log_temperature)

/-- `get_BC_from_BV` (lines 66–74) on a scalar query. -/
def get_BC_from_BV (b_v_color : ℚ) (verbose : Bool) : ℚ × Bool :=
  (bc_from_BV b_v_color, verbose && extrapBV b_v_color)

/-- `get_BC_from_T` (lines 46–54) on a batch (array) query: `interp1d`
evaluates elementwise, and the single warning fires when `verbose` holds and
`np.any(T < self.T_min) or np.any(T > self.T_max)` — i.e. when any element
is out of range. -/
def get_BC_from_T_batch (temperatures : List ℚ) (verbose : Bool) : List ℚ × Bool :=
  (temperatures.map bc_from_T, verbose && temperatures.any extrapT)

/-- `get_BC_from_logT` (lines 56–64) on a batch query. -/
def get_BC_from_logT_batch (log_temperatures : List ℚ) (verbose : Bool) : List ℚ × Bool :=
  (log_temperatures.map bc_from_logT, verbose && log_temperatures.any extrapLogT)

/-- `get_BC_from_BV` (lines 66–74) on a batch query. -/
def get_BC_from_BV_batch (b_v_colors : List ℚ) (verbose : Bool) : List ℚ × Bool :=
  (b_v_colors.map bc_from_BV, verbose && b_v_colors.any extrapBV)

/-! ## Non-finite query values

`get_BC_from_T` and its two siblings perform no finiteness check: the body
(lines 46–54) compares the value against the bounds and calls the
interpolant, nothing else.  To state what happens on a non-finite query the
query domain is widened to finite-or-NaN, with IEEE-754 semantics for the
two operations the code performs on it: every comparison involving NaN is
false, and arithmetic (hence the polynomial evaluation inside `interp1d`)
propagates NaN. -/

/-- A query value as the engine receives it: a finite real (exact rational
here) or the non-finite `NaN`. -/
inductive FVal where
  | fin (q : ℚ)
  | nan
deriving DecidableEq, Repr

/-- IEEE `<` on query values: comparisons involving NaN are false. -/
def FVal.lt : FVal → FVal → Bool
  | .fin a, .fin b => decide (a < b)
  | _, _ => false

/-- The `T`-axis interpolant on finite-or-NaN input: a finite query value is
interpolated as usual; NaN propagates through the piecewise-polynomial
evaluation and comes back as NaN. -/
def bc_from_T_nf : FVal → FVal
  | .fin q => .fin (bc_from_T q)
  | .nan => .nan

/-- `get_BC_from_T` (lines 46–54) on a finite-or-NaN scalar: the body has no
finiteness validation and raises nothing, so it is a total function; the
warning condition `T < self.T_min or T > self.T_max` is IEEE-false for NaN. -/
def get_BC_from_T_nf (temperature : FVal) (verbose : Bool) : FVal × Bool :=
  (bc_from_T_nf temperature,
   verbose && (FVal.lt temperature (.fin T_min) || FVal.lt (.fin T_max) temperature))

/-! ## Construction -/

/-- Modelled from the spec: the failure vocabulary of engine construction.
`InsufficientDataError` — "fewer points than cubic interpolation requires.
Fatal to Engine construction."  In the code this check lives inside the
external `scipy.interpolate.interp1d(kind='cubic')`, which refuses fewer
than 4 points; the repository's own code contains no named error class. -/
inductive BCError where
  | insufficientData
deriving DecidableEq, Repr

/-- Modelled from the spec: engine construction from an arbitrary reference
table — `BolometricCorrection.__init__` (lines 25–44), with the external
`interp1d` minimum-point requirement surfaced as `InsufficientDataError`:
"Construction fails with `InsufficientDataError` if the underlying table has
fewer than 4 points (cubic interpolation's practical minimum)."  On success
the engine's table is the input sorted ascending by `T` (line 28). -/
def mkEngine (rows : List Row) : Except BCError (List Row) :=
  if rows.length < 4 then .error .insufficientData else .ok (sortByT rows)

/-! ## The heap made explicit

`__init__` stores `data.copy()` and query methods assign no attribute, so
mutation can be modelled by explicit state passing: the constructor returns
the caller's table alongside the new engine object, and each query returns
its result alongside the engine object it ran on. -/

/-- The engine object: the fields `__init__` stores (lines 27–44) — the
sorted table and the six axis bounds.  The three interpolants are pure
functions of `data` (see `bcFromTData` and siblings), so they are not
duplicated as fields. -/
structure Engine where
  data : List Row
  tmin : ℚ
  tmax : ℚ
  ltmin : ℚ
  ltmax : ℚ
  bvmin : ℚ
  bvmax : ℚ
deriving DecidableEq, Repr

/-- The `T`-axis interpolant built from an arbitrary engine table, exactly
as lines 31–33 build it from `self.data`. -/
def bcFromTData (rows : List Row) (v : ℚ) : ℚ :=
  let ps := sortPairs (rows.map fun r => (r.t, r.bc))
  splineEval (ps.map Prod.fst) (ps.map Prod.snd)
    (splineM (ps.map Prod.fst) (ps.map Prod.snd)) v

/-- The `logT`-axis interpolant built from an arbitrary engine table
(lines 34–36). -/
def bcFromLogTData (rows : List Row) (v : ℚ) : ℚ :=
  let ps := sortPairs (rows.map fun r => (r.logT, r.bc))
  splineEval (ps.map Prod.fst) (ps.map Prod.snd)
    (splineM (ps.map Prod.fst) (ps.map Prod.snd)) v

/-- The `B_V`-axis interpolant built from an arbitrary engine table
(lines 37–39). -/
def bcFromBVData (rows : List Row) (v : ℚ) : ℚ :=
  let ps := sortPairs (rows.map fun r => (r.b_v, r.bc))
  splineEval (ps.map Prod.fst) (ps.map Prod.snd)
    (splineM (ps.map Prod.fst) (ps.map Prod.snd)) v

/-- `BolometricCorrection.__init__` (lines 25–44) with the heap explicit:
`self.data = data.copy()` takes a value copy of the caller's table, so the
sort on line 28 acts on the copy; the constructor's result pairs the
caller's table object (untouched by the body) with the engine object. -/
def initBC (callerTable : List Row) : List Row × Engine :=
  let copied := callerTable
  let sorted := sortByT copied
  (callerTable,
   { data := sorted
     tmin := listMin (sorted.map (·.t)), tmax := listMax (sorted.map (·.t))
     ltmin := listMin (sorted.map (·.logT)), ltmax := listMax (sorted.map (·.logT))
     bvmin := listMin (sorted.map (·.b_v)), bvmax := listMax (sorted.map (·.b_v)) })

/-- `get_BC_from_T` (lines 46–54) as a state transformer on the engine
object: the method body reads `self.T_min`, `self.T_max`, `self.bc_from_T`
and assigns no attribute, so the engine component of the result is the
engine it was called on. -/
def get_BC_from_T_st (e : Engine) (v : ℚ) (verbose : Bool) : (ℚ × Bool) × Engine :=
  ((bcFromTData e.data v,
    verbose && (decide (v < e.tmin) || decide (e.tmax < v))), e)

/-- `get_BC_from_logT` (lines 56–64) as a state transformer. -/
def get_BC_from_logT_st (e : Engine) (v : ℚ) (verbose : Bool) : (ℚ × Bool) × Engine :=
  ((bcFromLogTData e.data v,
    verbose && (decide (v < e.ltmin) || decide (e.ltmax < v))), e)

/-- `get_BC_from_BV` (lines 66–74) as a state transformer. -/
def get_BC_from_BV_st (e : Engine) (v : ℚ) (verbose : Bool) : (ℚ × Bool) × Engine :=
  ((bcFromBVData e.data v,
    verbose && (decide (v < e.bvmin) || decide (e.bvmax < v))), e)

/-! ## Auxiliary definitions for stating and evaluating properties -/

/-- Last element of a list with a default, by direct structural recursion
(the library `getLastD` unfolds awkwardly). -/
def lastD {α : Type} : List α → α → α
  | [], d => d
  | [a], _ => a
  | _ :: b :: rest, d => lastD (b :: rest) d

/-- Boolean check that `f` holds for every adjacent pair of a list;
`List.Chain'` in executable clothing (the library `Decidable` instance for
`Chain'` is stated with `Eq.rec` and does not reduce). -/
def adjAll {α : Type} (f : α → α → Bool) : List α → Bool
  | [] => true
  | [_] => true
  | a :: b :: rest => f a b && adjAll f (b :: rest)

/-- Boolean universal quantifier over a list; the library's `decidableBAll`
instance nests non-tail recursion too deeply for long literal lists, while
`&&` evaluates iteratively. -/
def allB {α : Type} (f : α → Bool) : List α → Bool
  | [] => true
  | a :: rest => f a && allB f rest

/-- Boolean existential quantifier over a list. -/
def anyB {α : Type} (f : α → Bool) : List α → Bool
  | [] => false
  | a :: rest => f a || anyB f rest

/-- The exact arithmetic relation between a row's `temperature` and its
four-decimal `log_temperature`: `t = ⌊10^logT⌋`.  With `k := 10000 * logT`
(an integer, since `logT` has denominator `10^4`) the relation
`t ≤ 10^(k/10000) < t + 1` is equivalent, after raising to the `10000`-th
power, to the integer-arithmetic check `t^10000 ≤ 10^k < (t+1)^10000`,
which needs no real logarithm. -/
def floorPow10Row (r : Row) : Bool :=
  decide (r.t.den = 1) && decide (0 < r.t.num)
    && decide ((10000 * r.logT).den = 1) && decide (0 < (10000 * r.logT).num)
    && decide (r.t.num.toNat ^ 10000 ≤ 10 ^ ((10000 * r.logT).num.toNat))
    && decide (10 ^ ((10000 * r.logT).num.toNat) < (r.t.num.toNat + 1) ^ 10000)

/-- What "natural cubic spline through the tabulated points" means for a
knot vector `xs`, values `ys` and second-derivative vector `M`: zero second
derivative at both boundary knots, interpolation at every knot, every
segment a cubic polynomial whose first and second derivatives are `segEval1`
and `segEval2`, value and first derivative continuous across every interior
knot with both neighbouring pieces taking second derivative `M` there, and
beyond the outermost knots the evaluation is the unbounded boundary piece. -/
def IsNaturalCubicSpline (xs ys M : List ℚ) : Prop :=
  (M.getD 0 0 = 0 ∧ M.getD (xs.length - 1) 0 = 0)
  ∧ (∀ j, j < xs.length → splineEval xs ys M (xs.getD j 0) = ys.getD j 0)
  ∧ (∀ j, j + 1 < xs.length →
      ∃ A B C D : ℚ, ∀ v, segEval xs ys M j v = A*v^3 + B*v^2 + C*v + D)
  ∧ (∀ j v, j + 1 < xs.length → HasDerivAt (segEval xs ys M j) (segEval1 xs ys M j v) v)
  ∧ (∀ j v, j + 1 < xs.length → HasDerivAt (segEval1 xs ys M j) (segEval2 xs ys M j v) v)
  ∧ (∀ j, j + 2 < xs.length →
      segEval xs ys M j (xs.getD (j+1) 0) = segEval xs ys M (j+1) (xs.getD (j+1) 0)
      ∧ segEval1 xs ys M j (xs.getD (j+1) 0) = segEval1 xs ys M (j+1) (xs.getD (j+1) 0)
      ∧ segEval2 xs ys M j (xs.getD (j+1) 0) = M.getD (j+1) 0
      ∧ segEval2 xs ys M (j+1) (xs.getD (j+1) 0) = M.getD (j+1) 0)
  ∧ (∀ v, (∀ x ∈ xs, x < v) → splineEval xs ys M v = segEval xs ys M (xs.length - 2) v)
  ∧ (∀ v, (∀ x ∈ xs, v < x) → splineEval xs ys M v = segEval xs ys M 0 v)

/-! ## Sorting lemmas

The embedded table arrives strictly descending in `T` (strictly ascending in
`B_V`), so the two stable insertion sorts of the embedding reduce to `id` or
`reverse`; these lemmas let every later proof replace `sortByT`/`sortPairs`
applications by explicit literal lists without evaluating the sorts. -/

theorem insertByT_of_forall_lt {r : Row} :
    ∀ {l : List Row}, (∀ s ∈ l, s.t < r.t) → insertByT r l = l ++ [r]
  | [], _ => rfl
  | s :: rest, h => by
      have hs : ¬ r.t < s.t := not_lt.mpr (le_of_lt (h s (by simp)))
      simp only [insertByT, if_neg hs, List.cons_append, List.cons.injEq, true_and]
      exact insertByT_of_forall_lt fun x hx => h x (by simp [hx])

theorem sortByT_of_pairwise_gt :
    ∀ {l : List Row}, l.Pairwise (fun a b => b.t < a.t) → sortByT l = l.reverse
  | [], _ => rfl
  | r :: rest, h => by
      rcases List.pairwise_cons.mp h with ⟨h1, h2⟩
      have : sortByT (r :: rest) = insertByT r (sortByT rest) := rfl
      rw [this, sortByT_of_pairwise_gt h2,
        insertByT_of_forall_lt fun s hs => h1 s (List.mem_reverse.mp hs),
        List.reverse_cons]

theorem insertPair_of_forall_lt {p : ℚ × ℚ} :
    ∀ {l : List (ℚ × ℚ)}, (∀ q ∈ l, q.1 < p.1) → insertPair p l = l ++ [p]
  | [], _ => rfl
  | q :: rest, h => by
      have hq : ¬ p.1 < q.1 := not_lt.mpr (le_of_lt (h q (by simp)))
      simp only [insertPair, if_neg hq, List.cons_append, List.cons.injEq, true_and]
      exact insertPair_of_forall_lt fun x hx => h x (by simp [hx])

theorem sortPairs_of_pairwise_gt :
    ∀ {l : List (ℚ × ℚ)}, l.Pairwise (fun p q => q.1 < p.1) → sortPairs l = l.reverse
  | [], _ => rfl
  | p :: rest, h => by
      rcases List.pairwise_cons.mp h with ⟨h1, h2⟩
      have : sortPairs (p :: rest) = insertPair p (sortPairs rest) := rfl
      rw [this, sortPairs_of_pairwise_gt h2,
        insertPair_of_forall_lt fun q hq => h1 q (List.mem_reverse.mp hq),
        List.reverse_cons]

theorem sortPairs_of_chain_lt :
    ∀ {l : List (ℚ × ℚ)}, List.Chain' (fun p q => p.1 < q.1) l → sortPairs l = l
  | [], _ => rfl
  | [p], _ => rfl
  | p :: q :: rest, h => by
      have h1 : p.1 < q.1 := (List.chain'_cons.mp h).1
      have h2 : List.Chain' (fun p q : ℚ × ℚ => p.1 < q.1) (q :: rest) :=
        (List.chain'_cons.mp h).2
      have : sortPairs (p :: q :: rest) = insertPair p (sortPairs (q :: rest)) := rfl
      rw [this, sortPairs_of_chain_lt h2]
      simp only [insertPair, if_pos h1]

theorem chain'_of_adjAll {α : Type} {f : α → α → Bool} :
    ∀ {l : List α}, adjAll f l = true → List.Chain' (fun a b => f a b = true) l
  | [], _ => List.chain'_nil
  | [_], _ => List.chain'_singleton _
  | a :: b :: rest, h => by
      have hsplit : f a b = true ∧ adjAll f (b :: rest) = true := by
        have hdef : adjAll f (a :: b :: rest) = (f a b && adjAll f (b :: rest)) := rfl
        rw [hdef] at h
        exact Bool.and_eq_true_iff.mp h
      exact List.chain'_cons.mpr ⟨hsplit.1, chain'_of_adjAll hsplit.2⟩

theorem forall_of_allB {α : Type} {f : α → Bool} :
    ∀ {l : List α}, allB f l = true → ∀ x ∈ l, f x = true
  | a :: rest, h, x, hx => by
      have hsplit : f a = true ∧ allB f rest = true := by
        have hdef : allB f (a :: rest) = (f a && allB f rest) := rfl
        rw [hdef] at h
        exact Bool.and_eq_true_iff.mp h
      rcases List.mem_cons.mp hx with h' | h'
      · rw [h']; exact hsplit.1
      · exact forall_of_allB hsplit.2 x h'

theorem exists_of_anyB {α : Type} {f : α → Bool} :
    ∀ {l : List α}, anyB f l = true → ∃ x ∈ l, f x = true
  | a :: rest, h => by
      have hdef : anyB f (a :: rest) = (f a || anyB f rest) := rfl
      rw [hdef] at h
      rcases Bool.or_eq_true_iff.mp h with h' | h'
      · exact ⟨a, by simp, h'⟩
      · rcases exists_of_anyB h' with ⟨x, hx, hfx⟩
        exact ⟨x, by simp [hx], hfx⟩

theorem mem_of_anyB_eq {α : Type} [DecidableEq α] {c : α} {l : List α}
    (h : anyB (fun y => decide (y = c)) l = true) : c ∈ l := by
  rcases exists_of_anyB h with ⟨x, hx, hfx⟩
  rwa [(of_decide_eq_true hfx : x = c)] at hx

/-! ## Column minima and maxima -/

theorem foldl_min_eq {m : ℚ} :
    ∀ (l : List ℚ) (x : ℚ), (m = x ∨ m ∈ l) → m ≤ x → (∀ y ∈ l, m ≤ y) →
      l.foldl min x = m
  | [], _, hm, _, _ => by
      rcases hm with h | h
      · exact h.symm
      · exact absurd h (List.not_mem_nil m)
  | y :: ys, x, hm, hx, hb => by
      have hy : m ≤ y := hb y (by simp)
      have step : (y :: ys).foldl min x = ys.foldl min (min x y) := rfl
      rw [step]
      rcases hm with h | h
      · exact foldl_min_eq ys (min x y) (Or.inl (by rw [h]; exact (min_eq_left (h ▸ hy)).symm))
          (le_min hx hy) fun z hz => hb z (by simp [hz])
      · rcases List.mem_cons.mp h with h' | h'
        · exact foldl_min_eq ys (min x y)
            (Or.inl (by rw [h']; exact (min_eq_right (h' ▸ hx)).symm))
            (le_min hx hy) fun z hz => hb z (by simp [hz])
        · exact foldl_min_eq ys (min x y) (Or.inr h') (le_min hx hy)
            fun z hz => hb z (by simp [hz])

theorem foldl_max_eq {m : ℚ} :
    ∀ (l : List ℚ) (x : ℚ), (m = x ∨ m ∈ l) → x ≤ m → (∀ y ∈ l, y ≤ m) →
      l.foldl max x = m
  | [], _, hm, _, _ => by
      rcases hm with h | h
      · exact h.symm
      · exact absurd h (List.not_mem_nil m)
  | y :: ys, x, hm, hx, hb => by
      have hy : y ≤ m := hb y (by simp)
      have step : (y :: ys).foldl max x = ys.foldl max (max x y) := rfl
      rw [step]
      rcases hm with h | h
      · exact foldl_max_eq ys (max x y) (Or.inl (by rw [h]; exact (max_eq_left (h ▸ hy)).symm))
          (max_le hx hy) fun z hz => hb z (by simp [hz])
      · rcases List.mem_cons.mp h with h' | h'
        · exact foldl_max_eq ys (max x y)
            (Or.inl (by rw [h']; exact (max_eq_right (h' ▸ hx)).symm))
            (max_le hx hy) fun z hz => hb z (by simp [hz])
        · exact foldl_max_eq ys (max x y) (Or.inr h') (max_le hx hy)
            fun z hz => hb z (by simp [hz])

theorem listMin_eq_of {l : List ℚ} {m : ℚ} (hm : m ∈ l) (hb : ∀ y ∈ l, m ≤ y) :
    listMin l = m := by
  cases l with
  | nil => exact absurd hm (List.not_mem_nil m)
  | cons x xs =>
      have : listMin (x :: xs) = xs.foldl min x := rfl
      rw [this]
      exact foldl_min_eq xs x
        (by rcases List.mem_cons.mp hm with h | h; exact Or.inl h; exact Or.inr h)
        (hb x (by simp)) fun y hy => hb y (by simp [hy])

theorem listMax_eq_of {l : List ℚ} {m : ℚ} (hm : m ∈ l) (hb : ∀ y ∈ l, y ≤ m) :
    listMax l = m := by
  cases l with
  | nil => exact absurd hm (List.not_mem_nil m)
  | cons x xs =>
      have : listMax (x :: xs) = xs.foldl max x := rfl
      rw [this]
      exact foldl_max_eq xs x
        (by rcases List.mem_cons.mp hm with h | h; exact Or.inl h; exact Or.inr h)
        (hb x (by simp)) fun y hy => hb y (by simp [hy])

/-! ## Chunked evaluation

Kernel reduction of a 216-element fold risks exhausting the interpreter
stack, so every boolean check is evaluated chunk by chunk (the table is
stored in six 36-row chunks) and recombined with the lemmas below. -/

theorem allB_append {α : Type} {f : α → Bool} :
    ∀ (l1 l2 : List α), allB f (l1 ++ l2) = (allB f l1 && allB f l2)
  | [], l2 => by simp [allB]
  | a :: rest, l2 => by
      have h1 : allB f ((a :: rest) ++ l2) = (f a && allB f (rest ++ l2)) := rfl
      have h2 : allB f (a :: rest) = (f a && allB f rest) := rfl
      rw [h1, h2, allB_append rest l2, Bool.and_assoc]

theorem anyB_append {α : Type} {f : α → Bool} :
    ∀ (l1 l2 : List α), anyB f (l1 ++ l2) = (anyB f l1 || anyB f l2)
  | [], l2 => by simp [anyB]
  | a :: rest, l2 => by
      have h1 : anyB f ((a :: rest) ++ l2) = (f a || anyB f (rest ++ l2)) := rfl
      have h2 : anyB f (a :: rest) = (f a || anyB f rest) := rfl
      rw [h1, h2, anyB_append rest l2, Bool.or_assoc]

theorem lastD_append {α : Type} {l2 : List α} (h2 : l2 ≠ []) :
    ∀ (l1 : List α) (d : α), lastD (l1 ++ l2) d = lastD l2 d
  | [], _ => rfl
  | [a], d => by
      cases l2 with
      | nil => exact absurd rfl h2
      | cons b rest => rfl
  | a :: b :: rest, d => by
      have e : lastD ((a :: b :: rest) ++ l2) d = lastD ((b :: rest) ++ l2) d := rfl
      rw [e, lastD_append h2 (b :: rest) d]

theorem getLast?_eq_lastD {α : Type} : ∀ {l : List α}, l ≠ [] → ∀ (d : α),
    l.getLast? = some (lastD l d)
  | [], h, _ => absurd rfl h
  | [a], _, _ => rfl
  | a :: b :: rest, _, d => by
      have e1 : (a :: b :: rest).getLast? = (b :: rest).getLast? := by
        simp [List.getLast?_cons_cons]
      have e2 : lastD (a :: b :: rest) d = lastD (b :: rest) d := rfl
      rw [e1, e2, getLast?_eq_lastD (List.cons_ne_nil b rest) d]

theorem chain'_append_link {α : Type} {R : α → α → Prop} {l1 l2 : List α} (d : α)
    (hn1 : l1 ≠ []) (hn2 : l2 ≠ [])
    (h1 : List.Chain' R l1) (h2 : List.Chain' R l2)
    (hb : R (lastD l1 d) (l2.headD d)) : List.Chain' R (l1 ++ l2) := by
  refine List.Chain'.append h1 h2 ?_
  intro x hx y hy
  rw [getLast?_eq_lastD hn1 d] at hx
  cases l2 with
  | nil => exact absurd rfl hn2
  | cons b rest =>
      have hx' : x = lastD l1 d := by
        cases hx
        rfl
      have hy' : y = b := by
        cases hy
        rfl
      rw [hx', hy']
      exact hb

theorem chain'_chunks6 {α : Type} {R : α → α → Prop} {c0 c1 c2 c3 c4 c5 : List α} (d : α)
    (n0 : c0 ≠ []) (n1 : c1 ≠ []) (n2 : c2 ≠ []) (n3 : c3 ≠ []) (n4 : c4 ≠ [])
    (n5 : c5 ≠ [])
    (h0 : List.Chain' R c0) (h1 : List.Chain' R c1) (h2 : List.Chain' R c2)
    (h3 : List.Chain' R c3) (h4 : List.Chain' R c4) (h5 : List.Chain' R c5)
    (b01 : R (lastD c0 d) (c1.headD d)) (b12 : R (lastD c1 d) (c2.headD d))
    (b23 : R (lastD c2 d) (c3.headD d)) (b34 : R (lastD c3 d) (c4.headD d))
    (b45 : R (lastD c4 d) (c5.headD d)) :
    List.Chain' R (c0 ++ c1 ++ c2 ++ c3 ++ c4 ++ c5) := by
  have ne01 : c0 ++ c1 ≠ [] := fun h => n0 (List.append_eq_nil.mp h).1
  have ne012 : c0 ++ c1 ++ c2 ≠ [] := fun h => ne01 (List.append_eq_nil.mp h).1
  have ne0123 : c0 ++ c1 ++ c2 ++ c3 ≠ [] := fun h => ne012 (List.append_eq_nil.mp h).1
  have ne01234 : c0 ++ c1 ++ c2 ++ c3 ++ c4 ≠ [] :=
    fun h => ne0123 (List.append_eq_nil.mp h).1
  have s01 : List.Chain' R (c0 ++ c1) := chain'_append_link d n0 n1 h0 h1 b01
  have s012 : List.Chain' R (c0 ++ c1 ++ c2) := by
    refine chain'_append_link d ne01 n2 s01 h2 ?_
    rwa [lastD_append n1 c0 d]
  have s0123 : List.Chain' R (c0 ++ c1 ++ c2 ++ c3) := by
    refine chain'_append_link d ne012 n3 s012 h3 ?_
    rwa [lastD_append n2 (c0 ++ c1) d]
  have s01234 : List.Chain' R (c0 ++ c1 ++ c2 ++ c3 ++ c4) := by
    refine chain'_append_link d ne0123 n4 s0123 h4 ?_
    rwa [lastD_append n3 (c0 ++ c1 ++ c2) d]
  refine chain'_append_link d ne01234 n5 s01234 h5 ?_
  rwa [lastD_append n4 (c0 ++ c1 ++ c2 ++ c3) d]

/-- The six-chunk shape of the embedded table, used to split every boolean
evaluation over it. -/
theorem rawData_chunks :
    rawData = rawChunk0 ++ rawChunk1 ++ rawChunk2 ++ rawChunk3 ++ rawChunk4 ++ rawChunk5 :=
  rfl

/-- `allB` over the full table from one 36-row check per chunk. -/
theorem allB_rawData_of_chunks {f : Row → Bool}
    (d0 : allB f rawChunk0 = true) (d1 : allB f rawChunk1 = true)
    (d2 : allB f rawChunk2 = true) (d3 : allB f rawChunk3 = true)
    (d4 : allB f rawChunk4 = true) (d5 : allB f rawChunk5 = true) :
    allB f rawData = true := by
  rw [rawData_chunks, allB_append, allB_append, allB_append, allB_append, allB_append,
    d0, d1, d2, d3, d4, d5]
  rfl

/-- Pointwise consequence of `allB` over the full table. -/
theorem forall_rawData_of_chunks {f : Row → Bool}
    (d0 : allB f rawChunk0 = true) (d1 : allB f rawChunk1 = true)
    (d2 : allB f rawChunk2 = true) (d3 : allB f rawChunk3 = true)
    (d4 : allB f rawChunk4 = true) (d5 : allB f rawChunk5 = true) :
    ∀ r ∈ rawData, f r = true :=
  forall_of_allB (allB_rawData_of_chunks d0 d1 d2 d3 d4 d5)

/-- `anyB` over the full table from a witness in the last chunk. -/
theorem anyB_rawData_of_chunk5 {f : Row → Bool} (h : anyB f rawChunk5 = true) :
    anyB f rawData = true := by
  rw [rawData_chunks, anyB_append, h, Bool.or_true]

/-- `anyB` over the full table from a witness in the first chunk. -/
theorem anyB_rawData_of_chunk0 {f : Row → Bool} (h : anyB f rawChunk0 = true) :
    anyB f rawData = true := by
  rw [rawData_chunks, anyB_append, anyB_append, anyB_append, anyB_append, anyB_append, h,
    Bool.true_or, Bool.true_or, Bool.true_or, Bool.true_or, Bool.true_or]

/-! ## Concrete facts about the embedded table

Only shallow `decide`s over the raw literal rows; everything about the
sorted lists is then obtained through the sorting lemmas above. -/

theorem rawData_t_strictDesc : List.Chain' (fun a b : Row => b.t < a.t) rawData := by
  rw [rawData_chunks]
  have mk : ∀ c : List Row, adjAll (fun a b : Row => decide (b.t < a.t)) c = true →
      List.Chain' (fun a b : Row => b.t < a.t) c := fun c h =>
    (chain'_of_adjAll h).imp fun _ _ hh => of_decide_eq_true hh
  exact chain'_chunks6 ⟨0, 0, 0, 0⟩
    (by with_unfolding_all decide) (by with_unfolding_all decide)
    (by with_unfolding_all decide) (by with_unfolding_all decide)
    (by with_unfolding_all decide) (by with_unfolding_all decide)
    (mk rawChunk0 (by with_unfolding_all decide)) (mk rawChunk1 (by with_unfolding_all decide))
    (mk rawChunk2 (by with_unfolding_all decide)) (mk rawChunk3 (by with_unfolding_all decide))
    (mk rawChunk4 (by with_unfolding_all decide)) (mk rawChunk5 (by with_unfolding_all decide))
    (by with_unfolding_all decide) (by with_unfolding_all decide)
    (by with_unfolding_all decide) (by with_unfolding_all decide)
    (by with_unfolding_all decide)

theorem rawData_logT_strictDesc : List.Chain' (fun a b : Row => b.logT < a.logT) rawData := by
  rw [rawData_chunks]
  have mk : ∀ c : List Row, adjAll (fun a b : Row => decide (b.logT < a.logT)) c = true →
      List.Chain' (fun a b : Row => b.logT < a.logT) c := fun c h =>
    (chain'_of_adjAll h).imp fun _ _ hh => of_decide_eq_true hh
  exact chain'_chunks6 ⟨0, 0, 0, 0⟩
    (by with_unfolding_all decide) (by with_unfolding_all decide)
    (by with_unfolding_all decide) (by with_unfolding_all decide)
    (by with_unfolding_all decide) (by with_unfolding_all decide)
    (mk rawChunk0 (by with_unfolding_all decide)) (mk rawChunk1 (by with_unfolding_all decide))
    (mk rawChunk2 (by with_unfolding_all decide)) (mk rawChunk3 (by with_unfolding_all decide))
    (mk rawChunk4 (by with_unfolding_all decide)) (mk rawChunk5 (by with_unfolding_all decide))
    (by with_unfolding_all decide) (by with_unfolding_all decide)
    (by with_unfolding_all decide) (by with_unfolding_all decide)
    (by with_unfolding_all decide)

theorem rawData_bv_strictAsc : List.Chain' (fun a b : Row => a.b_v < b.b_v) rawData := by
  rw [rawData_chunks]
  have mk : ∀ c : List Row, adjAll (fun a b : Row => decide (a.b_v < b.b_v)) c = true →
      List.Chain' (fun a b : Row => a.b_v < b.b_v) c := fun c h =>
    (chain'_of_adjAll h).imp fun _ _ hh => of_decide_eq_true hh
  exact chain'_chunks6 ⟨0, 0, 0, 0⟩
    (by with_unfolding_all decide) (by with_unfolding_all decide)
    (by with_unfolding_all decide) (by with_unfolding_all decide)
    (by with_unfolding_all decide) (by with_unfolding_all decide)
    (mk rawChunk0 (by with_unfolding_all decide)) (mk rawChunk1 (by with_unfolding_all decide))
    (mk rawChunk2 (by with_unfolding_all decide)) (mk rawChunk3 (by with_unfolding_all decide))
    (mk rawChunk4 (by with_unfolding_all decide)) (mk rawChunk5 (by with_unfolding_all decide))
    (by with_unfolding_all decide) (by with_unfolding_all decide)
    (by with_unfolding_all decide) (by with_unfolding_all decide)
    (by with_unfolding_all decide)

theorem theData_eq : theData = rawData.reverse := by
  have : IsTrans Row (fun a b => b.t < a.t) := ⟨fun _ _ _ h1 h2 => lt_trans h2 h1⟩
  exact sortByT_of_pairwise_gt (List.chain'_iff_pairwise.mp rawData_t_strictDesc)

theorem theData_t_strictAsc : List.Chain' (fun a b : Row => a.t < b.t) theData := by
  rw [theData_eq]
  exact List.chain'_reverse.mpr rawData_t_strictDesc

theorem theData_logT_strictAsc : List.Chain' (fun a b : Row => a.logT < b.logT) theData := by
  rw [theData_eq]
  exact List.chain'_reverse.mpr rawData_logT_strictDesc

theorem theData_bv_strictDesc : List.Chain' (fun a b : Row => b.b_v < a.b_v) theData := by
  rw [theData_eq]
  exact List.chain'_reverse.mpr rawData_bv_strictAsc

theorem tPairs_eq : tPairs = rawData.reverse.map fun r => (r.t, r.bc) := by
  have hc : List.Chain' (fun p q : ℚ × ℚ => p.1 < q.1)
      (theData.map fun r => (r.t, r.bc)) := by
    rw [List.chain'_map]
    exact theData_t_strictAsc
  have : tPairs = sortPairs (theData.map fun r => (r.t, r.bc)) := rfl
  rw [this, sortPairs_of_chain_lt hc, theData_eq]

theorem lPairs_eq : lPairs = rawData.reverse.map fun r => (r.logT, r.bc) := by
  have hc : List.Chain' (fun p q : ℚ × ℚ => p.1 < q.1)
      (theData.map fun r => (r.logT, r.bc)) := by
    rw [List.chain'_map]
    exact theData_logT_strictAsc
  have : lPairs = sortPairs (theData.map fun r => (r.logT, r.bc)) := rfl
  rw [this, sortPairs_of_chain_lt hc, theData_eq]

theorem bPairs_eq : bPairs = rawData.map fun r => (r.b_v, r.bc) := by
  have : IsTrans (ℚ × ℚ) (fun p q => q.1 < p.1) := ⟨fun _ _ _ h1 h2 => lt_trans h2 h1⟩
  have hc : List.Chain' (fun p q : ℚ × ℚ => q.1 < p.1)
      (theData.map fun r => (r.b_v, r.bc)) := by
    rw [List.chain'_map]
    exact theData_bv_strictDesc
  have hdef : bPairs = sortPairs (theData.map fun r => (r.b_v, r.bc)) := rfl
  rw [hdef, sortPairs_of_pairwise_gt (List.chain'_iff_pairwise.mp hc), theData_eq,
    ← List.map_reverse, List.reverse_reverse]

theorem tXs_eq : tXs = rawData.reverse.map (·.t) := by
  have : tXs = tPairs.map Prod.fst := rfl
  rw [this, tPairs_eq, List.map_map]
  rfl

theorem tYs_eq : tYs = rawData.reverse.map (·.bc) := by
  have : tYs = tPairs.map Prod.snd := rfl
  rw [this, tPairs_eq, List.map_map]
  rfl

theorem lXs_eq : lXs = rawData.reverse.map (·.logT) := by
  have : lXs = lPairs.map Prod.fst := rfl
  rw [this, lPairs_eq, List.map_map]
  rfl

theorem lYs_eq : lYs = rawData.reverse.map (·.bc) := by
  have : lYs = lPairs.map Prod.snd := rfl
  rw [this, lPairs_eq, List.map_map]
  rfl

theorem bXs_eq : bXs = rawData.map (·.b_v) := by
  have : bXs = bPairs.map Prod.fst := rfl
  rw [this, bPairs_eq, List.map_map]
  rfl

theorem bYs_eq : bYs = rawData.map (·.bc) := by
  have : bYs = bPairs.map Prod.snd := rfl
  rw [this, bPairs_eq, List.map_map]
  rfl

/-! ## The six bounds -/

theorem T_min_eq : T_min = 2936 := by
  have hdef : T_min = listMin (theData.map (·.t)) := rfl
  rw [hdef, theData_eq]
  have hball : ∀ r ∈ rawData, (decide ((2936 : ℚ) ≤ r.t)) = true := forall_rawData_of_chunks
    (by with_unfolding_all decide) (by with_unfolding_all decide)
    (by with_unfolding_all decide) (by with_unfolding_all decide)
    (by with_unfolding_all decide) (by with_unfolding_all decide)
  have hany : anyB
      (fun r : Row => decide (r.t ≤ (2936 : ℚ)) && decide ((2936 : ℚ) ≤ r.t))
      rawData = true :=
    anyB_rawData_of_chunk5 (by with_unfolding_all decide)
  rcases exists_of_anyB hany with ⟨r0, hr0, heq0⟩
  rcases Bool.and_eq_true_iff.mp heq0 with ⟨hle, hge⟩
  have hmem : (2936 : ℚ) ∈ rawData.reverse.map (·.t) :=
    List.mem_map.mpr ⟨r0, List.mem_reverse.mpr hr0,
      le_antisymm (of_decide_eq_true hle) (of_decide_eq_true hge)⟩
  refine listMin_eq_of hmem ?_
  intro y hy
  rcases List.mem_map.mp hy with ⟨r, hr, rfl⟩
  exact of_decide_eq_true (hball r (List.mem_reverse.mp hr))

theorem T_max_eq : T_max = 56728 := by
  have hdef : T_max = listMax (theData.map (·.t)) := rfl
  rw [hdef, theData_eq]
  have hball : ∀ r ∈ rawData, (decide (r.t ≤ (56728 : ℚ))) = true := forall_rawData_of_chunks
    (by with_unfolding_all decide) (by with_unfolding_all decide)
    (by with_unfolding_all decide) (by with_unfolding_all decide)
    (by with_unfolding_all decide) (by with_unfolding_all decide)
  have hany : anyB
      (fun r : Row => decide (r.t ≤ (56728 : ℚ)) && decide ((56728 : ℚ) ≤ r.t))
      rawData = true :=
    anyB_rawData_of_chunk0 (by with_unfolding_all decide)
  rcases exists_of_anyB hany with ⟨r0, hr0, heq0⟩
  rcases Bool.and_eq_true_iff.mp heq0 with ⟨hle, hge⟩
  have hmem : (56728 : ℚ) ∈ rawData.reverse.map (·.t) :=
    List.mem_map.mpr ⟨r0, List.mem_reverse.mpr hr0,
      le_antisymm (of_decide_eq_true hle) (of_decide_eq_true hge)⟩
  refine listMax_eq_of hmem ?_
  intro y hy
  rcases List.mem_map.mp hy with ⟨r, hr, rfl⟩
  exact of_decide_eq_true (hball r (List.mem_reverse.mp hr))

theorem logT_min_eq : logT_min = 34678/10000 := by
  have hdef : logT_min = listMin (theData.map (·.logT)) := rfl
  rw [hdef, theData_eq]
  have hball : ∀ r ∈ rawData, (decide ((34678/10000 : ℚ) ≤ r.logT)) = true := forall_rawData_of_chunks
    (by with_unfolding_all decide) (by with_unfolding_all decide)
    (by with_unfolding_all decide) (by with_unfolding_all decide)
    (by with_unfolding_all decide) (by with_unfolding_all decide)
  have hany : anyB
      (fun r : Row => decide (r.logT ≤ (34678/10000 : ℚ)) && decide ((34678/10000 : ℚ) ≤ r.logT))
      rawData = true :=
    anyB_rawData_of_chunk5 (by with_unfolding_all decide)
  rcases exists_of_anyB hany with ⟨r0, hr0, heq0⟩
  rcases Bool.and_eq_true_iff.mp heq0 with ⟨hle, hge⟩
  have hmem : (34678/10000 : ℚ) ∈ rawData.reverse.map (·.logT) :=
    List.mem_map.mpr ⟨r0, List.mem_reverse.mpr hr0,
      le_antisymm (of_decide_eq_true hle) (of_decide_eq_true hge)⟩
  refine listMin_eq_of hmem ?_
  intro y hy
  rcases List.mem_map.mp hy with ⟨r, hr, rfl⟩
  exact of_decide_eq_true (hball r (List.mem_reverse.mp hr))

theorem logT_max_eq : logT_max = 47538/10000 := by
  have hdef : logT_max = listMax (theData.map (·.logT)) := rfl
  rw [hdef, theData_eq]
  have hball : ∀ r ∈ rawData, (decide (r.logT ≤ (47538/10000 : ℚ))) = true := forall_rawData_of_chunks
    (by with_unfolding_all decide) (by with_unfolding_all decide)
    (by with_unfolding_all decide) (by with_unfolding_all decide)
    (by with_unfolding_all decide) (by with_unfolding_all decide)
  have hany : anyB
      (fun r : Row => decide (r.logT ≤ (47538/10000 : ℚ)) && decide ((47538/10000 : ℚ) ≤ r.logT))
      rawData = true :=
    anyB_rawData_of_chunk0 (by with_unfolding_all decide)
  rcases exists_of_anyB hany with ⟨r0, hr0, heq0⟩
  rcases Bool.and_eq_true_iff.mp heq0 with ⟨hle, hge⟩
  have hmem : (47538/10000 : ℚ) ∈ rawData.reverse.map (·.logT) :=
    List.mem_map.mpr ⟨r0, List.mem_reverse.mpr hr0,
      le_antisymm (of_decide_eq_true hle) (of_decide_eq_true hge)⟩
  refine listMax_eq_of hmem ?_
  intro y hy
  rcases List.mem_map.mp hy with ⟨r, hr, rfl⟩
  exact of_decide_eq_true (hball r (List.mem_reverse.mp hr))

theorem BV_min_eq : BV_min = -35/100 := by
  have hdef : BV_min = listMin (theData.map (·.b_v)) := rfl
  rw [hdef, theData_eq]
  have hball : ∀ r ∈ rawData, (decide ((-35/100 : ℚ) ≤ r.b_v)) = true := forall_rawData_of_chunks
    (by with_unfolding_all decide) (by with_unfolding_all decide)
    (by with_unfolding_all decide) (by with_unfolding_all decide)
    (by with_unfolding_all decide) (by with_unfolding_all decide)
  have hany : anyB
      (fun r : Row => decide (r.b_v ≤ (-35/100 : ℚ)) && decide ((-35/100 : ℚ) ≤ r.b_v))
      rawData = true :=
    anyB_rawData_of_chunk0 (by with_unfolding_all decide)
  rcases exists_of_anyB hany with ⟨r0, hr0, heq0⟩
  rcases Bool.and_eq_true_iff.mp heq0 with ⟨hle, hge⟩
  have hmem : (-35/100 : ℚ) ∈ rawData.reverse.map (·.b_v) :=
    List.mem_map.mpr ⟨r0, List.mem_reverse.mpr hr0,
      le_antisymm (of_decide_eq_true hle) (of_decide_eq_true hge)⟩
  refine listMin_eq_of hmem ?_
  intro y hy
  rcases List.mem_map.mp hy with ⟨r, hr, rfl⟩
  exact of_decide_eq_true (hball r (List.mem_reverse.mp hr))

theorem BV_max_eq : BV_max = 180/100 := by
  have hdef : BV_max = listMax (theData.map (·.b_v)) := rfl
  rw [hdef, theData_eq]
  have hball : ∀ r ∈ rawData, (decide (r.b_v ≤ (180/100 : ℚ))) = true := forall_rawData_of_chunks
    (by with_unfolding_all decide) (by with_unfolding_all decide)
    (by with_unfolding_all decide) (by with_unfolding_all decide)
    (by with_unfolding_all decide) (by with_unfolding_all decide)
  have hany : anyB
      (fun r : Row => decide (r.b_v ≤ (180/100 : ℚ)) && decide ((180/100 : ℚ) ≤ r.b_v))
      rawData = true :=
    anyB_rawData_of_chunk5 (by with_unfolding_all decide)
  rcases exists_of_anyB hany with ⟨r0, hr0, heq0⟩
  rcases Bool.and_eq_true_iff.mp heq0 with ⟨hle, hge⟩
  have hmem : (180/100 : ℚ) ∈ rawData.reverse.map (·.b_v) :=
    List.mem_map.mpr ⟨r0, List.mem_reverse.mpr hr0,
      le_antisymm (of_decide_eq_true hle) (of_decide_eq_true hge)⟩
  refine listMax_eq_of hmem ?_
  intro y hy
  rcases List.mem_map.mp hy with ⟨r, hr, rfl⟩
  exact of_decide_eq_true (hball r (List.mem_reverse.mp hr))

/-! ## Pointwise facts about the spline evaluation

All proved symbolically — for an arbitrary second-derivative vector `M` —
so that no proof below ever has to evaluate the tridiagonal solve. -/

theorem cubic_left (x0 x1 y0 y1 m0 m1 : ℚ) (hne : x1 - x0 ≠ 0) :
    m0 * (x1 - x0)^3 / (6*(x1 - x0)) + m1 * (x0 - x0)^3 / (6*(x1 - x0))
      + (y0 - m0 * (x1 - x0)^2 / 6) * (x1 - x0) / (x1 - x0)
      + (y1 - m1 * (x1 - x0)^2 / 6) * (x0 - x0) / (x1 - x0) = y0 := by
  field_simp
  ring

theorem cubic_right (x0 x1 y0 y1 m0 m1 : ℚ) (hne : x1 - x0 ≠ 0) :
    m0 * (x1 - x1)^3 / (6*(x1 - x0)) + m1 * (x1 - x0)^3 / (6*(x1 - x0))
      + (y0 - m0 * (x1 - x0)^2 / 6) * (x1 - x1) / (x1 - x0)
      + (y1 - m1 * (x1 - x0)^2 / 6) * (x1 - x0) / (x1 - x0) = y1 := by
  field_simp
  ring

/-- The cubic piece takes the left tabulated value at its left knot. -/
theorem segEval_left {xs ys M : List ℚ} {i : Nat}
    (hne : xs.getD (i+1) 0 - xs.getD i 0 ≠ 0) :
    segEval xs ys M i (xs.getD i 0) = ys.getD i 0 :=
  cubic_left (xs.getD i 0) (xs.getD (i+1) 0) (ys.getD i 0) (ys.getD (i+1) 0)
    (M.getD i 0) (M.getD (i+1) 0) hne

/-- The cubic piece takes the right tabulated value at its right knot. -/
theorem segEval_right {xs ys M : List ℚ} {i : Nat}
    (hne : xs.getD (i+1) 0 - xs.getD i 0 ≠ 0) :
    segEval xs ys M i (xs.getD (i+1) 0) = ys.getD (i+1) 0 :=
  cubic_right (xs.getD i 0) (xs.getD (i+1) 0) (ys.getD i 0) (ys.getD (i+1) 0)
    (M.getD i 0) (M.getD (i+1) 0) hne

/-! ## Locating the segment of a query value -/

theorem takeWhile_of_forall_le {v : ℚ} :
    ∀ {xs : List ℚ}, (∀ x ∈ xs, x ≤ v) → xs.takeWhile (fun x => decide (x ≤ v)) = xs
  | [], _ => rfl
  | x :: rest, h => by
      have hx : decide (x ≤ v) = true := decide_eq_true (h x (by simp))
      have e : (x :: rest).takeWhile (fun x => decide (x ≤ v))
          = x :: rest.takeWhile (fun x => decide (x ≤ v)) := by
        simp [List.takeWhile_cons, hx]
      rw [e, takeWhile_of_forall_le fun y hy => h y (by simp [hy])]

theorem takeWhile_of_forall_gt {v : ℚ} :
    ∀ {xs : List ℚ}, (∀ x ∈ xs, v < x) → xs.takeWhile (fun x => decide (x ≤ v)) = []
  | [], _ => rfl
  | x :: rest, h => by
      have hx : decide (x ≤ v) = false :=
        decide_eq_false (not_le.mpr (h x (by simp)))
      simp [List.takeWhile_cons, hx]

theorem getD_mem_of_lt {α : Type} :
    ∀ {l : List α} {j : Nat}, j < l.length → ∀ (d : α), l.getD j d ∈ l
  | [], j, hj, _ => absurd hj (by simp)
  | a :: rest, 0, _, d => by simp
  | a :: rest, j + 1, hj, d => by
      have : (a :: rest).getD (j+1) d = rest.getD j d := rfl
      rw [this]
      exact List.mem_cons_of_mem a (getD_mem_of_lt (by simpa using hj) d)

theorem takeWhile_le_knot :
    ∀ {xs : List ℚ}, xs.Pairwise (· < ·) → ∀ {j : Nat}, j < xs.length →
      (xs.takeWhile (fun x => decide (x ≤ xs.getD j 0))).length = j + 1
  | [], _, j, hj => absurd hj (by simp)
  | x :: rest, hp, 0, _ => by
      have hrest : rest.takeWhile (fun y => decide (y ≤ x)) = [] := by
        cases rest with
        | nil => rfl
        | cons y ys =>
            have hy : x < y := (List.pairwise_cons.mp hp).1 y (by simp)
            have hdec : decide (y ≤ x) = false := decide_eq_false (not_le.mpr hy)
            simp [List.takeWhile_cons, hdec]
      have hg : (x :: rest).getD 0 0 = x := rfl
      have e : (x :: rest).takeWhile (fun y => decide (y ≤ (x :: rest).getD 0 0))
          = x :: rest.takeWhile (fun y => decide (y ≤ x)) := by
        rw [hg]
        simp [List.takeWhile_cons]
      rw [e, hrest]
      rfl
  | x :: rest, hp, j + 1, hj => by
      have hjr : j < rest.length := by simpa using hj
      have hknot : (x :: rest).getD (j+1) 0 = rest.getD j 0 := rfl
      have hxw : x < rest.getD j 0 :=
        (List.pairwise_cons.mp hp).1 _ (getD_mem_of_lt hjr 0)
      have e : (x :: rest).takeWhile (fun y => decide (y ≤ (x :: rest).getD (j+1) 0))
          = x :: rest.takeWhile (fun y => decide (y ≤ rest.getD j 0)) := by
        rw [hknot]
        simp [List.takeWhile_cons]
        simpa [List.getD] using hxw.le
      rw [e, List.length_cons,
        takeWhile_le_knot (List.pairwise_cons.mp hp).2 hjr]

theorem findSeg_at_knot {xs : List ℚ} (hp : xs.Pairwise (· < ·)) {j : Nat}
    (hj : j < xs.length) :
    findSeg xs (xs.getD j 0) = min (xs.length - 2) j := by
  have e : findSeg xs (xs.getD j 0) = min (xs.length - 2)
      ((xs.takeWhile (fun x => decide (x ≤ xs.getD j 0))).length - 1) := rfl
  rw [e, takeWhile_le_knot hp hj]
  simp

theorem findSeg_of_forall_le {xs : List ℚ} {v : ℚ} (h : ∀ x ∈ xs, x ≤ v) :
    findSeg xs v = xs.length - 2 := by
  have e : findSeg xs v = min (xs.length - 2)
      ((xs.takeWhile (fun x => decide (x ≤ v))).length - 1) := rfl
  rw [e, takeWhile_of_forall_le h]
  exact min_eq_left (Nat.sub_le_sub_left (by omega) xs.length)

theorem findSeg_of_forall_gt {xs : List ℚ} {v : ℚ} (h : ∀ x ∈ xs, v < x) :
    findSeg xs v = 0 := by
  have e : findSeg xs v = min (xs.length - 2)
      ((xs.takeWhile (fun x => decide (x ≤ v))).length - 1) := rfl
  rw [e, takeWhile_of_forall_gt h]
  simp

/-- Strictly sorted knots are strictly increasing position-wise. -/
theorem pairwise_getD_lt {xs : List ℚ} (hp : xs.Pairwise (· < ·)) {i j : Nat}
    (hij : i < j) (hj : j < xs.length) : xs.getD i 0 < xs.getD j 0 := by
  have hi : i < xs.length := lt_trans hij hj
  rw [List.getD_eq_getElem xs 0 hi, List.getD_eq_getElem xs 0 hj]
  exact List.pairwise_iff_getElem.mp hp i j hi hj hij

/-- The spline interpolates: at the `j`-th knot it returns the `j`-th value,
whatever the second-derivative vector is. -/
theorem splineEval_at_knot {xs ys M : List ℚ} (hp : xs.Pairwise (· < ·))
    (h2 : 2 ≤ xs.length) {j : Nat} (hj : j < xs.length) :
    splineEval xs ys M (xs.getD j 0) = ys.getD j 0 := by
  have e : splineEval xs ys M (xs.getD j 0)
      = segEval xs ys M (findSeg xs (xs.getD j 0)) (xs.getD j 0) := rfl
  rw [e, findSeg_at_knot hp hj]
  rcases lt_or_ge j (xs.length - 1) with hlt | hge
  · have hmin : min (xs.length - 2) j = j := min_eq_right (by omega)
    rw [hmin]
    exact segEval_left (sub_ne_zero.mpr (ne_of_gt (pairwise_getD_lt hp (by omega) (by omega))))
  · have hj' : j = xs.length - 1 := by omega
    have hmin : min (xs.length - 2) j = xs.length - 2 := min_eq_left (by omega)
    rw [hmin]
    have hidx : (xs.length - 2) + 1 = j := by omega
    rw [← hidx]
    exact segEval_right
      (sub_ne_zero.mpr (ne_of_gt (pairwise_getD_lt hp (by omega) (by omega))))

/-! ## The tridiagonal system and the Thomas algorithm

`splineM` computes the interior second derivatives by the Thomas algorithm.
Below the algorithm is specified: under strict diagonal dominance (which the
spline system inherits from strictly increasing knots) its output solves the
system, and the system has at most one solution — so any vector that checks
against the system equals `splineM`'s output. -/

/-- `x` (the vector of interior unknowns) solves the tridiagonal system
`rows` with zero boundary values: row `j` is
`a·x_{j-1} + b·x_j + c·x_{j+1} = d`, reading `x` out of range as `0`. -/
def SolvesTri (rows : List (ℚ × ℚ × ℚ × ℚ)) (x : List ℚ) : Prop :=
  ∀ j, j < rows.length →
    (rows.getD j (0,0,0,0)).1 * (if j = 0 then 0 else x.getD (j-1) 0)
      + (rows.getD j (0,0,0,0)).2.1 * x.getD j 0
      + (rows.getD j (0,0,0,0)).2.2.1 * x.getD (j+1) 0
    = (rows.getD j (0,0,0,0)).2.2.2

/-- Strict diagonal dominance with nonnegative off-diagonal entries, which
holds for every row of the natural-spline system over increasing knots. -/
def DomRow (r : ℚ × ℚ × ℚ × ℚ) : Prop :=
  0 ≤ r.1 ∧ 0 ≤ r.2.2.1 ∧ r.1 + r.2.2.1 < r.2.1

theorem headD_eq_getD {α : Type} (l : List α) (d : α) : l.headD d = l.getD 0 d := by
  cases l <;> rfl

theorem thomasBack_length : ∀ (l : List (ℚ × ℚ)), (thomasBack l).length = l.length
  | [] => rfl
  | p :: rest => by
      obtain ⟨cp, dp⟩ := p
      have e : thomasBack ((cp, dp) :: rest)
          = (dp - cp * (thomasBack rest).headD 0) :: thomasBack rest := rfl
      rw [e, List.length_cons, List.length_cons, thomasBack_length rest]

theorem thomasFwd_length :
    ∀ (rows : List (ℚ × ℚ × ℚ × ℚ)) (cp0 dp0 : ℚ),
      (thomasFwd cp0 dp0 rows).length = rows.length
  | [], _, _ => rfl
  | r :: rest, cp0, dp0 => by
      obtain ⟨a, b, c, d⟩ := r
      have e : thomasFwd cp0 dp0 ((a, b, c, d) :: rest)
          = (c / (b - a * cp0), (d - a * dp0) / (b - a * cp0))
            :: thomasFwd (c / (b - a * cp0)) ((d - a * dp0) / (b - a * cp0)) rest := rfl
      rw [e, List.length_cons, List.length_cons, thomasFwd_length]

theorem thomasBack_getD :
    ∀ (l : List (ℚ × ℚ)) (j : Nat), j < l.length →
      (thomasBack l).getD j 0
        = (l.getD j (0,0)).2 - (l.getD j (0,0)).1 * (thomasBack l).getD (j+1) 0
  | [], j, hj => absurd hj (by simp)
  | p :: rest, 0, _ => by
      obtain ⟨cp, dp⟩ := p
      have e : thomasBack ((cp, dp) :: rest)
          = (dp - cp * (thomasBack rest).headD 0) :: thomasBack rest := rfl
      rw [e]
      show dp - cp * (thomasBack rest).headD 0 = dp - cp * (thomasBack rest).getD 0 0
      rw [headD_eq_getD]
  | p :: rest, j + 1, hj => by
      obtain ⟨cp, dp⟩ := p
      have e : thomasBack ((cp, dp) :: rest)
          = (dp - cp * (thomasBack rest).headD 0) :: thomasBack rest := rfl
      rw [e]
      show (thomasBack rest).getD j 0
        = (rest.getD j (0,0)).2 - (rest.getD j (0,0)).1 * (thomasBack rest).getD (j+1) 0
      exact thomasBack_getD rest j (by simpa using hj)

theorem thomasFwd_getD :
    ∀ (rows : List (ℚ × ℚ × ℚ × ℚ)) (cp0 dp0 : ℚ) (j : Nat), j < rows.length →
      (thomasFwd cp0 dp0 rows).getD j (0,0)
        = ((rows.getD j (0,0,0,0)).2.2.1
             / ((rows.getD j (0,0,0,0)).2.1 - (rows.getD j (0,0,0,0)).1
                 * (if j = 0 then cp0 else ((thomasFwd cp0 dp0 rows).getD (j-1) (0,0)).1)),
           ((rows.getD j (0,0,0,0)).2.2.2 - (rows.getD j (0,0,0,0)).1
                 * (if j = 0 then dp0 else ((thomasFwd cp0 dp0 rows).getD (j-1) (0,0)).2))
             / ((rows.getD j (0,0,0,0)).2.1 - (rows.getD j (0,0,0,0)).1
                 * (if j = 0 then cp0 else ((thomasFwd cp0 dp0 rows).getD (j-1) (0,0)).1)))
  | [], _, _, j, hj => absurd hj (by simp)
  | r :: rest, cp0, dp0, 0, _ => by
      obtain ⟨a, b, c, d⟩ := r
      rfl
  | r :: rest, cp0, dp0, j + 1, hj => by
      obtain ⟨a, b, c, d⟩ := r
      have e : thomasFwd cp0 dp0 ((a, b, c, d) :: rest)
          = (c / (b - a * cp0), (d - a * dp0) / (b - a * cp0))
            :: thomasFwd (c / (b - a * cp0)) ((d - a * dp0) / (b - a * cp0)) rest := rfl
      have IH := thomasFwd_getD rest (c / (b - a * cp0)) ((d - a * dp0) / (b - a * cp0)) j
        (by simpa using hj)
      cases j with
      | zero =>
          rw [e]
          show (thomasFwd (c / (b - a * cp0)) ((d - a * dp0) / (b - a * cp0)) rest).getD 0 (0,0)
            = _
          rw [IH]
          rfl
      | succ jj =>
          rw [e]
          show (thomasFwd (c / (b - a * cp0)) ((d - a * dp0) / (b - a * cp0)) rest).getD
              (jj + 1) (0,0) = _
          rw [IH]
          rfl

theorem den_bounds {a b c d cp : ℚ} (hdom : DomRow (a, b, c, d)) (_h0 : 0 ≤ cp)
    (h1 : cp < 1) : c < b - a * cp ∧ 0 < b - a * cp := by
  obtain ⟨ha, hc, hb⟩ := hdom
  have hacp : a * cp ≤ a := by
    calc a * cp ≤ a * 1 := mul_le_mul_of_nonneg_left h1.le ha
    _ = a := mul_one a
  have h2 : c < b - a * cp := by
    have : a + c < b := hb
    nlinarith
  exact ⟨h2, lt_of_le_of_lt hc h2⟩

theorem thomasFwd_cp_mem :
    ∀ (rows : List (ℚ × ℚ × ℚ × ℚ)) (cp0 dp0 : ℚ), 0 ≤ cp0 → cp0 < 1 →
      (∀ r ∈ rows, DomRow r) →
      ∀ p ∈ thomasFwd cp0 dp0 rows, 0 ≤ p.1 ∧ p.1 < 1
  | [], _, _, _, _, _ => by simp [thomasFwd]
  | r :: rest, cp0, dp0, h0, h1, hdom => by
      obtain ⟨a, b, c, d⟩ := r
      have hd : DomRow (a, b, c, d) := hdom _ (by simp)
      obtain ⟨hlt, hpos⟩ := den_bounds hd h0 h1
      have hcp' : 0 ≤ c / (b - a * cp0) ∧ c / (b - a * cp0) < 1 :=
        ⟨div_nonneg hd.2.1 hpos.le, (div_lt_one hpos).mpr hlt⟩
      have e : thomasFwd cp0 dp0 ((a, b, c, d) :: rest)
          = (c / (b - a * cp0), (d - a * dp0) / (b - a * cp0))
            :: thomasFwd (c / (b - a * cp0)) ((d - a * dp0) / (b - a * cp0)) rest := rfl
      rw [e]
      intro p hp
      rcases List.mem_cons.mp hp with h | h
      · rw [h]
        exact hcp'
      · exact thomasFwd_cp_mem rest _ _ hcp'.1 hcp'.2
          (fun r hr => hdom r (by simp [hr])) p h

/-- The Thomas algorithm's output solves the tridiagonal system, for any
strictly diagonally dominant system. -/
theorem thomas_solves (rows : List (ℚ × ℚ × ℚ × ℚ)) (hdom : ∀ r ∈ rows, DomRow r) :
    SolvesTri rows (thomasBack (thomasFwd 0 0 rows)) := by
  intro j hj
  have hlenF : (thomasFwd 0 0 rows).length = rows.length := thomasFwd_length rows 0 0
  have hjF : j < (thomasFwd 0 0 rows).length := by rw [hlenF]; exact hj
  have hdomj : DomRow (rows.getD j (0,0,0,0)) := hdom _ (getD_mem_of_lt hj _)
  have hXj := thomasBack_getD (thomasFwd 0 0 rows) j hjF
  have hFj := thomasFwd_getD rows 0 0 j hj
  cases j with
  | zero =>
      have hb : 0 < (rows.getD 0 (0,0,0,0)).2.1 :=
        lt_of_le_of_lt (add_nonneg hdomj.1 hdomj.2.1) hdomj.2.2
      have hcp : ((thomasFwd 0 0 rows).getD 0 (0,0)).1
          = (rows.getD 0 (0,0,0,0)).2.2.1 / (rows.getD 0 (0,0,0,0)).2.1 := by
        rw [hFj]
        simp
      have hdp : ((thomasFwd 0 0 rows).getD 0 (0,0)).2
          = (rows.getD 0 (0,0,0,0)).2.2.2 / (rows.getD 0 (0,0,0,0)).2.1 := by
        rw [hFj]
        simp
      simp only [if_pos rfl]
      rw [hXj, hcp, hdp]
      set B := (rows.getD 0 (0,0,0,0)).2.1 with hB
      set C := (rows.getD 0 (0,0,0,0)).2.2.1 with hC
      set D := (rows.getD 0 (0,0,0,0)).2.2.2 with hD
      set T := (thomasBack (thomasFwd 0 0 rows)).getD (0+1) 0 with hT
      field_simp
  | succ jj =>
      have hjjF : jj < (thomasFwd 0 0 rows).length := by omega
      have hXjm := thomasBack_getD (thomasFwd 0 0 rows) jj hjjF
      have hprev : 0 ≤ ((thomasFwd 0 0 rows).getD jj (0,0)).1
          ∧ ((thomasFwd 0 0 rows).getD jj (0,0)).1 < 1 :=
        thomasFwd_cp_mem rows 0 0 le_rfl zero_lt_one hdom _ (getD_mem_of_lt hjjF _)
      have hden : 0 < (rows.getD (jj+1) (0,0,0,0)).2.1 - (rows.getD (jj+1) (0,0,0,0)).1
          * ((thomasFwd 0 0 rows).getD jj (0,0)).1 :=
        (den_bounds (a := (rows.getD (jj+1) (0,0,0,0)).1)
          (b := (rows.getD (jj+1) (0,0,0,0)).2.1)
          (c := (rows.getD (jj+1) (0,0,0,0)).2.2.1)
          (d := (rows.getD (jj+1) (0,0,0,0)).2.2.2)
          hdomj hprev.1 hprev.2).2
      have hne : (rows.getD (jj+1) (0,0,0,0)).2.1 - (rows.getD (jj+1) (0,0,0,0)).1
          * ((thomasFwd 0 0 rows).getD jj (0,0)).1 ≠ 0 := ne_of_gt hden
      have hcp : ((thomasFwd 0 0 rows).getD (jj+1) (0,0)).1
          = (rows.getD (jj+1) (0,0,0,0)).2.2.1
            / ((rows.getD (jj+1) (0,0,0,0)).2.1 - (rows.getD (jj+1) (0,0,0,0)).1
                * ((thomasFwd 0 0 rows).getD jj (0,0)).1) := by
        rw [hFj]
        simp
      have hdp : ((thomasFwd 0 0 rows).getD (jj+1) (0,0)).2
          = ((rows.getD (jj+1) (0,0,0,0)).2.2.2 - (rows.getD (jj+1) (0,0,0,0)).1
                * ((thomasFwd 0 0 rows).getD jj (0,0)).2)
            / ((rows.getD (jj+1) (0,0,0,0)).2.1 - (rows.getD (jj+1) (0,0,0,0)).1
                * ((thomasFwd 0 0 rows).getD jj (0,0)).1) := by
        rw [hFj]
        simp
      simp only [if_neg (Nat.succ_ne_zero jj), Nat.add_sub_cancel]
      rw [hXjm, hXj, hcp, hdp]
      set A := (rows.getD (jj+1) (0,0,0,0)).1 with hA
      set B := (rows.getD (jj+1) (0,0,0,0)).2.1 with hB
      set C := (rows.getD (jj+1) (0,0,0,0)).2.2.1 with hC
      set D := (rows.getD (jj+1) (0,0,0,0)).2.2.2 with hD
      set P := ((thomasFwd 0 0 rows).getD jj (0,0)).1 with hP
      set Q := ((thomasFwd 0 0 rows).getD jj (0,0)).2 with hQ
      set T := (thomasBack (thomasFwd 0 0 rows)).getD (jj+1+1) 0 with hT
      field_simp [hne]
      ring

theorem getD_eq_of_len_le {α : Type} :
    ∀ {l : List α} {j : Nat}, l.length ≤ j → ∀ (d : α), l.getD j d = d
  | [], _, _, _ => rfl
  | a :: rest, 0, hj, d => absurd hj (by simp)
  | a :: rest, j + 1, hj, d => by
      have e : (a :: rest).getD (j+1) d = rest.getD j d := rfl
      rw [e]
      exact getD_eq_of_len_le (by simpa using hj) d

/-- A strictly diagonally dominant tridiagonal system has at most one
solution (so a vector that checks against the system is the Thomas
solution). -/
theorem solvesTri_unique (rows : List (ℚ × ℚ × ℚ × ℚ)) (hdom : ∀ r ∈ rows, DomRow r)
    (x y : List ℚ) (hlx : x.length = rows.length) (hly : y.length = rows.length)
    (hx : SolvesTri rows x) (hy : SolvesTri rows y) : x = y := by
  set n := rows.length with hn
  set e : Nat → ℚ := fun j => x.getD j 0 - y.getD j 0 with he
  have hbeyond : ∀ j, n ≤ j → e j = 0 := by
    intro j hj
    have hx0 : x.getD j 0 = 0 := getD_eq_of_len_le (by omega) 0
    have hy0 : y.getD j 0 = 0 := getD_eq_of_len_le (by omega) 0
    show x.getD j 0 - y.getD j 0 = 0
    rw [hx0, hy0, sub_zero]
  have hrow : ∀ j, j < n →
      (rows.getD j (0,0,0,0)).1 * (if j = 0 then 0 else e (j-1))
        + (rows.getD j (0,0,0,0)).2.1 * e j
        + (rows.getD j (0,0,0,0)).2.2.1 * e (j+1) = 0 := by
    intro j hj
    have h1 := hx j hj
    have h2 := hy j hj
    cases j with
    | zero =>
        have ex : (if (0:Nat) = 0 then (0:ℚ) else x.getD (0-1) 0) = 0 := rfl
        have ey : (if (0:Nat) = 0 then (0:ℚ) else y.getD (0-1) 0) = 0 := rfl
        have ee : (if (0:Nat) = 0 then (0:ℚ) else e (0-1)) = 0 := rfl
        rw [ex] at h1
        rw [ey] at h2
        rw [ee]
        show (rows.getD 0 (0,0,0,0)).1 * 0
            + (rows.getD 0 (0,0,0,0)).2.1 * (x.getD 0 0 - y.getD 0 0)
            + (rows.getD 0 (0,0,0,0)).2.2.1 * (x.getD (0+1) 0 - y.getD (0+1) 0) = 0
        linear_combination h1 - h2
    | succ jj =>
        have ex : (if jj+1 = 0 then (0:ℚ) else x.getD (jj+1-1) 0) = x.getD jj 0 := rfl
        have ey : (if jj+1 = 0 then (0:ℚ) else y.getD (jj+1-1) 0) = y.getD jj 0 := rfl
        have ee : (if jj+1 = 0 then (0:ℚ) else e (jj+1-1)) = e jj := rfl
        rw [ex] at h1
        rw [ey] at h2
        rw [ee]
        show (rows.getD (jj+1) (0,0,0,0)).1 * (x.getD jj 0 - y.getD jj 0)
            + (rows.getD (jj+1) (0,0,0,0)).2.1 * (x.getD (jj+1) 0 - y.getD (jj+1) 0)
            + (rows.getD (jj+1) (0,0,0,0)).2.2.1
              * (x.getD (jj+1+1) 0 - y.getD (jj+1+1) 0) = 0
        linear_combination h1 - h2
  have hext : ∀ i, i < n → x.getD i 0 = y.getD i 0 := by
    rcases Nat.eq_zero_or_pos n with hn0 | hnpos
    · intro i hi
      omega
    · obtain ⟨k, hk, hmax⟩ :=
        Finset.exists_max_image (Finset.range n) (fun j => |e j|) ⟨0, Finset.mem_range.mpr hnpos⟩
      have hkn : k < n := Finset.mem_range.mp hk
      have hbound : ∀ j, |e j| ≤ |e k| := by
        intro j
        by_cases hj : j < n
        · exact hmax j (Finset.mem_range.mpr hj)
        · rw [hbeyond j (by omega)]
          simp
      have hdomk : DomRow (rows.getD k (0,0,0,0)) := hdom _ (getD_mem_of_lt hkn _)
      obtain ⟨ha, hc, hb⟩ := hdomk
      have hbpos : 0 < (rows.getD k (0,0,0,0)).2.1 :=
        lt_of_le_of_lt (add_nonneg ha hc) hb
      have rk := hrow k hkn
      have hEL : |if k = 0 then (0:ℚ) else e (k-1)| ≤ |e k| := by
        by_cases hk0 : k = 0
        · rw [if_pos hk0]
          simp
        · rw [if_neg hk0]
          exact hbound (k-1)
      have hek1 : |e (k+1)| ≤ |e k| := hbound (k+1)
      have hmain : |e k| = 0 := by
        by_contra habs
        have hpos : 0 < |e k| := lt_of_le_of_ne (abs_nonneg _) (Ne.symm habs)
        have hflip : (rows.getD k (0,0,0,0)).2.1 * e k
            = -((rows.getD k (0,0,0,0)).1 * (if k = 0 then 0 else e (k-1))
                + (rows.getD k (0,0,0,0)).2.2.1 * e (k+1)) := by
          linear_combination rk
        have h1 : |(rows.getD k (0,0,0,0)).2.1 * e k|
            ≤ ((rows.getD k (0,0,0,0)).1 + (rows.getD k (0,0,0,0)).2.2.1) * |e k| := by
          rw [hflip, abs_neg]
          calc |(rows.getD k (0,0,0,0)).1 * (if k = 0 then 0 else e (k-1))
                + (rows.getD k (0,0,0,0)).2.2.1 * e (k+1)|
              ≤ |(rows.getD k (0,0,0,0)).1 * (if k = 0 then 0 else e (k-1))|
                + |(rows.getD k (0,0,0,0)).2.2.1 * e (k+1)| := abs_add _ _
            _ = (rows.getD k (0,0,0,0)).1 * |if k = 0 then 0 else e (k-1)|
                + (rows.getD k (0,0,0,0)).2.2.1 * |e (k+1)| := by
                rw [abs_mul, abs_mul, abs_of_nonneg ha, abs_of_nonneg hc]
            _ ≤ (rows.getD k (0,0,0,0)).1 * |e k|
                + (rows.getD k (0,0,0,0)).2.2.1 * |e k| :=
                add_le_add (mul_le_mul_of_nonneg_left hEL ha)
                  (mul_le_mul_of_nonneg_left hek1 hc)
            _ = ((rows.getD k (0,0,0,0)).1 + (rows.getD k (0,0,0,0)).2.2.1) * |e k| := by
                ring
        have h2 : |(rows.getD k (0,0,0,0)).2.1 * e k|
            = (rows.getD k (0,0,0,0)).2.1 * |e k| := by
          rw [abs_mul, abs_of_nonneg hbpos.le]
        have h3 : ((rows.getD k (0,0,0,0)).1 + (rows.getD k (0,0,0,0)).2.2.1) * |e k|
            < (rows.getD k (0,0,0,0)).2.1 * |e k| :=
          mul_lt_mul_of_pos_right hb hpos
        rw [h2] at h1
        linarith
      intro i hi
      have hei : e i = 0 :=
        abs_eq_zero.mp (le_antisymm (hmain ▸ hbound i) (abs_nonneg _))
      have : x.getD i 0 - y.getD i 0 = 0 := hei
      linarith
  apply List.ext_getElem (by rw [hlx, hly])
  intro i h1 h2
  have hi : i < n := by omega
  have := hext i hi
  rwa [List.getD_eq_getElem x 0 h1, List.getD_eq_getElem y 0 h2] at this

/-! ## The natural-spline system over concrete knots -/

theorem splineRows_length :
    ∀ (xs ys : List ℚ), ys.length = xs.length →
      (splineRows xs ys).length = xs.length - 2
  | [], _, _ => rfl
  | [_], _, _ => rfl
  | [_, _], _, _ => rfl
  | _ :: _ :: _ :: _, [], h => by simp at h
  | _ :: _ :: _ :: _, [_], h => by simp at h
  | _ :: _ :: _ :: _, [_, _], h => by simp at h
  | x0 :: x1 :: x2 :: xs, y0 :: y1 :: y2 :: ys, h => by
      have e : splineRows (x0 :: x1 :: x2 :: xs) (y0 :: y1 :: y2 :: ys)
          = ((x1 - x0)/6, ((x1 - x0) + (x2 - x1))/3, (x2 - x1)/6,
             (y2 - y1)/(x2 - x1) - (y1 - y0)/(x1 - x0))
            :: splineRows (x1 :: x2 :: xs) (y1 :: y2 :: ys) := rfl
      rw [e, List.length_cons,
        splineRows_length (x1 :: x2 :: xs) (y1 :: y2 :: ys) (by simpa using h)]
      simp only [List.length_cons]
      omega

theorem splineRows_getD :
    ∀ (xs ys : List ℚ) (j : Nat), j + 2 < xs.length → j + 2 < ys.length →
      (splineRows xs ys).getD j (0,0,0,0)
        = ((xs.getD (j+1) 0 - xs.getD j 0)/6,
           ((xs.getD (j+1) 0 - xs.getD j 0) + (xs.getD (j+2) 0 - xs.getD (j+1) 0))/3,
           (xs.getD (j+2) 0 - xs.getD (j+1) 0)/6,
           (ys.getD (j+2) 0 - ys.getD (j+1) 0)/(xs.getD (j+2) 0 - xs.getD (j+1) 0)
             - (ys.getD (j+1) 0 - ys.getD j 0)/(xs.getD (j+1) 0 - xs.getD j 0))
  | [], _, j, hx, _ => absurd hx (by simp)
  | [_], _, j, hx, _ => absurd hx (by simp)
  | [_, _], _, j, hx, _ => by simp at hx
  | _ :: _ :: _ :: _, [], j, _, hy => absurd hy (by simp)
  | _ :: _ :: _ :: _, [_], j, _, hy => by simp at hy
  | _ :: _ :: _ :: _, [_, _], j, _, hy => by simp at hy
  | x0 :: x1 :: x2 :: xs, y0 :: y1 :: y2 :: ys, 0, _, _ => rfl
  | x0 :: x1 :: x2 :: xs, y0 :: y1 :: y2 :: ys, j + 1, hx, hy => by
      have e : splineRows (x0 :: x1 :: x2 :: xs) (y0 :: y1 :: y2 :: ys)
          = ((x1 - x0)/6, ((x1 - x0) + (x2 - x1))/3, (x2 - x1)/6,
             (y2 - y1)/(x2 - x1) - (y1 - y0)/(x1 - x0))
            :: splineRows (x1 :: x2 :: xs) (y1 :: y2 :: ys) := rfl
      rw [e]
      show (splineRows (x1 :: x2 :: xs) (y1 :: y2 :: ys)).getD j (0,0,0,0) = _
      rw [splineRows_getD (x1 :: x2 :: xs) (y1 :: y2 :: ys) j (by simpa using hx)
        (by simpa using hy)]
      rfl

theorem splineRows_dom :
    ∀ (xs ys : List ℚ), List.Chain' (· < ·) xs → ∀ r ∈ splineRows xs ys, DomRow r
  | [], _, _, r, hr => absurd hr (by simp [splineRows])
  | [_], _, _, r, hr => absurd hr (by simp [splineRows])
  | [_, _], _, _, r, hr => absurd hr (by simp [splineRows])
  | _ :: _ :: _ :: _, [], _, r, hr => absurd hr (by simp [splineRows])
  | _ :: _ :: _ :: _, [_], _, r, hr => absurd hr (by simp [splineRows])
  | _ :: _ :: _ :: _, [_, _], _, r, hr => absurd hr (by simp [splineRows])
  | x0 :: x1 :: x2 :: xs, y0 :: y1 :: y2 :: ys, hc, r, hr => by
      have h01 : x0 < x1 := (List.chain'_cons.mp hc).1
      have hc1 : List.Chain' (· < ·) (x1 :: x2 :: xs) := (List.chain'_cons.mp hc).2
      have h12 : x1 < x2 := (List.chain'_cons.mp hc1).1
      have e : splineRows (x0 :: x1 :: x2 :: xs) (y0 :: y1 :: y2 :: ys)
          = ((x1 - x0)/6, ((x1 - x0) + (x2 - x1))/3, (x2 - x1)/6,
             (y2 - y1)/(x2 - x1) - (y1 - y0)/(x1 - x0))
            :: splineRows (x1 :: x2 :: xs) (y1 :: y2 :: ys) := rfl
      rw [e] at hr
      rcases List.mem_cons.mp hr with h | h
      · rw [h]
        have hpos0 : 0 < x1 - x0 := sub_pos.mpr h01
        have hpos1 : 0 < x2 - x1 := sub_pos.mpr h12
        refine ⟨div_nonneg hpos0.le (by norm_num), div_nonneg hpos1.le (by norm_num), ?_⟩
        show (x1 - x0)/6 + (x2 - x1)/6 < ((x1 - x0) + (x2 - x1))/3
        linarith
      · exact splineRows_dom (x1 :: x2 :: xs) (y1 :: y2 :: ys) hc1 r h

theorem getD_append_lt {α : Type} :
    ∀ (l1 l2 : List α) (i : Nat) (d : α), i < l1.length →
      (l1 ++ l2).getD i d = l1.getD i d
  | [], _, i, _, hi => absurd hi (by simp)
  | a :: rest, l2, 0, d, _ => rfl
  | a :: rest, l2, i + 1, d, hi => by
      show (rest ++ l2).getD i d = rest.getD i d
      exact getD_append_lt rest l2 i d (by simpa using hi)

theorem getD_append_ge {α : Type} :
    ∀ (l1 l2 : List α) (i : Nat) (d : α), l1.length ≤ i →
      (l1 ++ l2).getD i d = l2.getD (i - l1.length) d
  | [], _, i, _, _ => by simp
  | a :: rest, l2, 0, d, hi => absurd hi (by simp)
  | a :: rest, l2, i + 1, d, hi => by
      show (rest ++ l2).getD i d = _
      rw [getD_append_ge rest l2 i d (by simpa using hi), List.length_cons,
        Nat.succ_sub_succ]

/-- `splineM` unfolded on a table of at least two knots. -/
theorem splineM_eq (xs ys : List ℚ) (h2 : 2 ≤ xs.length) :
    splineM xs ys = 0 :: (thomasBack (thomasFwd 0 0 (splineRows xs ys)) ++ [0]) := by
  have e : splineM xs ys = if xs.length < 2 then List.replicate xs.length 0
      else 0 :: (thomasBack (thomasFwd 0 0 (splineRows xs ys)) ++ [0]) := rfl
  rw [e, if_neg (by omega)]

/-- Any vector that checks against the natural-spline system is the interior
of `splineM`: this is how the solved coefficients are certified without ever
evaluating the Thomas recursion in a proof. -/
theorem splineM_eq_of_solves (xs ys Mint : List ℚ) (hsort : List.Chain' (· < ·) xs)
    (h2 : 2 ≤ xs.length) (hlen : Mint.length = (splineRows xs ys).length)
    (hsol : SolvesTri (splineRows xs ys) Mint) :
    splineM xs ys = 0 :: (Mint ++ [0]) := by
  have hdom := splineRows_dom xs ys hsort
  have hX := thomas_solves (splineRows xs ys) hdom
  have hlenX : (thomasBack (thomasFwd 0 0 (splineRows xs ys))).length
      = (splineRows xs ys).length := by
    rw [thomasBack_length, thomasFwd_length]
  have hu := solvesTri_unique _ hdom _ _ hlenX hlen hX hsol
  rw [splineM_eq xs ys h2, hu]

/-! ## Smoothness of the spline at interior knots -/

/-- Matching first derivatives of adjacent cubic pieces at their shared knot
is exactly the tridiagonal row of that knot. -/
theorem cubic_deriv_continuity (x0 x1 x2 y0 y1 y2 q0 q1 q2 : ℚ)
    (h0 : x1 - x0 ≠ 0) (h1 : x2 - x1 ≠ 0)
    (hrow : (x1 - x0)/6 * q0 + ((x1 - x0) + (x2 - x1))/3 * q1 + (x2 - x1)/6 * q2
      = (y2 - y1)/(x2 - x1) - (y1 - y0)/(x1 - x0)) :
    q1 * (x1 - x0)^2 / (2*(x1 - x0)) - q0 * (x1 - x1)^2 / (2*(x1 - x0))
      + (y1 - q1 * (x1 - x0)^2 / 6) / (x1 - x0) - (y0 - q0 * (x1 - x0)^2 / 6) / (x1 - x0)
    = q2 * (x1 - x1)^2 / (2*(x2 - x1)) - q1 * (x2 - x1)^2 / (2*(x2 - x1))
      + (y2 - q2 * (x2 - x1)^2 / 6) / (x2 - x1) - (y1 - q1 * (x2 - x1)^2 / 6) / (x2 - x1) := by
  have hL : q1 * (x1 - x0)^2 / (2*(x1 - x0)) - q0 * (x1 - x1)^2 / (2*(x1 - x0))
      + (y1 - q1 * (x1 - x0)^2 / 6) / (x1 - x0) - (y0 - q0 * (x1 - x0)^2 / 6) / (x1 - x0)
      = (y1 - y0)/(x1 - x0) + q1*(x1 - x0)/3 + q0*(x1 - x0)/6 := by
    field_simp
    ring
  have hR : q2 * (x1 - x1)^2 / (2*(x2 - x1)) - q1 * (x2 - x1)^2 / (2*(x2 - x1))
      + (y2 - q2 * (x2 - x1)^2 / 6) / (x2 - x1) - (y1 - q1 * (x2 - x1)^2 / 6) / (x2 - x1)
      = (y2 - y1)/(x2 - x1) - q1*(x2 - x1)/3 - q2*(x2 - x1)/6 := by
    field_simp
    ring
  rw [hL, hR]
  linear_combination hrow

/-- Both adjacent cubic pieces have second derivative `m1` at their shared
knot, whatever `M` solves — `C²` continuity and the meaning of `M`. -/
theorem cubic_dd_left (x0 x1 m0 m1 : ℚ) (h : x1 - x0 ≠ 0) :
    m0 * (x1 - x1) / (x1 - x0) + m1 * (x1 - x0) / (x1 - x0) = m1 := by
  field_simp

theorem cubic_dd_right (x1 x2 m1 m2 : ℚ) (h : x2 - x1 ≠ 0) :
    m1 * (x2 - x1) / (x2 - x1) + m2 * (x1 - x1) / (x2 - x1) = m1 := by
  field_simp

/-- Each segment of the spline is a cubic polynomial in the query value. -/
theorem segEval_is_cubic (xs ys M : List ℚ) (i : Nat)
    (hne : xs.getD (i+1) 0 - xs.getD i 0 ≠ 0) :
    ∃ A B C D : ℚ, ∀ v : ℚ, segEval xs ys M i v = A*v^3 + B*v^2 + C*v + D := by
  set x0 := xs.getD i 0 with hx0
  set x1 := xs.getD (i+1) 0 with hx1
  set y0 := ys.getD i 0 with hy0
  set y1 := ys.getD (i+1) 0 with hy1
  set m0 := M.getD i 0 with hm0
  set m1 := M.getD (i+1) 0 with hm1
  set h := x1 - x0 with hh
  refine ⟨(m1 - m0)/(6*h), (m0*x1 - m1*x0)/(2*h),
    (m1*x0^2 - m0*x1^2)/(2*h) + (y1 - y0)/h + (m0 - m1)*h/6,
    (m0*x1^3 - m1*x0^3)/(6*h) + (y0 - m0*h^2/6)*x1/h - (y1 - m1*h^2/6)*x0/h, ?_⟩
  intro v
  show m0 * (x1 - v)^3 / (6*h) + m1 * (v - x0)^3 / (6*h)
      + (y0 - m0 * h^2 / 6) * (x1 - v) / h + (y1 - m1 * h^2 / 6) * (v - x0) / h = _
  have hne' : h ≠ 0 := by rw [hh]; exact hne
  field_simp
  ring

/-- Above the last knot the unbounded last cubic piece is evaluated. -/
theorem splineEval_above (xs ys M : List ℚ) {c v : ℚ} (hb : ∀ x ∈ xs, x ≤ c)
    (hv : c < v) : splineEval xs ys M v = segEval xs ys M (xs.length - 2) v := by
  have e : splineEval xs ys M v = segEval xs ys M (findSeg xs v) v := rfl
  rw [e, findSeg_of_forall_le fun x hx => le_of_lt (lt_of_le_of_lt (hb x hx) hv)]

/-- Below the first knot the unbounded first cubic piece is evaluated. -/
theorem splineEval_below (xs ys M : List ℚ) {c v : ℚ} (hb : ∀ x ∈ xs, c ≤ x)
    (hv : v < c) : splineEval xs ys M v = segEval xs ys M 0 v := by
  have e : splineEval xs ys M v = segEval xs ys M (findSeg xs v) v := rfl
  rw [e, findSeg_of_forall_gt fun x hx => lt_of_lt_of_le hv (hb x hx)]

theorem consAppend_getD (Mint : List ℚ) (i : Nat) (hi : i ≤ Mint.length) :
    ((0:ℚ) :: (Mint ++ [0])).getD (i+1) 0 = Mint.getD i 0 := by
  show (Mint ++ [0]).getD i 0 = Mint.getD i 0
  rcases lt_or_eq_of_le hi with hlt | heq
  · exact getD_append_lt Mint [0] i 0 hlt
  · rw [getD_append_ge Mint [0] i 0 (le_of_eq heq.symm), ← heq, Nat.sub_self]
    rw [getD_eq_of_len_le (le_of_eq heq.symm) 0]
    rfl

/-- First-derivative continuity of the spline at every interior knot: the
derivative of the piece left of knot `j+1` and of the piece right of it
agree there, because `splineM` solves that knot's tridiagonal row. -/
theorem splineM_deriv_cont {xs ys : List ℚ} (hc : List.Chain' (· < ·) xs)
    (hlen : ys.length = xs.length) {j : Nat} (hj : j + 2 < xs.length) :
    segEval1 xs ys (splineM xs ys) j (xs.getD (j+1) 0)
      = segEval1 xs ys (splineM xs ys) (j+1) (xs.getD (j+1) 0) := by
  have hdom := splineRows_dom xs ys hc
  have hsol := thomas_solves (splineRows xs ys) hdom
  have hMl : (thomasBack (thomasFwd 0 0 (splineRows xs ys))).length = xs.length - 2 := by
    rw [thomasBack_length, thomasFwd_length, splineRows_length xs ys hlen]
  set Mint := thomasBack (thomasFwd 0 0 (splineRows xs ys)) with hMint
  have hM : splineM xs ys = 0 :: (Mint ++ [0]) := splineM_eq xs ys (by omega)
  have hp : xs.Pairwise (· < ·) := by
    have : IsTrans ℚ (· < ·) := ⟨fun _ _ _ h1 h2 => lt_trans h1 h2⟩
    exact List.chain'_iff_pairwise.mp hc
  have hne0 : xs.getD (j+1) 0 - xs.getD j 0 ≠ 0 :=
    sub_ne_zero.mpr (ne_of_gt (pairwise_getD_lt hp (by omega) (by omega)))
  have hne1 : xs.getD (j+2) 0 - xs.getD (j+1) 0 ≠ 0 :=
    sub_ne_zero.mpr (ne_of_gt (pairwise_getD_lt hp (by omega) (by omega)))
  have hrow := hsol j (by rw [splineRows_length xs ys hlen]; omega)
  rw [splineRows_getD xs ys j hj (by rw [hlen]; omega)] at hrow
  have hrow' : (xs.getD (j+1) 0 - xs.getD j 0)/6
        * (if j = 0 then 0 else Mint.getD (j-1) 0)
      + ((xs.getD (j+1) 0 - xs.getD j 0) + (xs.getD (j+2) 0 - xs.getD (j+1) 0))/3
        * Mint.getD j 0
      + (xs.getD (j+2) 0 - xs.getD (j+1) 0)/6 * Mint.getD (j+1) 0
      = (ys.getD (j+2) 0 - ys.getD (j+1) 0)/(xs.getD (j+2) 0 - xs.getD (j+1) 0)
        - (ys.getD (j+1) 0 - ys.getD j 0)/(xs.getD (j+1) 0 - xs.getD j 0) := hrow
  have hm0 : ((0:ℚ) :: (Mint ++ [0])).getD j 0
      = (if j = 0 then 0 else Mint.getD (j-1) 0) := by
    cases j with
    | zero => rfl
    | succ i =>
        rw [if_neg (Nat.succ_ne_zero i)]
        exact consAppend_getD Mint i (by omega)
  have hm1 : ((0:ℚ) :: (Mint ++ [0])).getD (j+1) 0 = Mint.getD j 0 :=
    consAppend_getD Mint j (by omega)
  have hm2 : ((0:ℚ) :: (Mint ++ [0])).getD (j+2) 0 = Mint.getD (j+1) 0 :=
    consAppend_getD Mint (j+1) (by omega)
  rw [hM]
  have eL : segEval1 xs ys (0 :: (Mint ++ [0])) j (xs.getD (j+1) 0)
      = Mint.getD j 0 * (xs.getD (j+1) 0 - xs.getD j 0)^2
          / (2*(xs.getD (j+1) 0 - xs.getD j 0))
        - (if j = 0 then 0 else Mint.getD (j-1) 0) * (xs.getD (j+1) 0 - xs.getD (j+1) 0)^2
          / (2*(xs.getD (j+1) 0 - xs.getD j 0))
        + (ys.getD (j+1) 0 - Mint.getD j 0 * (xs.getD (j+1) 0 - xs.getD j 0)^2 / 6)
          / (xs.getD (j+1) 0 - xs.getD j 0)
        - (ys.getD j 0 - (if j = 0 then 0 else Mint.getD (j-1) 0)
            * (xs.getD (j+1) 0 - xs.getD j 0)^2 / 6)
          / (xs.getD (j+1) 0 - xs.getD j 0) := by
    show ((0:ℚ) :: (Mint ++ [0])).getD (j+1) 0 * (xs.getD (j+1) 0 - xs.getD j 0)^2
          / (2*(xs.getD (j+1) 0 - xs.getD j 0))
        - ((0:ℚ) :: (Mint ++ [0])).getD j 0 * (xs.getD (j+1) 0 - xs.getD (j+1) 0)^2
          / (2*(xs.getD (j+1) 0 - xs.getD j 0))
        + (ys.getD (j+1) 0 - ((0:ℚ) :: (Mint ++ [0])).getD (j+1) 0
            * (xs.getD (j+1) 0 - xs.getD j 0)^2 / 6)
          / (xs.getD (j+1) 0 - xs.getD j 0)
        - (ys.getD j 0 - ((0:ℚ) :: (Mint ++ [0])).getD j 0
            * (xs.getD (j+1) 0 - xs.getD j 0)^2 / 6)
          / (xs.getD (j+1) 0 - xs.getD j 0) = _
    rw [hm0, hm1]
  have eR : segEval1 xs ys (0 :: (Mint ++ [0])) (j+1) (xs.getD (j+1) 0)
      = Mint.getD (j+1) 0 * (xs.getD (j+1) 0 - xs.getD (j+1) 0)^2
          / (2*(xs.getD (j+2) 0 - xs.getD (j+1) 0))
        - Mint.getD j 0 * (xs.getD (j+2) 0 - xs.getD (j+1) 0)^2
          / (2*(xs.getD (j+2) 0 - xs.getD (j+1) 0))
        + (ys.getD (j+2) 0 - Mint.getD (j+1) 0 * (xs.getD (j+2) 0 - xs.getD (j+1) 0)^2 / 6)
          / (xs.getD (j+2) 0 - xs.getD (j+1) 0)
        - (ys.getD (j+1) 0 - Mint.getD j 0 * (xs.getD (j+2) 0 - xs.getD (j+1) 0)^2 / 6)
          / (xs.getD (j+2) 0 - xs.getD (j+1) 0) := by
    show ((0:ℚ) :: (Mint ++ [0])).getD (j+2) 0 * (xs.getD (j+1) 0 - xs.getD (j+1) 0)^2
          / (2*(xs.getD (j+2) 0 - xs.getD (j+1) 0))
        - ((0:ℚ) :: (Mint ++ [0])).getD (j+1) 0 * (xs.getD (j+2) 0 - xs.getD (j+1) 0)^2
          / (2*(xs.getD (j+2) 0 - xs.getD (j+1) 0))
        + (ys.getD (j+2) 0 - ((0:ℚ) :: (Mint ++ [0])).getD (j+2) 0
            * (xs.getD (j+2) 0 - xs.getD (j+1) 0)^2 / 6)
          / (xs.getD (j+2) 0 - xs.getD (j+1) 0)
        - (ys.getD (j+1) 0 - ((0:ℚ) :: (Mint ++ [0])).getD (j+1) 0
            * (xs.getD (j+2) 0 - xs.getD (j+1) 0)^2 / 6)
          / (xs.getD (j+2) 0 - xs.getD (j+1) 0) = _
    rw [hm1, hm2]
  rw [eL, eR]
  exact cubic_deriv_continuity (xs.getD j 0) (xs.getD (j+1) 0) (xs.getD (j+2) 0)
    (ys.getD j 0) (ys.getD (j+1) 0) (ys.getD (j+2) 0)
    (if j = 0 then 0 else Mint.getD (j-1) 0) (Mint.getD j 0) (Mint.getD (j+1) 0)
    hne0 hne1 hrow'

/-! ## The solved second derivatives of the `T`-axis spline

The Thomas recursion itself is never evaluated inside a proof (its
dependency chain is 213 divisions deep).  Instead the solved interior
second-derivative vector is recorded literally below and certified by
`tMint_solves`, which checks it against every row of the tridiagonal
system; `splineM_eq_of_solves` then pins `splineM tXs tYs` to it.  The
numbers are exact rationals, already in lowest terms. -/

def tMintChunk0 : List ℚ := [
  mkRat (-129697208402005869088113417618528127725498502500467710547086050907995470130512682808647383277114890292898876677570919737196569834559993078758580277496904461051716948842249648457019675422986848784871678975866488217863326187248246315743057128792213564124605256196105780457575448059181210109509490049332666567939683244474726409616796512520966569652997866877261868582985536346855216771551832031601342805236257780989619268444600591741684395779) 8762507502373937579796357613154142054357413711958552042690228076704192696398366430579525936937717149527033423743852812320234919389308072349709847946613993284070827601632768298390322419038421386344313545233704917640135807376062741625762449321957690605652773122128391007816387786249249496569571953351560526927157958336827872936743455527692008423734997153204395424536134132467451049376416882631366615675038811980248550518593000284411882901600000,
  mkRat (-4797850449589359472903052321758899918430164731167971810991197366286088590944822896835736388228145478980171688306140861233241622577354119214523685989278522423623073677182568294350954974915870171421939154706780228954185408264962123599255269079780709365438267746070621045720794953904923158992807497630685319716327594011109470309054391855826949941098821137199247791225965378080152632226593869428256301940279765297704318308297078321673076521) 350500300094957503191854304526165682174296548478342081707609123068167707855934657223181037477508685981081336949754112492809396775572322893988393917864559731362833104065310731935612896761536855453772541809348196705605432295042509665030497972878307624226110924885135640312655511449969979862782878134062421077086318333473114917469738221107680336949399886128175816981445365298698041975056675305254664627001552479209942020743720011376475316064000,
  mkRat (-161173299518251958737354056890603591513236100107908233560666416693791411398593811203381371847836413847221585417794047555262855613189027312485159258490450187078781798180760782906356739171755444218753435667724958969874814427550767328603195454201903351529791628635600766412433711337432382637179021504673593730787401798354069501957297238537847282381968630683676849174250242862816775292640573250272235568658920297185697165706546780351587758039) 17525015004747875159592715226308284108714827423917104085380456153408385392796732861159051873875434299054066847487705624640469838778616144699419695893227986568141655203265536596780644838076842772688627090467409835280271614752125483251524898643915381211305546244256782015632775572498498993139143906703121053854315916673655745873486911055384016847469994306408790849072268264934902098752833765262733231350077623960497101037186000568823765803200000,
  mkRat (-18868913506389403760923092015640795784922814522060029635950310424638567239794045012031132832083851758190109753630823412394070743441327574884263191645711659845550648527449487087914805191267333067180438548740932474502453459174602034840449056967730240134622282161252100226025127423060328596430431748520683955774725814929251781176749389417258494108607126311586504574535006549918375372587865252415133974257933323157647014971375931339508331421) 2190626875593484394949089403288535513589353427989638010672557019176048174099591607644881484234429287381758355935963203080058729847327018087427461986653498321017706900408192074597580604759605346586078386308426229410033951844015685406440612330489422651413193280532097751954096946562312374142392988337890131731789489584206968234185863881923002105933749288301098856134033533116862762344104220657841653918759702995062137629648250071102970725400000,
  mkRat (-98532060179162655847726142113778677670816284223283611473236996103041439683689438737496365524377817380007673983591960755119675350859060018903139024843083624660280907674148721651975149380690385132454763357028250709249978183137826595828229330654134721583279423919516456558894055012438086028550168616839069151846338846151580935146034619849514095438156140881575147121679398294748846710569724207901490810540851199696320329835373913730801761) 10791265397012238398763987208317908933937701615712502515628359700374621547288628609088086129233641809762356433182084744236742511563187281218854492545091124734077373893636414160579214801771454909291026533539045465074058876078895002002170504091080899760656124534640875625389640130848829429272871863733448924787140342779344671104363861487305429093269700927591619980955830212398338730759134091910550019304234990123458806057380542222182121800000,
  mkRat (-9326155673380228037902180861075105879748222315705272500575343551716639180708511952443635640160248538651753271585941036489906049753523734156706192711144897647235186535547695575437139120338679747829675199508287738736785693950476218555481428586247179433013619188530549993829932659388593736102916756516753612814538892793892226123484864072695450367919744448704387447826474380469115153900270372370235759658027331606923739220245957101705540547) 1152961513470254944710047054362387112415449172626125268775030010092656933736627161918358675912857519674609661018928001621083542024908956888119716835080788590009319421267469512946095055136634392940041255951803278636859974654745097582337164384468117184954312252911630395765314182401217039022312099125205332490415520833793141175887296779959474792596710151737420450596859754272033032812686431925179817851978791050032704015604342142685774066000000,
  mkRat (-16887559790684853763399946090765296232317284232418172197234114880737147053715131864513371684107553177028431278630996372494711765918533757618899634197102634340373437296345243361748035320780624108246633580042381676863402466289789745576936843071354240218649060410272342161122717298615488054910947002339927677529858190039967666360086261392537672700592269574483801232849715666678115984764336569988075973339074727678913995512661912693167022071) 1564733482566774567820778145206096795420966734278312864766112156554320124356851148317772488738878062415541682811402287914327664176662155776733901419038213086441219214577280053283986146256860961847198847363161592435738537031439775290314723093206730465295138057522926965681497818973080267244566420241350094094135349703004977310132759915659287218524106634500784897238595380797759115960074443327029752799114073567901526878320178622216407661000000,
  mkRat (3092150122236661985400782250421753586723403637428960830322879067647840676622302707928722383790194804202551215314965475595425176097451193479128842487087988874648600594683004137164263645845242624043091899030490222785225638330641357543216067207806867529720437807705472155375274395805888781254188571007966261073025504770872745070457299950347155779058620498906014098223079156066178977468957601565057363261619181302786930513195464048275134129) 5476567188983710987372723508221338783973383569974095026681392547940120435248979019112203710586073218454395889839908007700146824618317545218568654966633745802544267251020480186493951511899013366465195965771065573525084879610039213516101530826223556628532983201330244379885242366405780935355982470844725329329473723960517420585464659704807505264834373220752747140335083832792156905860260551644604134796899257487655344074120625177757426813500000,
  mkRat (-86332762447586919790517714829951343375221528050627716510309880414663011320157838548492694679635094102451004585118266866610983770775237480487053904815917568048288821671248350862357323354247005457140848905905161588118468800150668498136538953028369962550704310962201695173449627191387920113861501357229486023333808192796798948964345881183535248253310497759831373254869117391962357641901530609698640165983997120728229022424210880723882396617) 5476567188983710987372723508221338783973383569974095026681392547940120435248979019112203710586073218454395889839908007700146824618317545218568654966633745802544267251020480186493951511899013366465195965771065573525084879610039213516101530826223556628532983201330244379885242366405780935355982470844725329329473723960517420585464659704807505264834373220752747140335083832792156905860260551644604134796899257487655344074120625177757426813500000,
  mkRat (-17317227769320116857458948478878773633328229866038622543671018791645364706085882689504726050708941719325487883381934880145177572863953662479426768859362600770914682914907944582163145193146881543445870121245072971383739866585377377794485608611836708740017320779045161019985809418440996756716568450864700020233994017567273238170795356037348755378719682331980714822841075368167622255647556508935952921497297546743568812494846709923231531951) 32859403133902265924236341049328032703840301419844570160088355287640722611493874114673222263516439310726375339039448046200880947709905271311411929799802474815265603506122881118963709071394080198791175794626393441150509277660235281096609184957341339771197899207981466279311454198434685612135894825068351975976842343763104523512787958228845031589006239324516482842010502996752941435161563309867624808781395544925932064444723751066544560881000000,
  mkRat (-982442527866042357289890111862626043943829228579363358212464622675037886986062111908905291046174317834917665538193035134236690852381618361708605402766431217015203096555511040052207164141078904729682309447776845157647591003429711670213255763275117404992706564761358503358139190469241139942093525883714470989570870445884894147438075877101510884844256423084408261664116456326053131379425896502664901434069933355965048802085033280811682261) 145395589088063123558567880749239082760355316017011372389771483573631515980061389887934611785470970401444138668316141797349030742079226864209787299999125994757812404894349031499839420669885310614120246878877847084736766715310775580073491968837793538810610173486643656103148027426702148726265021349859964495472753733465064263330920169154181555703567430639453463902701340693597085996290103141007189419386705950999699400197892703834267968500000,
  mkRat (-4894998095465795084724082153474268377626135549953416362253811365452291529708777545579505419596838773876165045882580531559877567629164106491647202652820169639350688114960739005468943533700236707571379766213995995053704278729218481999148417513393746901895554988330256738885539538286058418360351221910596925359210797266027560665036276039293236018756020625804859912124290092931035597731054172804617231552307441287904479786383088071896244431) 888091976591953133087468677008865748752440578914718112434820413179478989499834435531708709824768630019631765919985082329753539127294737062470592697291958778790962256922240030242262407334975140507869616070983606517581331828655007597205653647495711885708051329945445034575985248606342854382051211488333837188563306588192014148994269141320135988892060522284229266000283864777106525274636846212638508345443122835836001741749290569366069213000000,
  mkRat (-455349126196663383790780817128134615958309143557149769036123044519466203030191088560796721865485224043958315031461218515844643914797159806883157062514960942029626927783890087306818736514089174383493550020454959280629531737873349798678973889680779026534704428242806100216566186030292560526151816691110798105197885290965689860033658901472462356227319610929983706542250550478127408294144964427533235910862366299626053029144911876301129453) 88809197659195313308746867700886574875244057891471811243482041317947898949983443553170870982476863001963176591998508232975353912729473706247059269729195877879096225692224003024226240733497514050786961607098360651758133182865500759720565364749571188570805132994544503457598524860634285438205121148833383718856330658819201414899426914132013598889206052228422926600028386477710652527463684621263850834544312283583600174174929056936606921300000,
  mkRat (-5861809759514861983616906598849484505124953139169074801915677220440228592128839856463171005215780540459996366482552530374032931926949312463730721060301910491096071678879299667350216270847535901373768309422405794647618589721299855838296160093408486527010487386633244271465623527233273946775160212445173027961284950438716313682692632671174156775894382460735984227676558271399600180010875359155808315781617641393292679928328035616269553) 646118084163342627565665814376771521504646664754717804194530078433797058169617693529367488734010788157264490132087875188047850370698152208513614023824231201236848348540967703810923556429257685725594345336193466546176479278881976485956673128382774483183562582589657271945971289909914832578108989508393075187542675628603756197747085747525697950611426048139925690322787166750021883523621191063519583379722922545387705322740968396676754200000,
  mkRat (2783370720154895362420977999705552603129615340597746047517912576070169344244871402314659368528791000133259118130187150502587740938649303191703214704761309807314521473387543283746342242086627082259534176241000144801123586670563574828121922866133486991773481732666823975236375448432683366230737522866320915838046393206359092811050655352542706420638828797528162826232475328030318744014955146033289848457162200926800645026256027460868422481) 976901174251148446396215544709752323627684636806189923678302454497426888449817879084879580807245493021594942511983590562728893040024210768717651967021154656670058482614464033266488648068472654558656577678081967169339465011520508356926219012245283074278856462939989538033583773466977139820256332637167220907419637247011215563893696055452149587781266574512652192600312251254817177802100530833902359179987435119419601915924219626302676134300000,
  mkRat (-16008174032651848874364836971094150130186860237513278111596185244027075925103337980183393602458232802110407137321546299053114335089815570341021960352709215445002841094157726523635687789822408004723710789156631935105494178550414104634196300511146296492545395003782165614798966131072626119893204825215300195381823903303199972969303400962547923554174699572355328955448016385941734629231478022448539365834985674331710233191958003582129935683) 1302534899001531261861620726279669764836912849074919898237736605996569184599757172113172774409660657362126590015978120750305190720032281024956869289361539542226744643485952044355318197424630206078208770237442622892452620015360677809234958682993710765705141950586652717378111697955969519760341776849556294543226182996014954085191594740602866117041688766016869590133749668339756237069467374445203145573316580159226135887898959501736901512400000,
  mkRat (1686359263791723563640619781549400428637658372339505403489903836235178283203717898020158309867637635745361581620530692458585815849767169840198875057863398928082418340489645360194212861040798495492550932921569689526735867947190231386570068418824612990285846576164235013452133814979401806426937533405719138114035872136274956631374455758824174897197158550794497108270632042967040958248923911515866730817462976535651716733057200379596405033) 651267449500765630930810363139834882418456424537459949118868302998284592299878586056586387204830328681063295007989060375152595360016140512478434644680769771113372321742976022177659098712315103039104385118721311446226310007680338904617479341496855382852570975293326358689055848977984759880170888424778147271613091498007477042595797370301433058520844383008434795066874834169878118534733687222601572786658290079613067943949479750868450756200000,
  mkRat (-717764811733421639363340872118010226745089954495827831903062369196224342840063986808711781422782275073883821500963215226783587154576599108933508698373948657146675690975461867142086437423045441042643863022538525538803775158401172097993488335233310923521991513627668880767596922859601361878909684594861214433187623826886181500293248786380014427120276423736256718990271296559602046168520628708703141896351612773526934173577542704084557) 80673545608072171429733566187985678264367579646341600621695282411567699524627668093038277838419439007920139356547581917861058837157287894644526843866747567764070708606658225499299704097030500662911835637083605462270419151501830376986820598794959092374472660024257325759293417645880155444023459848539479091601578309834783400287480899964564428226727700231755699805444136589489880437233784398073991333528425756575330095405847328351851200000,
  mkRat (-1215894375909747400128584443646827769243509883759411512127319438868117992876312753735902814154137353320490252505655601798243533875708246557920940350816516554980166929562141352946930218610646463255942645049491260168699630013832846594559825300523719506279382745521562653229394126330060350040254868806504641341312371356439000110736267541299074012440172212159184745540458271034020991737452736149272334717038916736553804052893588163206410091) 349934748985486010649390642881105309956185541542515793556406849372212616758143717881150894617520773619675800302800092141873036312844493409689905182216533011344498560936524429826801903785721547901608326332447271821852942690693913441287003825281892444517799330008354461385164336764290318741584357959582288086239870058630883187066398587027635673235080564004532128692649164628591227869409145373338158512234305117404036507196735388526331749600000,
  mkRat (77998553359960198986692853842217230808711192952134302376314185267863938938706963762330700000111735501214533731515897331162831784503852805174126735054077039486673882488655773820603407391356491243215822583197043350127453105978953985022173137098318616429290610137728120377169469860819710602773132053061791359742341650373498573011348954923590766090241432334834556944590603992314563432966401151489934801598664244580743251439860884747863284313) 46891256364055125427018346146068111534128862566697116336558517815876490645591258196074219878747783665036557240575212347010986865921162116898447294417015423520162807165494273596791455107286687418815515728547934424128294320552984401132458512587773587565385110221119497825612021126414902711372303966584026603556142587856538347066897410661703180213500795576607305244814988060231224534500825480027313240639396885732140891964362542062528454446400000,
  mkRat (-42587874621720309655332471874397204421827814245111879508594009080872931895031305558788001465863598286419355158012223649883733213632185882980938628853730377693630271059578911702966469295631112133165065317573102877872381124572292146654261090876869184075408539919508686512115826293930729530431514074355821933650764842292091508759405573794989084683777759410441938573314877541382710741418910346543614540595393574906375800358796510204850991) 3840397736613851386324188873551851886497040341252835080799223408343692927566851613110091718161161643328137366140476031696231520550463727837710671123424686610987944894798875806453026626313406013007003745171821001157108461961751384204132556313494970316575357102466789338706963237216617748679140374003605782437030514975965466590245488178681669141154856312580450880001227523360460649836267443081680036088402693344155683207564499759420839840000,
  mkRat (48190894662562831787313983083837585897989981166750045466812309247116277914986241559116129978175418764316887161833924603700912289243684182179611964119805293730111590832250207219301656870321716223252812170909366866480710995090777743719500516837406185255949553651097052807399939400802840022989350064142110064921738753149819587010627158319376954302931188245845337775483512619182673573732118505895481001105487715007447006235321421051706847527) 46891256364055125427018346146068111534128862566697116336558517815876490645591258196074219878747783665036557240575212347010986865921162116898447294417015423520162807165494273596791455107286687418815515728547934424128294320552984401132458512587773587565385110221119497825612021126414902711372303966584026603556142587856538347066897410661703180213500795576607305244814988060231224534500825480027313240639396885732140891964362542062528454446400000,
  mkRat (-919106405205160584947211355539182250593717805656924523971993370911204066764143747877500744530603900180991273382155532982825366541983430709100467125994698255967388379160395794484080511624882161935111727799755822604144106735483290512436001406356755058358979488291994454793344492326031494590111328299462679356203870717160873261211460471481218368377658398783422926756009615323955636685790946149517939321369989505788995756899619225489902295361) 257901910002303189848600903803374613437708744116834139851071847987320698550751920078408209333112810157701064823163667908560427762566391642941460119293584829360895439410218504782353003090076780803485336507013639332705618763041414206228521819232754731609618106216157238040866116195281964912547671816212146319558784233210960908867935758639367491174254375671340178846482434331271734939754540140150222823516682871526774905803993981343906499455200000,
  mkRat (34199789998485990237645666527848285486014884207452732230050649746915536168049596140268642010261589823537051133624271725410441011865656701974597971277645830426446746291666203106076824536171873682532656461566092934414513829639373790301923481816062483195659768582223945128762296690378495084782429002644632163607313593874728131520157012756933620374027325334554552104375006575582145598043656548830390571602607292139104193951115497878102379) 41168793998292471841104781515424154112492416652060681594871394043789719618605143280135399366767149837608917682682363781396827801511116871728224139084298001334646889521944050567859047504202535047248038392052620214335640316552225110739647508856693228766799921177453466045313451384034155146068747995244975068969396477485986257301929245532663020380597713412297897493252842897481320925812840632157430413204035896165180765552557104532509617600000,
  mkRat (-30052097430779270719910700135307489336740269594631694480748288860181962007069342748982836123538564348294454396277867884809350450931170362472267917950897620968461370034545816961035757475003262201700592305157624573210522952980293837471634192376372637356852681108532120982379542688580312632930497382497155704100667317745118664845329185898269222601467438874993224731695595034549427940951298877558765316276002131662894328097940849782122667) 1886213047628927008327367101611750262837041937517985371542981408522787234335931544492124693433136913316032069210587785479122560978325105265424267675664337229290539306737500949187105997879593218777776175725982881099287784414842494011764220136274078341326834683069971754851650085535595442935330006700886025887214102488195428281049775167405598560478712613701017910089098473862881115627547283991444619494746455580536640867432121563255368240000,
  mkRat (852222913773388913067560561297355879463433291369155467667919211451155780857556544434919919442499462680421673780658562670382329054840338977285047083055205863639810858403311812150339041973253794730806860386486664113359548582936221258562688853986375840763908991876675266563091051676858568240860183393368712938720969728308072310699484233153992736359882012315487571314288454753948811256223192808017192401798929171057422477226086399077266251) 101937513834902446580474665534930677248106222971080687688170690904079327490415778687117869301625616663122950522989592058719536665046004601953146292210903094609049580794552768688677076320188450910468512453365074835061509392506487828548822853451681712098663283089390212664373958970467179807331095579530492616426396930122909450145429153612398217855436512123059359227858669696154835944567011913102854870955210621156828026009483787092453161840000,
  mkRat (-695896969269489040761204288791629640384661722250522813644335463550390378846352447599508411914261861113834971935768383379011021310234721301739508128681319612249835157673285484180433213473437245538443146629911545370549559950713763786593291111327502823040610966038928615397681554874400508169915173152043187877256225554036825214459883214313984765849388509337884221673420581007827287421731882287618982576720523503977752341228898108554613) 101834572365011728203052015128333557456329715758411858309662010827916325118285338073630395097885362980979134658606435553214656631711774221490118237905194582693935059484421777109642329183079468404364100916568977933454864800914259283837986627838757750459611719069026957153338518945880583130905289145937316850479716347293580070291764652387701953923752718614025615942177989771711692603131237944311322772934743977787977136078447964693360960000,
  mkRat (-19373340367799301395834004318589406059447170944568295464930878700125639659342513532353027975236249871758596781136158627208918271027120955379891510920540073321889202405162695668133071888768669265094765348486471740379852382402415082598167973659688764783633334161920487008783458949127622565417243851169850365875584398509962977707043684012392399263480014201533510563130789122615408884676697983375770575161593056088635055803280811210729724967) 12727626727386391187333551096789915987834976982389217291351597692880761746660484367505859681374398423367065536727557637045839292178601146015292837056047043526901333373491302833414823529120672299392782840605867915120537029864381480307381596273824259482033101345732435124094691448598330735943911076644235792393810130989631837061015011465319434629378787370793411423592639616348475230793081201721699308173550583270152527818898404274114866206880000,
  mkRat (-34683601089197061634149700912375071455210043843851503434918603191592148639155150571931607801762626287304320897833359934470907540051450885269518950705805167047982460573701654878380110994289250130333940736380850725845908045230140713026470388308946917832613714351834562571734844505528268472140736868205593443905020551390716595136885623357086088603668883348873405810013684100322821974331897071192554336164130156372723587662875417089483121863) 9378251272811025085403669229213622306825772513339423267311703563175298129118251639214843975749556733007311448115042469402197373184232423379689458883403084704032561433098854719358291021457337483763103145709586884825658864110596880226491702517554717513077022044223899565122404225282980542274460793316805320711228517571307669413379482132340636042700159115321461048962997612046244906900165096005462648127879377146428178392872508412505690889280000,
  mkRat (-3999959945679805250184036357939658018711270857684886144278888069089756722659005443877227355624521928882900188722384864344353163673166698411887990798089816237114473442562222772082751803934762156654312719995254687866762579480392696024843768254817393841359577258897205415818505628247339906259424557646793596497653431826364831883541038805008688146572696671539289480361688531101053031271946669547659344171813428239193653553687067353584104999) 468912563640551254270183461460681115341288625666971163365585178158764906455912581960742198787477836650365572405752123470109868659211621168984472944170154235201628071654942735967914551072866874188155157285479344241282943205529844011324585125877735875653851102211194978256120211264149027113723039665840266035561425878565383470668974106617031802135007955766073052448149880602312245345008254800273132406393968857321408919643625420625284544464000,
  mkRat (560261788562275393701156544569444609400052175806849036411198972198091757795175376874722727893141436420661839896178834259714354582826618325581628658771050234093813805954151973131648896833540615829622417249896023145107427801666816646267547603268509288338249425422266812038303080341005056978359611056953607166063925515217181114381810718341224771222755828325863573678234813924087504543551818564280888839801709671936937585516021553539747323) 51528853147313324645075105655019902784756991831535292677536832764699440269880503512169472394228333697842370594038694886825260292221057271316975048809907058813365722159883817139331269348666689471225841459942785081459664088519763078167536827019531414907016604638592854753419803435620772210299235128114314948962794052589602579194392758968904593641209665468799236532763723143111235752198709318711333231471864709595759221938859936332448851040000,
  mkRat (-2078888283646081932025564996222742151836931299997513008136028270449387637248175084444982663708991148066992717004948910446591254299604376117447218074840168743696998100854825780763497399606351510321597358557349740833945838943497714508689874957397439480502484732226080439590244022000246521739462486458681098714859196638122840450049185314595573045743073745089987853171960469112719569888201061669710967120298874305969659024203833890410093401) 123398043063302961650048279331758188247707533070255569306732941620727606962082258410721631259862588592201466422566348281607860173476742412890650774781619535579375808330248088412609092387596545838988199285652459010863932422507853687190680296283614704119434500581893415330557950332670796608874484122589543693568796283832995650176045817530797842667107356780545540117934179105871643511844277579019245370103676015084581294643059321217180143280000,
  mkRat (11262560803545780835844727999560799680550287770380344229940119281475932672978235295176533961270180354133233324658927672719776719981967275255571889744348403459052307408022272246500185887267051360787880540108590500996540990173968313862037388527243895447179657611402317807436917227296945378105488833835323595326934315832723219634183595918999114127696917737961618809869908641975891536479053418216456140054934077719523667317857336506235752293) 1339750181830146440771952747030517472403681787619917609615957651882185447016893091316406282249936676143901635445006067057456767597747489054241351269057583529147508776156979245622613003065333926251871877958512412117951266301513840032355957502507816787582431720603414223588914889326140077467780113330972188673032645367329667059054211733191519434671451302188780149851856801720892129557166442286494664018268482449489739770410358344643670127040000,
  mkRat (-1721494618729918825873946612369502102364916577876766211341099487401926578075406492006036232672748880951694953690946082601422176569963925753341551157543816391846374461011655605805087374029735779390604976536695171206666034259313517636953175342899755922682409735839717922995659684869766016499200156888966002702846117321365378296247752786958095399621517331216181437644302429562535790306777053924453988445205933430813215265958599657888391407) 197804307242912439766578631385398981657615549288796768665383325774168819100509029611231200481070055162685229054535635210716321766913090815700646155108998064477113578613747556115497453306172130550834681733328755635280646017221026009739899432752394786255966966193308055343772793833511996549213192911148499320212015879295571191101056074751601504622708070670551907980609130775168937242311174481504795307908125820706301529378204271727787524960000,
  mkRat (52934286923564449360426871323025742670271559033750264810186498339263637782049824139915715509277181358979575492796219366413336020130340846259463839409779101669404515481330918242718361997012071942518257256491311595242202068854450153440407550511097290803705651171948005565283069570320180203231811515642758195584189521771448317856458572350935185210810735686752079890187255032763887804275851662307292521129546357684585650364700649904490948133) 9378251272811025085403669229213622306825772513339423267311703563175298129118251639214843975749556733007311448115042469402197373184232423379689458883403084704032561433098854719358291021457337483763103145709586884825658864110596880226491702517554717513077022044223899565122404225282980542274460793316805320711228517571307669413379482132340636042700159115321461048962997612046244906900165096005462648127879377146428178392872508412505690889280000,
  mkRat (-6757024493831414516597370117655016212813701346868862195671954477540525196762231959230388509140850031575601419662302090604840193731651546979104416989636874672757160055514320789996571766274400612053507893120810608056194979588573654866267707932233727125340102396574482188343596300058364894226339699400620659379962766247598503235136017781747713026121441617067292379605295785749616579544427806168944255856346835879429697955453241154556204157) 1172281409101378135675458653651702788353221564167427908413962945396912266139781454901855496968694591625913931014380308675274671648029052922461182360425385588004070179137356839919786377682167185470387893213698360603207358013824610028311462814694339689134627755527987445640300528160372567784307599164600665088903564696413458676672435266542579505337519889415182631120374701505780613362520637000682831015984922143303522299109063551563211361160000]

def tMintChunk1 : List ℚ := [
  mkRat (-114403114659079817939847007223543972468421705892409584247576538801735900278696081336498419707385906226213844257723707628542316718051712931546216739737333740439994085940040506565132600059306242336831912048593134322813082554609549917370325195254099073178090477470457635306782019824955129406131357115068026053205842022230434007642487366405504211790995488431627216855656355497811542451097829801544877839101736293729701469824442935933444850057) 9964391977361714153241398556039473701002383295423137221518685035873754262188142366665771724233904028820268413622232623739834709008246949840920050063615777498034596522667533139318184210298421076498297092316436065127262543117509185240647433924901887357644335921987893287942554489363166826166614592899105653255680299919514398751715699765611925795368919060029052364523184962799135213581425414505804063635871838218079939542427040188287296569860000,
  mkRat (40520314860418781258945048265692311540821799065925526250024103250380553248112642813636487008492397722111346554826656912508915645495666125855440762225621393226084385814598417907407133133328758929975871778308237722262720945436485349164447533772246409668565428967722522429059384576309344002983359421186152149764246801316864568873686679665443621224402875071194793136831746020172254170439962882173344751394133009373556647246370157198314191473) 3985756790944685661296559422415789480400953318169254888607474014349501704875256946666308689693561611528107365448893049495933883603298779936368020025446310999213838609067013255727273684119368430599318836926574426050905017247003674096258973569960754943057734368795157315177021795745266730466645837159642261302272119967805759500686279906244770318147567624011620945809273985119654085432570165802321625454348735287231975816970816075314918627944000,
  mkRat (-4936873182569901391061879312845456972030699475896514896378572860707428889349382459834474621149008415347929996180234323236928237312446238033756740212957807947897008962245577553261589268550800491206200753789695666045737312298845434871024788850793032291434953428827289535653631337256863589100398730628676218992082864210066514008952057143958842531795867787266104682886209949651021270652486755505734226381724318927990097396332893280813896249) 586140704550689067837729326825851394176610782083713954206981472698456133069890727450927748484347295812956965507190154337637335824014526461230591180212692794002035089568678419959893188841083592735193946606849180301603679006912305014155731407347169844567313877763993722820150264080186283892153799582300332544451782348206729338336217633271289752668759944707591315560187350752890306681260318500341415507992461071651761149554531775781605680580000,
  mkRat (28624937196964024327566327688958773879087841218110885376199131433229568431258277772087371829348152718723303313642106833737697028663884149460675877604488543570932364779614543502870203601814920117686201093710436706145856373331239220910142056271681685592719599746943749463671339294778239257535044368251077741019390455799429632994972654442874653214939647307519481044238904150184489272081125894759045742291516084432836062720332662367542977) 4755705513595854505782793726781755733684468820151837356648936898161915886976801034084606478574825929516892215068479954057909418450422121389294857445944769119691968272362502393183717556519948014078652710806078542000841208981032900723373074298962838495475163308429969353510346970224635163425182958071402292449913041364760481446946999052911073043965597928661998503530931851950428451774931590266461789111500698350115709124174700006341628240000,
  mkRat (-53344307299612573269932094405879177618369803747861346477253482185318304344540398150026742387904830668503828706077467126719513940807259579362537601430552581584724691128513909265426866901999739109378467357032265291187034184613113378126018865646197899452184937479162668313583365901562839330606849668134332019363236223831699389869589892420804427344008013577563950418160289513894953142345978550060903049813913434287198148399948309688283671) 3407794793899355045568193760615415082422155709789034617482450422665442634127271671226324119095042417517191659925524153125798464093107711983898785931469144151174622613771386162557518539773741818227871782597960350590719063993676191942765880275274243282368103940488335597791571302791780720303219765013374026421231292722132147315908242053902847399236976422718554160233647388098199457449187898257798927372049192277045122962526347533613986515000,
  mkRat (874037081761840230501487528767758173762534417158679328319379555345564464729819480841031195593984622008518864224245488851278195620776934060968192234958367074047305107950186876398892559557653508442673084774591702613285402745859252175504949561875110135812686434341106474737280857373762212629070444203510745588997120287198974433008579235937137997551733554233794148652500032039943329078364109498040982783234726336185725960221433519585121451) 90175493007798318128881434896284829873324735705186762185689457338224020472290881146296576689899583971224148539567716051944205511386850224804706335417337352923390013779796679993829721360166706574645222554899873892554412154909585386793189447284179976087279058117537495818484656012336351368023661474200051160684889592031804513590187328195583038872116914570398663932336515500444662566347741307744833155075763241792578638393004888581785489320000,
  mkRat (85932406498967720205554763786278937682310838024085536821766888252639532832942296971195258610436662242396969745518355706490343793904092896183266025291990078639792517986777884896321429333805237330562201367093574621860105264652636959368285153815964491292888007893928685775230493363711476843394367980862041585662234856646844031424806996082722385582826159802474081358269689364482794827107206277396704426826566932130490401567207869917923647) 58614070455068906783772932682585139417661078208371395420698147269845613306989072745092774848434729581295696550719015433763733582401452646123059118021269279400203508956867841995989318884108359273519394660684918030160367900691230501415573140734716984456731387776399372282015026408018628389215379958230033254445178234820672933833621763327128975266875994470759131556018735075289030668126031850034141550799246107165176114955453177578160568058000,
  mkRat (-7658060887003794473847479346536481448367050657016665684290791389176827202322060917137461150401851099234948989745560244111671913705374160994185824607071292317165955860012520185547296862593402159081791222254206288150317546620558792690204331962236729766516284011834078160820840123224204770781342957745637779809579800238626678239964113096345716211552967432164597074931856213365928245526221290317676545245950665553442099423798091773125667201) 586140704550689067837729326825851394176610782083713954206981472698456133069890727450927748484347295812956965507190154337637335824014526461230591180212692794002035089568678419959893188841083592735193946606849180301603679006912305014155731407347169844567313877763993722820150264080186283892153799582300332544451782348206729338336217633271289752668759944707591315560187350752890306681260318500341415507992461071651761149554531775781605680580000,
  mkRat (9780555473936981206143531940837478472771753739391305771482867659595417138538790812207089466676628663896020560159975055368920292760836706136388149280717601530616736103343380203134392627105974580582530274971555302421604692338850796403822760744729594952068086308349083729563508961933360811498534626766171334590995421423173331735303626043159620667009454025988291933821721939334991934828031574645483323909280821505072803816907379255376011) 11722814091013781356754586536517027883532215641674279084139629453969122661397814549018554969686945916259139310143803086752746716480290529224611823604253855880040701791373568399197863776821671854703878932136983606032073580138246100283114628146943396891346277555279874456403005281603725677843075991646006650889035646964134586766724352665425795053375198894151826311203747015057806133625206370006828310159849221433035222991090635515632113611600,
  mkRat (814564256030914033231253279766997964830385701305486361427745408179677682087757536385149036723789338065106411101937890433983979307600974252415456392989681715863229805620549163560059762453172463280755023894270746809428086878969804772777111401898687253728952392880608773558305475833933229783090861770343358984482959421998858841843341126816256011164439518138134098309644546499847122651516425055511411494870643036061076951488087988864352143) 83734386364384152548247046689407342025230111726244850600997353242636590438555818207275392640621042258993852215312879191091047974859218065890084454316098970571719298509811202851413312691583370390741992372407025757371954143844615002022247343906738549223901982537713388974307180582883754841736257083185761792064540335458104191190888233324469964666965706386798759365741050107555758097322902642905916501141780153093108735650647396540229382940000,
  mkRat (-111740722249935824297690612524143629046074454130317969518999831961166870302026616353101203788400836950319245931504099819994742873628129694690674652868687803870319760691124420663135049738830841263442691461851404554783152421498851617942916821050534708174640092002425090657157592720749541123781755775317985057705313196443232172130706806474921473028279357620722703673425346360072569581303589261820617529652135547322036954661209324529514571) 7078994016312669901421851773259074808896265484102825533900742423894397742389984631049852034835112268272427119652055004077745601739305875135635159181312714903406220888510608936713685855568642424338091142594796863545938152257394988093668253711922341117962727992318764768359302706282443042175770526356284209474055342369646489593432580111972098462183091119656899946379074284455196940594931382854364921594111848691446390695103040770309247350000,
  mkRat (6399776157050847891411494281084333396847896292177883277269538972580738056258604715182526377230587099130193854526285052350375448669893109477905630219035221156523989273432220168316665811115500948260515835582396657258712548654414882895341845683125485444844864633773133645198749171214395689221839334279694214222485756140423830380863644945691118648939640658764334299611023743903220835502069020459163154570971996734488955246178338541916033231) 976901174251148446396215544709752323627684636806189923678302454497426888449817879084879580807245493021594942511983590562728893040024210768717651967021154656670058482614464033266488648068472654558656577678081967169339465011520508356926219012245283074278856462939989538033583773466977139820256332637167220907419637247011215563893696055452149587781266574512652192600312251254817177802100530833902359179987435119419601915924219626302676134300000,
  mkRat (-5089442478856123906282336298002756389516655249363826657728089539840962061677372902001069693061516448688359739778787217121113639059445270022154709390130983845995915059176855310877013190251673849343485960297046400237387580225409004152622430713764076025639562919378936035053624444697073040902737520062447459463304901726264640884708520244612655658928005641698802045755698588961434369894190381852703699595946640703757360620733233691295561063) 488450587125574223198107772354876161813842318403094961839151227248713444224908939542439790403622746510797471255991795281364446520012105384358825983510577328335029241307232016633244324034236327279328288839040983584669732505760254178463109506122641537139428231469994769016791886733488569910128166318583610453709818623505607781946848027726074793890633287256326096300156125627408588901050265416951179589993717559709800957962109813151338067150000,
  mkRat (1563598049879304092387177457297260925367363998262204184864703044364314112977425076459933349664651345227041686002947951046271257018714629517729143886953757827550685785253844256520852313576778322273404159189183933714227108527798567622100295581201502393168451778929079546991178714557340260406460704890977799369892470867557595645448465160348769060697131896863874410733242686802212160933974100228953795040639793921681668190279072524742878947) 139557310607306920913745077815678903375383519543741417668328922071060984064259697012125654401035070431656420358854798651818413291432030109816807423860164950952865497516352004752355521152638950651236653954011709595619923573074358336703745573177897582039836637562855648290511967638139591402893761805309602986774233892430173651984813722207449941111609510644664598942901750179259596828871504404843194168569633588488514559417745660900382304900000,
  mkRat (-10096053456951802503172477082035846530973512416109508585795001497945357040608771653995838909314185603567307409936345069567849844140079760039267762638445553054804199334061769124736610798868221283119474064163335969790171203830256126075076611950911009296245041241252318952501229949190473969531221176466745595771678367603403759521759038000027466459290274985897297608843184545949958700999357897375402661605795092947963684623821709355441945069) 976901174251148446396215544709752323627684636806189923678302454497426888449817879084879580807245493021594942511983590562728893040024210768717651967021154656670058482614464033266488648068472654558656577678081967169339465011520508356926219012245283074278856462939989538033583773466977139820256332637167220907419637247011215563893696055452149587781266574512652192600312251254817177802100530833902359179987435119419601915924219626302676134300000,
  mkRat (46753101857550554194028469967284852680615392472869956610268988273638117765344134981005862093058451354859720207451959597228528940109144217696124696940809255472504749690436586165277289577939131800131620225782644135736165197607985227062249414012141353227699368869571462235548195776974182937158546936781427994922842000137660667313317076754681109788337739011096323057769570409173687508563686977946753229625285905214662016745204563637412311) 7910130965596343695515915341779371041519713658349715981200829591072282497569375539148822516657858243089837591190150530872298729069021949544272485562924329203806141559631287718756993101769009348653089697798234551978457206571016261999402583095103506674322724396275218931446022457222486962107338725807022031639025402809807413472823449841717810427378676716701637187047062763196900225118222921732002908339979231736191108630965341103665393800000,
  mkRat (-2594839657539754348913380253555965123053005392735071366366933953113326801909594682277259017050119225737320958130901499709916732057079527687093287602140190034298684748727575439693558444293063145520197959442071618336178232470999689790847069067118195552261959239899901296702149193726591550584397892657579511455027857707345148291319789789852347986399386465832205971531466849436391615030920127388937250370000130109402463684870321025205964999) 244225293562787111599053886177438080906921159201547480919575613624356722112454469771219895201811373255398735627995897640682223260006052692179412991755288664167514620653616008316622162017118163639664144419520491792334866252880127089231554753061320768569714115734997384508395943366744284955064083159291805226854909311752803890973424013863037396945316643628163048150078062813704294450525132708475589794996858779854900478981054906575669033575000,
  mkRat (22180376334928082590691527103417932698268021212540139924202051458160950195173002587544123002756729638222476403745082588045447719824227188872501249062621708848981082280037389126492384555355773608233989725964427675298506463031893977989191621696797622246973446663345747917131564455285711084572478633921073979147143343806594109788877762770375522941238718406895214070144233881036253740491929527622128879470435417787974147029974023828331632063) 1953802348502296892792431089419504647255369273612379847356604908994853776899635758169759161614490986043189885023967181125457786080048421537435303934042309313340116965228928066532977296136945309117313155356163934338678930023041016713852438024490566148557712925879979076067167546933954279640512665274334441814839274494022431127787392110904299175562533149025304385200624502509634355604201061667804718359974870238839203831848439252605352268600000,
  mkRat (-2629347216956963837060952281850306360849665838551811808860327967124890676035059860419998201427950046131230938859799720662049830383703831049730532425088012830634949544100165086062189353115045603720083777001221936738661908675591929922289251769284456169504932898347450827691136876607553326930310663745387587615533555417649889627149687817819820017687458436025831066779490345906052278222802851414034862899598272460859073004168515328584664569) 279114621214613841827490155631357806750767039087482835336657844142121968128519394024251308802070140863312840717709597303636826582864060219633614847720329901905730995032704009504711042305277901302473307908023419191239847146148716673407491146355795164079673275125711296581023935276279182805787523610619205973548467784860347303969627444414899882223219021289329197885803500358519193657743008809686388337139267176977029118835491321800764609800000,
  mkRat (69187402272256216786504406715084990618363168484780081375175823054075173608230453931418749938403226927046752233298436984368133863335473189058001764163521854866571704839052477147204326966266062149017889673704468170652008327792909577116086462173512568651105601431467719648918280578228608094844482649967741182557588045027403463919291931298704295635004379357453846812280277842887646730059125679049729396987034107944053542637737203612235931) 114929549911899817223084181730559096897374663153669402785682641705579633935272691657044656565558293296658228530821598889732810945885201266907959054943665253725889233248760474501939840949232077006900773844480231431686995883708295100814849295558268596973983113287057592709833385113762016449441921486725555400872898499648378301634552477112017598562501949942664963835330853088802020917894180098106159903527933543461129637167555250153256015800000,
  mkRat (-120410196788947314688010578835397584897561297177307892230543595063446538563234406918728435504617061029789080556215501672451753497843068010806911857841560309030956999965032012385390826215957097953130417847321030609402771488469367814406331670136495342500927110818130810127205821000391978278018907360453809280084425115403104388788186237288228883895307978162973930176666575235193301152722316723411860869182886937414182103684037107484080067) 21994022684828858080214984121045080456908472123216283459924257887371712310314849060072335778024288773469304521845784402913220856435817128001147886687155451932534149702389434144836517404918708920645176232902408266476685891441362289461753523727848774655433916614033535565484062442033256431225283286390256380654851120007757198436631055657459277773687052334243576568862564756206015260084814953108495891481893473607946009364147533800435485200000,
  mkRat (4197273443647880821212871763164980472420087507249836708166166064995258360370442964659098216779304134710345061682300608800705282946124644616066026107652530150078792079814690886619229163463491284908729528789003852035290500947086338911591015226812503619489815063206211898727695342394530986407849527486420310517214885547752521286205532881444572436678568329068451245174875478299944727901981674464704896709230678857748400790060507656646287703) 344788649735699451669252545191677290692123989461008208357047925116738901805818074971133969696674879889974685592464796669198432837655603800723877164830995761177667699746281423505819522847696231020702321533440694295060987651124885302444547886674805790921949339861172778129500155341286049348325764460176666202618695498945134904903657431336052795687505849827994891505992559266406062753682540294318479710583800630383388911502665750459768047400000,
  mkRat (-114999775117650360289412208655670936275800492215193883672395785514185862597026423783038955536402177981369741269453743494576343162023712911122595028194089818703421165543148285548701586933105315952869929864248588589438936932311489152131600835211469249194928517959290295715629813454381928661406522528818824936456778332172212855896596503011671881811961898044137126608425701096544876995585459145241580109441606217813158311433511588285482645827) 7117422840972652966600998968599624072144559496730812301084775025624110187277244547618408374452788592014477438301594731242739077863033535600657178616868412498596140373333952242370131578784586483213069351654597189376616102226792275171891024232072776684031668515705638062816110349545119161547581852070789752325485928513938856251225499832579946996692085042877894546087989259142239438272446724647002902597051313012914242530305028705919497549900000,
  mkRat (16761716685319833828392818505581009024768221552670095026301029147844797194101612544770684446603146359164916325440726149576772250000471617232857139319776915382873876344530480652684574859086060611902544310409392557379225563419027952993619518941473767966462282678762892058291749775352860889030578071510134342625848287553874191071571015228977083061841382237460892032990608261245482036075731148944723299273179606816106318060264203472292837713) 1532983381132571408190984393236842107846520506988174957156720774749808348028944979487041803728292927510810525172651172883051493693576453821680007702094734999697630234256543559895105263122834011768968783433297856173425006633462951575484220603831059593483743987998137428914239152209717973256402245061400869731643123064540676731033184579324911660825987547696777286849720763507559263627911602231662163636287975110473836852681083105890353318440000,
  mkRat (-19979929062407501215142547621223691012523140468101796625954089133547405390386496436794963541974655361878051567277870880902981873701676968249507730571728410900979568632240012675919120859197763224419663923715225261649635397936385524524452232699228689324102888408272091951765782975961192170538364600826805375194514268233102949018652009686891719899595815004527729618342440499228255144688189086068678176921806086485385084311280475412963896453) 2930703522753445339188646634129256970883053910418569771034907363492280665349453637254638742421736479064784827535950771688186679120072632306152955901063463970010175447843392099799465944205417963675969733034245901508018395034561525070778657036735849222836569388819968614100751320400931419460768997911501662722258911741033646691681088166356448763343799723537956577800936753764451533406301592501707077539962305358258805747772658878908028402900000,
  mkRat (5076514208830976764689937055526628531846337340772266540941918999743070609125601763508493677836944134537152403198429899878805080729566344979011301485177177131640585000243240966820240572954864184322697781705953934387839515166947597819251408305139152154309578854587193921103074860551984129426939753776869876297187839957306536463695381196080846241502053617214013893386834052443805489692206918427281083076245789659235076565273323354095849) 2507553816259632375776382146848562114124538105170968788051257637212646558587767817971883415975817308290724986127016703048715875182949845823446379380589060081292128725427501261860505620710518043786925974788659594873170819280908256745051257357634951206705086108081256568214546584300262177078732832437648481473590512719600981126572054046080383968636406180567235574589036794664771365481327565776861670622427640948242828447292114548798313072000,
  mkRat (-3104140003315826314446516493209444350947498671043187548215780525127382371224552828573221146392641889001460851608360792325005378328239496265829145609267959657732454371710236286753722703913034213190938427603121087118816044172051571558230668708359746336882879745788788500570540101773871345182404972921281072427553570836490802589925098574844862184130470283560948308695688367886473269826169458912770372700476768944905540966626817510015896377) 450877465038991590644407174481424149366623678525933810928447286691120102361454405731482883449497919856120742697838580259721027556934251124023531677086686764616950068898983399969148606800833532873226112774499369462772060774547926933965947236420899880436395290587687479092423280061681756840118307371000255803424447960159022567950936640977915194360584572851993319661682577502223312831738706538724165775378816208962893191965024442908927446600000,
  mkRat (18427923269647158522703014137924382152733096336686368796703541794765512329791735911698912546778652324226082058839281869518920681964213092820822996331001958037885850856652200577830966805959737694761799701993141742668768546046234203553617987264928576950277723251688115623131221244116951961178999245214085102062806898890705514733201700259042233737585432638732466930379953474845640057487999614997674641131205039285135300423810255488770514279) 1563041878801837514233944871535603717804295418889903877885283927195883021519708606535807329291592788834551908019173744900366228864038737229948243147233847450672093572183142453226381836909556247293850524284931147470943144018432813371081950419592452918846170340703983260853734037547163423712410132219467553451871419595217944902229913688723439340450026519220243508160499602007707484483360849334243774687979896191071363065478751402084281814880000,
  mkRat (-6553761951136331613334195670631764150579691612656279156239013530145393106169142505298428985854979003688831812526475972547715951270400404005993006860209640061266177343539143122308550179865818506928362257326257286079966225603573138935647504641916712305997837609093863903548451025369845508598698402229624322991882464782122086536118693919406434519836198446450066573655096253055043623357324880107620683877883117775740875937787930650218446453) 589827124076165099710922593032303289737469969392416557692559972526748310007437210013512199732676524088510153969499526377496690137373108388659714395182583943649846631012506586123162957324360848035415292182992885838091752459785967309842245441355642610885347298378861607869333599074401291966947219705459454132781667771780356566879212712725826166207557177064242833268113057361399050748438056352544820636973545732479759647350472227201615779200000,
  mkRat (13412845112755597851615563829904093152382458688298418495432257156155144832712487384575722802155433956389003290545588191104175522497355730996493630935490010909992917629198353177117225007908534382740618127671246324799749372795862268436515042363885623963241230099963178849033886678486309924925179237002457005666230765881812731661846743047518473134372151053905227129015293358863445867628400626706226363167347320396238398008851963372678835247) 3607019720311932725155257395851393194932989428207470487427578293528960818891635245851863067595983358848965941582708642077768220455474008992188253416693494116935600551191867199753188854406668262985808902195994955702176486196383415471727577891367199043491162324701499832739386240493454054720946458968002046427395583681272180543607493127823321554884676582815946557293460620017786502653909652309793326203030529671703145535720195543271419572800000,
  mkRat (-352887741495905450047881526679575187905604737170687137682951592947017558721205029653424962673223469877932084025031492239747418087731331786682449526517628364897941235813904973973131922223822433203414686362934709292459304899801546826629611167779347635523431750550246239635320501528770796325025594693745261233578687751351112333589188943756298117320748156620583036206430205086046434119539009240335853032820705594865994118812323217373865879661) 93782512728110250854036692292136223068257725133394232673117035631752981291182516392148439757495567330073114481150424694021973731842324233796894588834030847040325614330988547193582910214573374837631031457095868848256588641105968802264917025175547175130770220442238995651224042252829805422744607933168053207112285175713076694133794821323406360427001591153214610489629976120462449069001650960054626481278793771464281783928725084125056908892800000,
  mkRat (217402752952981742805280633795337478115569802149181679838787692749264013852609693549471237806567754217235364788764579115623978553160335921713187597171552825861583372489044509971827897671767554130998366840740710383056383284754364898751712045431237563598263175769910005087663857957682621139423037732922502623968055535166034940487703309233780391869588737521097932643505740222063638652935231297258953635189683103615046261195135363030715857761) 46891256364055125427018346146068111534128862566697116336558517815876490645591258196074219878747783665036557240575212347010986865921162116898447294417015423520162807165494273596791455107286687418815515728547934424128294320552984401132458512587773587565385110221119497825612021126414902711372303966584026603556142587856538347066897410661703180213500795576607305244814988060231224534500825480027313240639396885732140891964362542062528454446400000,
  mkRat (-4468019005481556296169740443886931813212174702077163723131522100354006194439564397913820632393696815336305234347544071565767013048678355681026850792875283019890434915916280428775479421705398940406415800154569059404711290577662820031436921378176854596785375324291895246109495539055103280949121903363275869300297275728010555013448404482039499135096505798635987475463242749367042007753642645037450885543307339740372043793141384038077307538501) 562695076368661505124220153752817338409546350800365396038702213790517887747095098352890638544973403980438686886902548164131842391053945402781367533004185082241953685985931283161497461287440249025786188742575213089539531846635812813589502151053283050784621322653433973907344253516978832536467647599008319242673711054278460164802768927940438162562009546919287662937779856722774694414009905760327758887672762628785690703572350504750341453356800000,
  mkRat (201790158103258090671776181656929974865273266246629814523280968352179297280370162173176895025778706326724326658215682119714115991522130977662258237106257576308699251912873801691559888973472644309500526526243613745106150115446394952785311312649286729096716982634809966015046761545019396335028206077565962056990123855080423670267017512188737620900727009006492416210871032003556436275983700375877955581850855018512438872293009824251892823403) 23445628182027562713509173073034055767064431283348558168279258907938245322795629098037109939373891832518278620287606173505493432960581058449223647208507711760081403582747136798395727553643343709407757864273967212064147160276492200566229256293886793782692555110559748912806010563207451355686151983292013301778071293928269173533448705330851590106750397788303652622407494030115612267250412740013656620319698442866070445982181271031264227223200000,
  mkRat (-95394829370616389647400152871084843726782043936168920961735276882609635482508804123527214783059015598557817121560349913283970135684850424997765652221981446126185874890042301675994134901083686482552437967346316531614003412389482403448367982387340112145921689445885952176810637991893672534698971601842683655849896816842350737247925931133114543298718658252177186376816573962900552727341565861387397568677491505596021294548848576089557264021) 11972235667418329896260003271336539115096730868092880766780898165755699739299895709635971032871774552775291210359628684343230689171360540484709947510727342175360716723104920918329733218881707426080557207288834321054032592481613038587010684064963469165630240907519871785262643691850613458222715906361879132822844916048477875846867423998732726863021479721686971551867656526016482859872551186389952316758994949548631717097284053292560456454400000,
  mkRat (222582077932119748557969547480022758764430256456773533862132997125479571598726158846790725276593393482539421577362037235150506329330207353002565884357501141875017107127613759970576203886945662222181294944309982910105339886301982542297169976773947788289244535658158173821198673478982397199999625040699256798850680423026011486222408069639408525184012450593211360725884482518491628796738881446511220363367936777828698611413301709074677147923) 46891256364055125427018346146068111534128862566697116336558517815876490645591258196074219878747783665036557240575212347010986865921162116898447294417015423520162807165494273596791455107286687418815515728547934424128294320552984401132458512587773587565385110221119497825612021126414902711372303966584026603556142587856538347066897410661703180213500795576607305244814988060231224534500825480027313240639396885732140891964362542062528454446400000]

def tMintChunk2 : List ℚ := [
  mkRat (-22089545448167688159625758267561332673702788570763098856960115372636494950461826434645441751442269900499663840821919667809330188600583988319207908426573301310162275303511681498116130742491636019955787530104757152513523903762816398622246842269968451901438632533409339901445138560433368258667879017697084578084887160504151390561019099854078058559144483586483973307366324378817441550110972558410640781307253682608626420473948662236808394163) 4935921722532118466001931173270327529908301322810222772269317664829104278483290336428865250394503543688058656902653931264314406939069696515626030991264781423175032333209923536504363695503861833559527971426098360434557296900314147487627211851344588164777380023275736613222318013306831864354979364903581747742751851353319826007041832701231913706684294271221821604717367164234865740473771103160769814804147040603383251785722372848687205731200000,
  mkRat (6692410176808540269661715327487683979302577233441024298005108960481548830396571948027027752272609254726585632538044966820128052616773701465125650158550238484357347158855643954685508526608470693222252089039420107590204106427321764724913309255854421316798030353856764814034363844234325882402637054686295338384423010327758952074825123658813462798853452596942542885406351665277750119207619171567716382951091376076294653252403875309890131159) 1019375138349024465804746655349306772481062229710806876881706909040793274904157786871178693016256166631229505229895920587195366650460046019531462922109030946090495807945527686886770763201884509104685124533650748350615093925064878285488228534516817120986632830893902126643739589704671798073310955795304926164263969301229094501454291536123982178554365121230593592278586696961548359445670119131028548709552106211568280260094837870924531618400000,
  mkRat (-26499820434047200959803843247294650516201216223379587854312106068992175816761219676480031297757937152692868890241023625152005203935687699748164859289083706116659710203196381459303713132113436318878698826106432205440100336976486191619757466320273338516377638778355423597156384064323065472503096585577234088126336750311822309173570983115828558910706709598310421584566421528034584906591244208742163003420469548148838261248963305335174593563) 2758309197885595613354020361533418325536991915688065666856383400933911214446544599769071757573399039119797484739718373353587462701244830405791017318647966089421341597970251388046556182781569848165618572267525554360487901208999082419556383093398446327375594718889382225036001242730288394786606115681413329620949563991561079239229259450688422365500046798623959132047940474131248502029460322354547837684670405043067111292021326003678144379200000,
  mkRat (9876320928894464841059984773106243687405590268047606885754546804756944779879915403007665687165620390048136660904703738965991551815854899483387480376933900313257446364100912072721094710003504300665016605565117692716624716399853692787073265194115922242229065662642665580227216200818927231085065664406350724543190736513373506571482791188942634392604711128577024230504395669723955324493107921670393004996937196451761150590641330469090761741) 1094513354934947645102393828962277787651656497257057998027778671377952484356552709736376139675931068348519149350035669033425983356882162433747541270176035684131564295017679604839112588499320713706996067373968985329775911659099144498177778549346066540223976774203034961531484522606736058373555006591027647994553696768150157978219964130924275705229134049085428500800349844157731285203336221278278810285194767603084369714155882431434939354400000,
  mkRat (-66090930651780272289239665658246426614546654918652126513278504823434786308460598401528673812420568861750077786841375559069380383639002527461460854008484196050827533580829833743696946974339733618713461899318424991161697571831399559087573340575634511169742258664124116298280825993756250554357409860563053424207268523886210928665857462113450014542178867825015488034250050032792709701498302286111064133479509216426389417913878991263432400859) 6698750909150732203859763735152587362018408938099588048079788259410927235084465456582031411249683380719508177225030335287283837988737445271206756345287917645737543880784896228113065015326669631259359389792562060589756331507569200161779787512539083937912158603017071117944574446630700387338900566654860943365163226836648335295271058665957597173357256510943900749259284008604460647785832211432473320091342412247448698852051791723218350635200000,
  mkRat (31839293062359896389956561802419022224504512227036082376209596206674408616562097029951203861839838267918040469010133945965641087638221268855119832202668391068727322783305014700739192312210528306402635081040605420514143278025015421972942943609585921420562479206177890406703739020297111670782801788993765955220095285794049636060166626408850030052296616328845551757088699556608713560485297314246009199831383846570893279978667828009991901011) 5861407045506890678377293268258513941766107820837139542069814726984561330698907274509277484843472958129569655071901543376373358240145264612305911802126927940020350895686784199598931888410835927351939466068491803016036790069123050141557314073471698445673138777639937228201502640801862838921537995823003325444517823482067293383362176332712897526687599447075913155601873507528903066812603185003414155079924610716517611495545317757816056805800000,
  mkRat (-32509443914280812604423091271828022601389299452925659429623989614683405711221522570630384380240113045401968139673052860878000177991114719344832955232768410941199886390391823867256359589874143831607085155417052485804844809811780811635147757593081749089268339122008709476407799836621710904904144523189113064378701450768943815482959292450088935535512651923440135840061653917701703049359748471298560099747494907433691088846101982908164745449) 11722814091013781356754586536517027883532215641674279084139629453969122661397814549018554969686945916259139310143803086752746716480290529224611823604253855880040701791373568399197863776821671854703878932136983606032073580138246100283114628146943396891346277555279874456403005281603725677843075991646006650889035646964134586766724352665425795053375198894151826311203747015057806133625206370006828310159849221433035222991090635515632113611600000,
  mkRat (-1725083385361730599146291891048625881399341999200259650431219410327017378547623380670122141156934095452343013931605142086367028204792931174148751702299579861512250611279602399191663072139584970618872957234633219894607271827892099067600914460170646317409059398051030333507328474576927806350611848859527348389890536396303405740131642140658194717901276961236611746302682017692734090411755391243404820035436597052318606505091268608339869) 809810313001780972420184203959452050534140345514940528056067246060315187993770002004597607742950118558934740960472719449623287958019517078240662034004825634155892635491404282895680006688427179794409984259255568253113676439503046441220960772792442448973906987792199119674150682619765520713116606220365201083796328195919769740724257575671856524825587102386835196960745165450249111192677975269883138308914701674014591253874733041975139100000,
  mkRat (9907543784282625404878027334919503873842383492974596273540755289306755730296028274411157501367748975808377514751200005140335975461722657126117614246675551092647376272113126926460167077564392865404099371333649936275502974334466116346834474306063162605345368573221493852116552527145765751855114733954648189060055824839073175955946013835247476500259192100084867310795202468639946832236309738483642383281601087451834165526019371818269233151) 5861407045506890678377293268258513941766107820837139542069814726984561330698907274509277484843472958129569655071901543376373358240145264612305911802126927940020350895686784199598931888410835927351939466068491803016036790069123050141557314073471698445673138777639937228201502640801862838921537995823003325444517823482067293383362176332712897526687599447075913155601873507528903066812603185003414155079924610716517611495545317757816056805800000,
  mkRat (-15321620113138685805412796701116289834549898804486139476837661836348560055264637033429389787047500458129656219864586149104142455634325393498503827995989478019643522632938221608466965314035995590187401757147475005796524010495349159368566042122695004148134279721571724759067671365644914774110866574406568926205964486071424823254589493204487762841884858803088381464658919125536555103878628799469072577761298663774310623609639505895999534111) 2930703522753445339188646634129256970883053910418569771034907363492280665349453637254638742421736479064784827535950771688186679120072632306152955901063463970010175447843392099799465944205417963675969733034245901508018395034561525070778657036735849222836569388819968614100751320400931419460768997911501662722258911741033646691681088166356448763343799723537956577800936753764451533406301592501707077539962305358258805747772658878908028402900000,
  mkRat (25293242737560045131882965066475629477220323161892132565221023060973935889734221654363257765457763567227344581378009459249805598269902021291127222429210194086045114314777215804755243252321012976666672419953981690024170768998790756922866690421546235571287022930131057149164388532066145267624212670564432663172724735077838196706854034602745346395956428140541035593516366519727106622713526059746927216089410090701880801850868171612901403031) 5861407045506890678377293268258513941766107820837139542069814726984561330698907274509277484843472958129569655071901543376373358240145264612305911802126927940020350895686784199598931888410835927351939466068491803016036790069123050141557314073471698445673138777639937228201502640801862838921537995823003325444517823482067293383362176332712897526687599447075913155601873507528903066812603185003414155079924610716517611495545317757816056805800000,
  mkRat (-15301514679461883135059963998503081370147452435203824676543144303265285035644609989789640110162208105042596803400751711956199738482645546417266351143705541352623239935003610149822240093443983090804858136263588125662431395206365405593683882568785721580116000156786062559574544937882289305655165380169557593088154826862163443524337839663244020095054986335222063478708267055075259746231416330190500810008785122966728261097976028047022239) 3856188845728217551564008729117443382740860408445486540835404425647737717565070575335050976870705893506295825705198383800245630421148200402832836711925610486855494010320252762894034137112392057468381227676639344089497888203370427724708759258862959503732328143184169229079935947895962394027327628830923240424024883869781114068001431797837432583347104899392048128685443097058488859745133674344351417815739875471393165457595603788036879477500,
  mkRat (43315827285183309203820594819496010151956289633142361779565553941101421249040059444497823472753604015209205207003126903403544062249364041530314056436733109581633283725437298345975884276851312518983421350287537066694507855614394700039704445151700624737396157877270338302535461181834722372274423098401489033671867862055472024180299947029733340250297071439575244735672855167010803482548708430948257421373961166021836180470652437643665897) 9453882331462726900608537529449216035106625517479257325919056011265421501127269797595608846521730577628338153341776682865118319742169781632751470648591819258097340154333522902578922400662638592503128171078212585509736758176004919583156958183018868460763127060709576174518552646454617482131512896488715041039544876583979505457035768278569189559173547495283730896132054044401456559375166427424861540451491307607286470154105351222283962590000,
  mkRat (-2776350834881751544872463081279026837391959576527589904836715345618142199422251170565357997017780394255561773547619423157165173934610793105127710139524035621585220670175630005755882822703498105926096515006894539999101679245243098735149678907062944489271991426780563300620432928643139914671929413943019484257122508875997083909740649805860673927710688544526135531955064260996224455790557016461122771672858685689072921793998594570331) 371363886340947465155123988546143490829394050533732118437263738558247768911183433449273954180102015535856501367374551801466431203306832887865266031790680113233749183999375561480114745968934310179893348230900689900442411870979053397769393661052247000700298843069893244459801757079997848312191242973530729348604033810208109843048493570656427521385526332443957988654064033331658778671634938410425480539750131512134703765558712586328730000,
  mkRat (1861407988829591779476932017765665248237696761002948265509657209035148888288399433623524380511990442138667177955129344677915345340411376330228553355093210236484457524970039159005934765186844754615117004466963542514900219894818267891857073578268456918746956904060721147064218272565437715439210267389443375608758555111427564836249714344046264596314442214607948386723885928753413175677528017329669144524154096021731222449980509676001151) 421078092349632951032851527892134622253312343450943932619957954524752969159404258226241198623812712509308164875854995932210729758631125331343815503026359765806059690782096566063141658650203730413214042102621537572991148711862288084881990953554001325120196751267236869842061971321972905094938074412572077977336050537504834294781765541143167925767787316600281117500134591058110852500905401221509637577580790999749828412036301563061498333750,
  mkRat (-21226327126902755782713682349907966819981785362074311460785818198182601546334871562041220487862599386627162148333843314323552968532805337380465192435898795502738733658041687354492075890642132988560958988292962360154494844907589984080655150570913125419861846696235221424067539323953884974817411594947245481988188447007631745378726061801644755936069215416487368675302347164320210289106352651926618199521316798938783195379337108715391823) 5519215673735301957040765789320634596766579868961524992532782228799021968643038864886325315295172276958163517016856443857225384406916445021003683429498048907740443404601491713369992361968772059653426992531536537679883983115935075462859994419464876125869245553333274226178439398118514914238736342582865654844178741508537941038947435341537568292549528669563006737854871476015916258768929552733911633785239746437398880880927794498885175900000,
  mkRat (343552060038310586814583732388172032933716542907339752637020607708496521044257205843908281539635127306653473986695459786665869994427919792750404813847325832879206297773318947796240356802319466075608551947489914803798549981062495158968391643530852329518577679891082184908116472777302230098217573878689054467711510572055463693175682991258634068471159451423748247568305705447229376577019133011165096766443269423729597611352474556094769) 73333588298304607626580087932370557774073013472589574893276633057058369165985728086643948113845873262555921017314352209192940624563923338658616652513849063407320975073651088474613801026058902103792656716901358760584986363591270270012477655808623992163861710259732975030045824251849950441916950202970214761341680305801062123202909822999610868865574009697176373180886216438906304008765428698371211028424639809785276892897924604116405475000,
  mkRat (-2606030262186164229344202808892424161321658169740591017509850744437489686050402854945652663259456764455764023213862416871773271052925001594255275712832622556208088642803936436971042808697837582211940373378935370994628695704114223296829377825382730973013661543870912663333941292808789405332072994280316675269433920085876254879377657687485009149839908322891231806825365806048819623682182084752714204213293278536809347967847206827706006869) 344788649735699451669252545191677290692123989461008208357047925116738901805818074971133969696674879889974685592464796669198432837655603800723877164830995761177667699746281423505819522847696231020702321533440694295060987651124885302444547886674805790921949339861172778129500155341286049348325764460176666202618695498945134904903657431336052795687505849827994891505992559266406062753682540294318479710583800630383388911502665750459768047400000,
  mkRat (4902817807604398147794942241073297276841091995095566678247870166940467949436837052798638210690937846840596783454023480073862234233523894749643344447108826576713256440027448982611091283278713431048533561159724525615552477422724361479125368179475868140973231385651180603636873435226244667904624529905292890311142243470793811879334893210307838409353867229396142171397408050116530468321394628198101362927629195425934356890833306991457921849) 976901174251148446396215544709752323627684636806189923678302454497426888449817879084879580807245493021594942511983590562728893040024210768717651967021154656670058482614464033266488648068472654558656577678081967169339465011520508356926219012245283074278856462939989538033583773466977139820256332637167220907419637247011215563893696055452149587781266574512652192600312251254817177802100530833902359179987435119419601915924219626302676134300000,
  mkRat (-18482211595007044426934687769114411015316727292504972346677882293678560129122035078147910280939782399394603955188774840225763551936492553092628584838576101093310662939474616161519389433134245450382169802949321920219324890141947577426926910078652979719096844992485637770442348996443968624963869868841569775907950760753267433776786010442899626648390326666046272567223526330924142488540852670112246586455066635045313952088291205842655249747) 3907604697004593785584862178839009294510738547224759694713209817989707553799271516339518323228981972086379770047934362250915572160096843074870607868084618626680233930457856133065954592273890618234626310712327868677357860046082033427704876048981132297115425851759958152134335093867908559281025330548668883629678548988044862255574784221808598351125066298050608770401249005019268711208402123335609436719949740477678407663696878505210704537200000,
  mkRat (538569633874659667996920353481762017396704465961928081441759431727219336902447906610997413375419361473236763308975510272353423108993060539368901452110850528580216046421138932536664711374250198447025245441968592362598707837236154215171049363183551652080297225252837443397092341315627309377549287800754806842252266782681118954114679049371047570671921177790814479015294765751571737369613023827430170304284347103709012176783369736062527021) 107548753128566801438115472812082824619561611391507147560914031687790116159612977513931696969605008406047149634346817309658226756699913112152402051415172989725144053131867599992640952080932769309209898459972326660844711744387578901679950716944434833865562179406237380333972525519300235576541981574734005971459042632698482447401140850141521055535552283432585562488107770780346845262616572201897507432659167169110414889826519591886533152400000,
  mkRat (-19002371782458028324973344970624254496815437006092248729126601598080748971720546658327488688342792307320466019373351207097393131293854059061948697394339103626686826002033645115842831666714573161681874682818796913169077888229720549801605461819354765180392149369588481472261735224227491029649174505578122940222867599254233720882373659927724144886424530008676556278687677048091312555977483249082545693794343220181524600632995231309948364883) 2930703522753445339188646634129256970883053910418569771034907363492280665349453637254638742421736479064784827535950771688186679120072632306152955901063463970010175447843392099799465944205417963675969733034245901508018395034561525070778657036735849222836569388819968614100751320400931419460768997911501662722258911741033646691681088166356448763343799723537956577800936753764451533406301592501707077539962305358258805747772658878908028402900000,
  mkRat (1585917056842406624569979252009691280182453668847831464783915457789152171141276074968862614573905355928369460702645252596716305034672283546806665112733422009484170777271494356667127546462695688474393574619789403453303633404273571384721351063422128401522948693243965549790057985055801987937779177400532141567001956213212053546261117521473256176270544509343229074073875188413699107081088210213217902830157370981083011301215929794413795271) 344788649735699451669252545191677290692123989461008208357047925116738901805818074971133969696674879889974685592464796669198432837655603800723877164830995761177667699746281423505819522847696231020702321533440694295060987651124885302444547886674805790921949339861172778129500155341286049348325764460176666202618695498945134904903657431336052795687505849827994891505992559266406062753682540294318479710583800630383388911502665750459768047400000,
  mkRat (-44060172772913448806885740254708934313762040036567216517090243953071108290304321221103686911981998525329287064329301599285610704883222592097352362759924521098703632647740343975544213388164516413950743751248357231638522374403608404581967073455204874071961529821122799068916008408791568396934338784950490224816744543034135979438566549563647242808635675070523888604705714726168806038792932694032885703117360295564431375008528121777602981) 8797609073931543232085993648418032182763388849286513383969703154948684924125939624028934311209715509387721808738313761165288342574326851200459154674862180773013659880955773657934606961967483568258070493160963306590674356576544915784701409491139509862173566645613414226193624976813302572490113314556102552261940448003102879374652422262983711109474820933697430627545025902482406104033925981243398356592757389443178403745659013520174194080000,
  mkRat (1704547656973718872631732113059422490222830987052268225323190373706071661225837990548735499839002417702642625361950438132256204517266447223123332863762812088402065079954122350859630138279018471257855375284656766117494712851764284774654527212441426923678772188660608640297460337495352159079521510507887462943992094123082116068057092942395083933454240956351913439696541208045270125239036688629219629098311604987656423335176400660194792253) 339791712783008155268248885116435590827020743236935625627235636346931091634719262290392897672085388877076501743298640195731788883486682006510487640703010315363498602648509228962256921067294836368228374844550249450205031308354959428496076178172272373662210943631300708881246529901557266024436985265101642054754656433743031500484763845374660726184788373743531197426195565653849453148556706377009516236517368737189426753364945956974843872800000,
  mkRat (-6800593707634059761059604953010201028025272282964182328223714336474034549513487472874361070832579247533004934091552157607771041140356158341448926993003038968963135025468358989113151716777031136520325441372993977111063272901324944397634531675899504560240595710127396293440121710783961323315865054937004881034392778689492984912909611478180366662689986641376181129664161303846899501379114232724461714833086188066191421695619014443798855243) 1465351761376722669594323317064628485441526955209284885517453681746140332674726818627319371210868239532392413767975385844093339560036316153076477950531731985005087723921696049899732972102708981837984866517122950754009197517280762535389328518367924611418284694409984307050375660200465709730384498955750831361129455870516823345840544083178224381671899861768978288900468376882225766703150796250853538769981152679129402873886329439454014201450000,
  mkRat (129428391940789446006606341240441456254195627030321892484281726393013182655753803457557364173389939606429505451567275406444856188116837987069843404787504255141890956529756423044105362767533511945377119238817214298009255669391788802259242533780972770695830178216340423194416297198111540183948287817247031549891802651215236085877065157499413997587555949773597487226824567463523803217462695421826972957468298603032331251948344642846042583) 732675880688361334797161658532314242720763477604642442758726840873070166337363409313659685605434119766196206883987692922046669780018158076538238975265865992502543861960848024949866486051354490918992433258561475377004598758640381267694664259183962305709142347204992153525187830100232854865192249477875415680564727935258411672920272041589112190835949930884489144450234188441112883351575398125426769384990576339564701436943164719727007100725000,
  mkRat (10514065674360696550782509158498120812826319071486420408664103778380561303627666629332174770289109813823738043566326253325357514840762916367189639960683184635302822681580828165796148881095602639315989499176207021062488589274041054389115081159831659483020691017524937933519611204746259947651553872784872645340072532210053770417461895155904088034703877278322614828787645450870221739975698361379578438198011849267922661396319331053233177) 11315457616808669263276627931000992165571636719762817648783426113869809518723759217199377383867708413377547596663902593390682158764759198093254655988662023050232337636460973358299096309673428431181350320595544021266480289708731757030033424852261966111338105748339647158690159538227534438072467173403481323251964910197041106917687599097901346576616987349567399914289331095615642986124716573365664392046186507174744423736573972505436403100000,
  mkRat (-419635099738496607876263353083453999370000991580552605491157899300944686574675892410499718932798065917117664555038906468182141056375794309746897153310626464033944437641430319749780014609857054634617093174273941247075438817814068342120329672435467073017319575615053152177151244241139142737349703260276768808634213805190767053033792622379881964414206192124679852908241993471129331287851559586020245698232529079232283797068051601817769) 411038362237509865243849457802139827613331544238228579387785043968061804396837817286765602022683938157753832753990290559352970423572599201423976984721383446004232180623196647938214017420114721413179485699052721109118989485913257373180737312305168193946222915683025051066024028106722499223109256369074567001719342460173021976392859490372573459094502065012336125918784958452237241711963757714124414802238752504664629137135015270534085330000,
  mkRat (1591081859662889951419930431624140894061318419734606652134209559142557629523964102955569992129671834110487107480239546392489289902883057438283099997665610361815740137258363075577201396590039898834773926384371439064452372870079891309019702583344295827734393903172276336034796685113198192528026640669746901503585666540508326993833897211393438009391338072192226567080033128950895503601976861231439532844817737988498673043948600520924668269) 5861407045506890678377293268258513941766107820837139542069814726984561330698907274509277484843472958129569655071901543376373358240145264612305911802126927940020350895686784199598931888410835927351939466068491803016036790069123050141557314073471698445673138777639937228201502640801862838921537995823003325444517823482067293383362176332712897526687599447075913155601873507528903066812603185003414155079924610716517611495545317757816056805800000,
  mkRat (-625544270362825949612181433431759120442532136512740878672576632465064617666082542843016408777939007341859429878459505483026033137522044237075076619165967220623211954385947274139708187538812493831342034329505516569923904503768010982636363823104313897550326421740867424495082232852218083351150977281975136189504567927652910853739648109270781620096664455708834812250989619909996299742013495442614190333018235664707771759217082634502117) 9640472114320543878910021822793608456852151021113716352088511064119344293912676438337627442176764733765739564262995959500614076052870501007082091779814026217138735025800631907235085342780980143670953069191598360223744720508426069311771898147157398759330820357960423072699839869739905985068319072077308101060062209674452785170003579494593581458367762248480120321713607742646222149362834185860878544539349688678482913643989009470092198693750,
  mkRat (-15455116159170762019581488442970735290576133069314574045678510090112576683274143830996350222812141238138062033768470393372992129230450675512082769122133216421743422508478352094548934879377030388423782128691137301949454013978002320904947234678747533626312391294823135390627338150103438771154572176196171876858820154305721178939522690184499299335104022282629148291327445987079748191302618230980255482228532679880085712645136603378257521453) 6086845778026386473699496855499226016449419660100106447534038370330121381879634477375018926568221918057630026420820833506233872018612390174317677640670271322328825930136275899583506191811252693788552522455741487747422820456397013608540287691682148385891336422933780967747714280832703717341597149508503453346230047462146804667337644653201855123867891733501909815432714796280014723228472538272776237967614018820999058091527829979270520529100000,
  mkRat (14733731588781525391118950720188106205770183206452906695525507920580120240570529243067648995945598491804892718706864543700680231945386789491936174575408879701099978714880110546672674880154232146305643564440180465315304351603321138850098778157319170799360872737291967961449810119214839342313235312285189136072672093101402857701728166009486072057829984805531147794716468383697160217104836097920378747051891409697653432865439341476331251) 7400766471599609442395572308407214572937004824289317603623503443162324912498620296097572581873071916830264715999875686081279492727456142187254939144099656489924685474352000252018853394458126170898913467258196720979844431905458396643380447062464265714233761082878708621466543738386190453183760095736115309904694221568266784574952242844334466574100504352368577216669032206475887710621973718438654236212026023631966681181244088078050576775000,
  mkRat (-14310476342689666622968127349604976943051431068239810675959117970680204705518425627318000326036817328071709980145291866289248210632482925791460851294887883340311893232043464308394556374281195403808577609009637918118828594288985349104257913529857822394593477079781553344997203570599421095320037068568044797853588965629127010679666328485696541152412366590443164133527698308955674275577407297392969930780707583056461114768720848155715081) 7572877319776344545707097245812033516493679355086743594405445383700983631393937047169609153544538705593759244278942562501774364651350471075330635403264764780388050252825302583461152310608315151617492850217689667979375697763724870983924178389498318405262453201085190217314602895092846045118266144474164503158291761604738105146462760119784105331637725383819009244963660862440443238775973107239553171937887093948989162138947438963586636700000,
  mkRat (318455917167533098905200233597600460356319918852628523162303432703328315355130482845331383753248977308811889945520985606575769224527453057753367207358502227825374568881387055364434457152628882452624688984856479859173746558732079949731108993844574698714728602576164207033733552920605045448200513251554698823461744649072377542898811130279528606832252493191347785900004862550402391982155110362103575364565300232370805440843482285767411) 3539497008156334950710925886629537404448132742051412766950371211947198871194992315524926017417556134136213559826027502038872800869652937567817579590656357451703110444255304468356842927784321212169045571297398431772969076128697494046834126855961170558981363996159382384179651353141221521087885263178142104737027671184823244796716290055986049231091545559828449973189537142227598470297465691427182460797055924345723195347551520385154623675000,
  mkRat (-1083373381012489570278127599681814482360841541013717242065215901131203107988479228848353303451304369548351753737304668862047326621635912791838250342180979624335802149057783951533679038147601492848922223378735220200876953359697438586402414299212448379250695975954253400467954239511562333709803862409854315384514924711003502055346695995348414347638909551617215943417933190304630432630176251018705797823485171983535936083447763593583119) 3464188561174285270908565761382100438396044811369467814462065441480237193084460564130778655344842173835443058553133299867832954042639045279140609812131754101666874051824340543498186695278271824676087154886815486416097393657874143109667443305834337142832824336666629567494977920095663616383887704387117804636239848393656792779764879629262941800642789271321461675887632096648287864546455783098944536099246223827729084808241913568449206150000]

def tMintChunk3 : List ℚ := [
  mkRat (794223627901855112027936041994502107174149132114949283373086687009718831073521398372290661328553649239011692290417279025892487481257515816003933499124088516366233503589578060258687706482051059087296816394532871110264180209753961246033709556870125458648123225886118007413544762999268431289184464384374349354662040301728273190890056870305225132108535214358128568114164773529210131526445378633865233294307598832839071148778904917850107) 684104463761308435851691557919994624389134899724222635629063343485593059138527926530027717652132698194394217445366660057933398487411912303023565803236102700749340674099764729178213338983524267898218891931429948998136880260168423219136007711656360696273709007661057099463293959010488193151440008849556877386148205355049870843062812363762009515252987797277767641876969363623821553082703452964917618473380556806316247840283066965197952475000,
  mkRat (-158277153914366471313912481998267566681100130942462209942003034662564387477763353314123152377258106506300819338767443149098034666290136922009492577986158540911213545884926541988251006276642708949351454875646283474970304085292118162683407635401778464678446015273521463374827424870533578487020109775088039525388568410737057051200559995244720146317878368552854467022016111896094598727621604398724226619058800760793196701878679528901462233) 162816862375191407732702590784958720604614106134364987279717075749571148074969646514146596801207582170265823751997265093788148840004035128119608661170192442778343080435744005544414774678078775759776096279680327861556577501920084726154369835374213845713142743823331589672263962244496189970042722106194536817903272874501869260648949342575358264630211095752108698766718708542469529633683421805650393196664572519903266985987369937717112689050000,
  mkRat (-1477226298323483775635240873620737310531529406864310717154921967669399952433517414567182017675234049935667927729693475709814440524349367086607726689619118631103095590396580015532766151866791534508792853388031293772725113359163983792266035808943621319322159020249558515810580807866479008195266557704904277254883568529618402754254242941462010703850300368188506651352955118026179963468495513149709330633967050073790633521882755551475991) 673724947759412721652562444627415395605299749521510292191932727239604750655046813161985917798100340014893063801367993491537167613809800530150104804842175625289695505251354505701026653840325968661142467364194460116785837938979660935811185525686402120192314802027578991747299154115156648151900919060115324763737680860007734871650824865829068681228459706560449788000215345692977364001448641954415420124129265599599725459258082500898397334000,
  mkRat (91315251132144593330163061682982682854293784214168950991821818347469963930667708429223088398579583370841069000963049638544465938251784521464643934568600669096379017839056264583900151901106491586685305519402940512875624602549304278091941086763410719889332923549265407338015671143648843201337025329234047444059255856587104164252893695619310716218368929981282691264048377567030647597787053534635521585122424259166568084770897487272088601) 48845058712557422319810777235487616181384231840309496183915122724871344422490893954243979040362274651079747125599179528136444652001210538435882598351057732833502924130723201663324432403423632727932828883904098358466973250576025417846310950612264153713942823146999476901679188673348856991012816631858361045370981862350560778194684802772607479389063328725632609630015612562740858890105026541695117958999371755970980095796210981315133806715000,
  mkRat (-177281313137704257457520352608113339266600279898870513649964410373829014048869368973021643738768333856548392133484157647505809973341837069326720786119740457827211508207710520020878388336278101136672913332993885437673186539501144225284638630213888605798377641477054181925701455575202754236228498693885294105883135012319273645260591018626758833433013416479203184221507844413779758281679910078415072777197491349556058485601524408906907987) 97690117425114844639621554470975232362768463680618992367830245449742688844981787908487958080724549302159494251198359056272889304002421076871765196702115465667005848261446403326648864806847265455865657767808196716933946501152050835692621901224528307427885646293998953803358377346697713982025633263716722090741963724701121556389369605545214958778126657451265219260031225125481717780210053083390235917998743511941960191592421962630267613430000,
  mkRat (396630937651605076858522898758478926127609555978780175146809801439608487466137753529590483668445638981077161999026737882823149193405048545249720734662095848178134780789149189922124602788312418648503400504012997654621228235295150986373206622362346709644935050855458315426592242327559304258063782469849951978092381036581347726691572136675487966658027779971587060430385630031733115487571833636247920927869415642318420766402156838454649) 207851313670457116254513945682926026303762688682168068867723926488814231585067633847846719320690530430126583513187997992069977242558342716748436588727905246100012443109460432609891201716696309480565229293208929184965843619472448586580046598350060228569969460199997774049698675205739816983033262263227068278174390903619407566785892777755776508038567356279287700553257925798897271872787346985936672165954773429663745088494514814106952369000,
  mkRat (-2437050425718805349521812391856619835291693506845546296460409000676489623329525386407487560894437934291369345398125882102927632905319309931648590808011513229125577562960201936167519663204756405862787899641400327139002590423974839930101107986808402998540216458073737983040645528889570718453248238310059393872706436767581779361328836012700902086320505752964500605464373994755443758570571182292197779075712058480298396304160975458284587) 1050431370162525211178726392161024003900736168608806369546561779029491277903029977510623205169081175292037572593530742540568702193574420181416830072065757695344148906037058100286546933406959843611458685675356953945526306464000546620350773131446540940084791895634397352724283627383846386903501432943190560115504986287108833939670640919841021062130394166142636766236894893822384062152796269713873504494610145289698496683789483469142662510000,
  mkRat (872207948397695527724124231966247435340051657714936055362024396133637971859692122595782396231044887287846783257378933617620148508382893436014288713822639634526749614978624744613066491364615354174141880855653139544037283374420020973672910444200233003579891126155803459172515706335770708922385054597770416562500462673086211761081382095790667582906065918467437374131406652988813875583657685615415204206811141878096070939548784662187) 871937355407226518142251329646862960448851850984656923256665108710818551250306038205679841488821197291628681797232716188015577786129894115137410491994818415778627325206147943792720905468209584746832840356023819748067142408397604702802816019783718983094000663114291167312504483717111283511180432207971599731715701143372084082091518998422097491727152014952651950766982855151660309718221077521825058622955992716238777839593905305612985000,
  mkRat (-6830734715086219881219331052506906302049210066416716359985697753769341754606969345213424209330744743604115564058923306796582095105176318478478216407612819951170397787194352196561037684947238020476312942990990836540848702146952899179961234106688197619441553792211980163128841751332600638967880951569338949889870612712164873793515035943931432744986206289191942179874489715107455495643033318249389737091535210730006161154849075868207869) 9769011742511484463962155447097523236276846368061899236783024544974268884498178790848795808072454930215949425119835905627288930400242107687176519670211546566700584826144640332664886480684726545586565776780819671693394650115205083569262190122452830742788564629399895380335837734669771398202563326371672209074196372470112155638936960554521495877812665745126521926003122512548171778021005308339023591799874351194196019159242196263026761343000,
  mkRat (-2474866730130725480162419549982304453055705963879671183254289194994295345780624462006393313198767396613275568809644485129604065447966158551697718569846331457313474928922147157214093623251826088794024472294132835961063401041488657823040945776430672726103417653309332073380873680105344341244261729467040401729544036469112886957115236449604141707695829796536601777233740502923789885159377398268748305299999154913955772407375158229987869) 341915410987901956238675440648413313269689622882166473287405859074099410957436257679707853282535922557558229879194256696955112564008473769051178188457404129834520468915062411643271026823965429095529802187328688509268812754032177924924176654285849075997599762028996338311754320713441998937089716423008527317596873036453925447362793619408252355723443301079428267410109287939186012230735185791865825712995602291796860670573476869205936647005000,
  mkRat (-5832948004735011618252285175994865466292521054613935487657976282875751644465514829763573895378153605454570713203807432850400481126610683537220158522042572553212967205136744419740077900681114810524060814172716856802133261318313292571877022452814628510366532928723858478238458481735426216723466639527290324519497881772756418299837099707565014681731973387545529462720452556257559067586988349607549469500799100289759733681693365865632469) 68383082197580391247735088129682662653937924576433294657481171814819882191487251535941570656507184511511645975838851339391022512801694753810235637691480825966904093783012482328654205364793085819105960437465737701853762550806435584984835330857169815199519952405799267662350864142688399787417943284601705463519374607290785089472558723881650471144688660215885653482021857587837202446147037158373165142599120458359372134114695373841187329401000,
  mkRat (2277414441032114810368911377528237154306094837723583585410598437279144505650645582330253124978720336176037350325663687219468442354001640750436827608164588375706310700075644425685145602968288166910883767386371317160897872864364177883439073900952442945717613431740675988571238235071282687689273661753987629602177394275090157958246969673699689077676498203961828124708814429624265856835066131223255867701171477523066858711193486561959) 6536204832404311831902954266758680072445367568621637385777481965057051307706529366284488028952532403463100110477609999750628215174790651470076622287041045474843158588347812346222993764675984574860541801673236766822825271052592722848429138312894975741194008182389867108481090415274837012045071140353052461577811034705012816565594112508043286416307149568531059765825720937072241253861237326601782143583483441184394499638192289751790955000,
  mkRat (-34413120559665290253043928184580317521858607919351065100566567538127581132156623852330278108165891538118915828117241184946034795868281992269100212571736789793863572315457263085335555157237762703421589150163868892615711400233803967244841574389755371475531049251348208781646760065429103355325926529416533534298501329141014070793557186451214820612360101788620085908689915671616314585358587370280092571827686857029831008904346390218645127) 26301185460607842787590418511416408713053047914012805637492758390315339304418173667669834867887378658273709990707250515150393274154497982234706014496723394602655420685774031664867002063381956084271523245179129885328370211848629071148013588791219159692123058617615102947058024670264769149006901263308348255199759464342609649797137970723711719671034100083032943646931483687629693248518091214758909670230430945522835436197959759169687434385000,
  mkRat (-98903089717263591095896569596519693317229891650562730947228957611169312873896160666547105200692716558485955490432647107372424985977315359306663385903061033671669136545144116455374243444773711439633832241453560785069179705707273248406199119666303998780050444859902613925763864378818008330577068230030182106526466867730981259989588160186383641794370500863085008985577206769883593302632435504609269285579960355636012167147292521818682729) 341915410987901956238675440648413313269689622882166473287405859074099410957436257679707853282535922557558229879194256696955112564008473769051178188457404129834520468915062411643271026823965429095529802187328688509268812754032177924924176654285849075997599762028996338311754320713441998937089716423008527317596873036453925447362793619408252355723443301079428267410109287939186012230735185791865825712995602291796860670573476869205936647005000,
  mkRat (7417697671167295238701305919014105745367488643407419156016389357464923176254494958442657643572123685744730147163658683500735136838982332848213118302043633094455374813617736187379023570879269715250758097358614723012505916176278506465361115908684399331963479251063537918880319862819234548225313782307024124379664636863807211307541034070513905385123749071068683429128336023719505336532064965345423818305521332756475905431254442964088794) 4000241877321513034812089514975278911406467262783967359889600567985153207014340453149291386926220768838427566320622461356001932706995690647766247278750417775157567062429917377599845757176935438925533399974904606943415912762691736806378914058763012588641869137038750263499588727558742598401911706919434740784692480106295925800426772640860095294793979507702670616251278615052053098758601311604341556987017514497623369914344864849084234170625,
  mkRat (-544024885835977993769960206303088818864614519073112596158796734984387605222244455493908513119335566012463749344239938771238872147166840550291153666885577677009350510497501597755036268484346229595414456172323047243561656328142929357924132700200376494577112838317786142335140641419844188980264243145898382224735899253293949358816179146300141186034960567704766633354749357804075954229474423095375692466942766268429044853590452875039652891) 182996980528736258268586855558305716961242333373553887111569333025574332625106729462378851052624859960383277963512419077243581372286225397520348889596920520193123631250315093555553507314235018389156795536880143145805843445820038889396038209336088237857870295170448744448544566015645013515625482029215831522094101061764072774644875458274839288978744301986172875515269759742099555841801930423815512353434266015327897260306931282110219613890000,
  mkRat (590449943712533785567752961837657746838232338592185703867518846957456666179496042785969430189191526264856267790290117384594060882900486524009789610961822272313438297307709717494480943478723251601278128362449030587393429256780720325239882187824661298030986249095793548642590965992419179605106638979896722735977576290735910570338460751283232100245471764798560328730199355096813936717127533421129484208281468901100167493849928413128115599) 341915410987901956238675440648413313269689622882166473287405859074099410957436257679707853282535922557558229879194256696955112564008473769051178188457404129834520468915062411643271026823965429095529802187328688509268812754032177924924176654285849075997599762028996338311754320713441998937089716423008527317596873036453925447362793619408252355723443301079428267410109287939186012230735185791865825712995602291796860670573476869205936647005000,
  mkRat (-29040860385738159010101650405503696059087196240192898019007058520730288345531530373035586104218507617565656929631305700786406184655016747544916982064281946533383613362486603614350000154174319173036849217922210793590520455431940051436635153402108075229808236631195219642745333896326091847811480088668213860746205156319366393307690698556267482668980318822259838632479405903248217129266970050044901445874058915485108873700474244918117) 73927656429816639186740635815873148815068026569117075305385050610616088855661893552369265574602361634066644298204163610152456770596426760875930419125925217261517939224878359274220762556533065750384822094557554272274337892763714145929551709034778178594075624222485694770109042316419891662073452199569411311912837413287335231862225647439622130967230984017173679440023629824688867509348148279322340694701751846874996901745616620368851166920,
  mkRat (-350418480133969443490875242655419853077149871363300730123345418543916149259935166121512274734250626142794372852947705555689592618926013965540150292702027036085328626824904769727326630108547743775095887497548317750311187983795295694486218227207648784605369592662708494503135049144937551758538509877946589068282849097566530413419763451266488457784847400658056712949906762312818823366501415179775091484730362990777913931322333209500259221) 341915410987901956238675440648413313269689622882166473287405859074099410957436257679707853282535922557558229879194256696955112564008473769051178188457404129834520468915062411643271026823965429095529802187328688509268812754032177924924176654285849075997599762028996338311754320713441998937089716423008527317596873036453925447362793619408252355723443301079428267410109287939186012230735185791865825712995602291796860670573476869205936647005000,
  mkRat (862095274258078066428606739024092616409129603780797809132062662585715807613062995408687700822815233921758754448981053928425828673944312179417946607485852806267621685692686424732263173512449162486582398534182288583700026600496512354374947696937174038226065830765775278196742202575381300429536149157850377150750651917847745775298522068012774016031321610445624318691135075037413815674340991918684195969550516957130818643828916658762413699) 683830821975803912477350881296826626539379245764332946574811718148198821914872515359415706565071845115116459758388513393910225128016947538102356376914808259669040937830124823286542053647930858191059604374657377018537625508064355849848353308571698151995199524057992676623508641426883997874179432846017054635193746072907850894725587238816504711446886602158856534820218575878372024461470371583731651425991204583593721341146953738411873294010000,
  mkRat (-419024436041849663134812407270683511365601123410614147541981509770832731330501043220398029662166771785920125005218918509385202973938681174808560272021730057231654615457750826387927835736667033108325192208993720644699430034001948833386862418350738018551627521397277416920573993016778070763575488817599488746034619130485840820998581650197665416474376501183638997872959895484821258060759130875833477212248344430400630831050215537771440693) 341915410987901956238675440648413313269689622882166473287405859074099410957436257679707853282535922557558229879194256696955112564008473769051178188457404129834520468915062411643271026823965429095529802187328688509268812754032177924924176654285849075997599762028996338311754320713441998937089716423008527317596873036453925447362793619408252355723443301079428267410109287939186012230735185791865825712995602291796860670573476869205936647005000,
  mkRat (2344929104118150810773446031619910737037438920596548715213914967570423456570720002177175663675253807209455803978909284995460575148066219839577311966931978129112242086144572959503345140527208450372498665298652142574714582670663419537964649003387196326519195919497855985609289727474048699488167589920744995780320041698134570375379558525395956627193312689701109741583546464573756690436290214389481698842033504922842647823005428024801049) 9769011742511484463962155447097523236276846368061899236783024544974268884498178790848795808072454930215949425119835905627288930400242107687176519670211546566700584826144640332664886480684726545586565776780819671693394650115205083569262190122452830742788564629399895380335837734669771398202563326371672209074196372470112155638936960554521495877812665745126521926003122512548171778021005308339023591799874351194196019159242196263026761343000,
  mkRat (7400241535381171978348418794869587160946062680621264775469652908488169595514251930151980812954183082668323338077776576952999139809918472984890025010297130670902921735381340189010644813869818942678034341993509557478132979374363436756529773907228654501177725525452865095446817647044388943416689195717738303302325527505668458400248222546466967512218638335003966564820438010316884544464440164856540198545278014941901976660097513604053) 27886421253397109227524299865297554299787099166639464422755554936310203976628028519672771656678568025247388457645726832799536136041797061336854921169350308281096196795943431338656800165073438471211956788787920113307953083274788184073417882251516929777147032218334258079418833758538618296802032168910246090661191830719674206619590051334169509479116165164295593133521677509109045936769854481026492595464937793964347171566224359286023705000,
  mkRat (-7542541771277448760732041736987812008775407802190991774247808154387434078345358843026693139307776921334172931049971176524135761746101004804341564499112401883774429942459364437499239731692943999792185924647161147916484139557788136883322185536011423775998851319537886020973201104122656200390067297661132749143567027634283285371526413134877702315610454960024972494245384543018013046847189168624678253507216739612036156222423939628223933) 5795176457422067054892804078786666326604908862409601242159421340238973067075190808130641581059930890806071692867699266050086653627262267272053867600972951353127465574831566299038491980067210662636098342158113364563878182271731829236002994140438119932162707830999937937487361368024440659950673159712008937586387678583964838090894807108614446707177005103041157074747615049816712071707376030370607215474501733759268824924974184223829434695000,
  mkRat (4846115110814714156469359026828572696842119340855771633597857308240547243429137399216354449381289812906425183098292735688760076987699057665145861104457665241224758831191833690208343367402974782136456763208141003415781615504782894367053093668441835996467607064680585347750856751373659416011032532672990710037751601633793762021550780241795968558447655533505442280276814600930927514482087057193902113454401161041609525593106791148383947) 3637397989232999534453994049451205460315847051937941205185168713554249052738683592337317588112084282527215211480789964861224601744770997543097640302738341806750217754415557570673096030042185415909891512631156260736902263340767850265150815471126053999974465553499961045869726816100446797203082089606473694868051840813339632418753123610726088890674928734887534759682013701480702257773778572253891762904208535019115539048654009246871666457500,
  mkRat (-3517887158979074365469528055858845724754254164166933661728006682796446209352293648261758727366557917714060978869839649825513261986054305729043816456152450117482364581919386255648281765292973644356310439305119415436179896043453492164079723057651146189226261088434741750764873889194034318788856411556738519608157790893004680372931282405694134803251402424296197268121061877833625494900241656274642543689982532376897852387848145713012097) 3158571925985237471027024855874487882398980349950729545380192693525167768659919239535407420623888430092916673248907683112749307750655646827262616059652694040041759528083717428575251979898064010120367687642759247198788108582283398844565142302871584997668358078789804510963088413057200913968496225616706949816137395255925408289725576160815264256105711788262616789007937994819270320838200330640792847233215725559324347996059832509985557940000,
  mkRat (12032548600775693129554936723686842275635378242856058485698786601215907043604200670284560023095797989520506908598194974693596798713876081443070046605561444200277172861145827281615966819236694453593638905329737485998370714230590557029055956985756669034041455068331142048724444508057373781946512062380812302142644214871229908763479024351267582365846034464032318148934183963708007249419634969896484936610034108360665113983000580264846711) 62166438361436719316122807390620602412670840524030267870437428922563529264988410487219609687733804101374223614398955763082747738910631594372941488810437114515367357984556802116958368513448259835550873124968852456230693228005850531804395755324699831999563593096181152420318967402443999806743584804183368603199431461173440990429598839892409519222444236559896048620019870534397456769224579234884695584181018598508520121922450339855624844910000,
  mkRat (-242050183837800587427237735852149531758499589140962188374601547487269077866249556920222867425875481344456757233033833774753231293715579695985605067207446402524922815447874341515968040731057168499229694398006016081117046872366727137758871897302128942380985243505850536494330663696532926435724126822103091404588474456906225783729559599220873219745212629496078148170555914884926676388610994280982178196354367885764362685914704321206123343) 2279436073252679708257836270989422088464597485881109821916039060493996073049575051198052355216906150383721532527961711313034083760056491793674521256382694198896803126100416077621806845493102860636865347915524590061792085026881186166161177695238993839983998413526642255411695471422946659580598109486723515450645820243026169649085290796055015704822955340529521782734061919594573414871567905279105504753304015278645737803823179128039577646700000,
  mkRat (218301008253108173315239198538218765473624240499337369757299808724192853560955887842613289582317339989005658266821999767798448978275005978686482829323058466271499735879178805267327371645375948857381580942241566460778022834541481517346492116529039114323657512805438368077722366218761734792475503834105831201255705922636296984315328707872234712598229286377821009744633275451929183661697017691330998497528196054944489270953166876029691) 5228064388194219514352835483920692863450911664864930784211098762600908424425630851371679713800243464182847551669636952552830467339579109618519544166015353667194502582799119444086712948378676285864370064026432546013284598685507307720553159851465582201798161498914317099568108879410428118304124104327347512501481239089509563415333235770768384644089347111306242620949683301822416089154972259814462166865376181831756279366566924605595361575000,
  mkRat (73295000512439048261953010386664260472782224321875017178346750265787849165432607382703160452648069517205536413744360427322547317510187322442938136165455918441439897617996388048171444486112667985915472745402984816475017819801289105562905243217570831612957465718411401324956090878710612660661027566507376740088075307955167304375166678766690725205901858920462698389520647352256419169994257317607013896343853149082018628331662446159352291) 551476469335325735868831355884537602047886488519623344011944933990482920899090738193077182713767617028319725611603639833798568651626570595243835787834522790055678175669455502650437140038653917896015809979562400821401310893600286975684155894009433993544515745208058610180248904376519353124338252295175044060640117800732137818327086482916536057618456937224884302274369819256751632630218041599783589859670326277091710758989478821299897817750000,
  mkRat (-243770410417634145171097301027440205050739414183615946305141354698573575054575515587079027714280460389326000235029406842665304089036532969989791327066430417608689797848268896732509399300740867334700045471577203024495585642668969191480919206370447867559577322572309861473988707038025992531523162006934069330515529205808679784244780641229074026774558097224176293999819047915398372471460162009499504588006416053784333429805234570637952769) 322561708479152788904410793064540861575178889511477804988118734975565482035317224226139484228807474110903990452070053487693502418875918650048281309865475594183509876334964539286104742286759838769367737912574234442706427126445450872569977975741367052827924303800939941803541811993813206544424260776423138978864974562692382497512069452271936184644757831207007799443499328244515105878052062067797948785844907822449868557144789499250883629250000,
  mkRat (-8991668898275324373275520134267960216867785522494323656224476861901912592318679137830720241173412181998887749939459963749985008567687047049527777283999484739068874797146336909517062111268972639007800436112598524174581338340008032000453854785081840762931842394613416243883181101082229749743285560879755621984762540010458828498277280585935345282473903430123074592672966989580953138789774858601997600893802375725185985404430570545826001) 275738234667662867934415677942268801023943244259811672005972466995241460449545369096538591356883808514159862805801819916899284325813285297621917893917261395027839087834727751325218570019326958948007904989781200410700655446800143487842077947004716996772257872604029305090124452188259676562169126147587522030320058900366068909163543241458268028809228468612442151137184909628375816315109020799891794929835163138545855379494739410649948908875000,
  mkRat (35035333099244360558469149254760967183823564175480108816737089239737884604123331473978408698656695917025785727026382586198013330723046736458813323665328715187819408915814953231440805516648761793256668372881904785411221554037512915732096733461311283918095525564485840438211097362035042643352203901044727246175440068693033134528463448464771528906884617306974247789419750483088533072574062249071360320933544958239660810298210314958366603157) 34191541098790195623867544064841331326968962288216647328740585907409941095743625767970785328253592255755822987919425669695511256400847376905117818845740412983452046891506241164327102682396542909552980218732868850926881275403217792492417665428584907599759976202899633831175432071344199893708971642300852731759687303645392544736279361940825235572344330107942826741010928793918601223073518579186582571299560229179686067057347686920593664700500000,
  mkRat (-30253054238336808667739296147490329339533072405650465669492602114707777091682195288624651962124532656356713988510361614476478370521953936716241402814527530788448799747077604497848112246526228743271045724166998282738053403886341661931149884295575556630348229774470102234608603635402041536994034092758100875848583761127505985834139770839375149440027397917424133572343082350596285282006052015211275435706012241853624847185161324053586809287) 17095770549395097811933772032420665663484481144108323664370292953704970547871812883985392664126796127877911493959712834847755628200423688452558909422870206491726023445753120582163551341198271454776490109366434425463440637701608896246208832714292453799879988101449816915587716035672099946854485821150426365879843651822696272368139680970412617786172165053971413370505464396959300611536759289593291285649780114589843033528673843460296832350250000,
  mkRat (381894991731318571143255825998509366846101872913786190624331760172506238545793354607031699185439471509584567176641028534171862696493507005769170445027688546674928240723372021484612310114983079513342836977659049353807893701398932883657937874409237010179417864340348932926081773156246313788289147932323239931744850966247615944520823373291615775430735291398512196384195918163743431682932545107595913079316509961258879759300637092682858571) 359910958934633638145974148050961382389146971454912077144637746393788853639406587031271424507932550060587610399151849154689592172640498704264398093113056978773179440963223591203443186130489925363715581249819672115019802898981239920972817530827209553681683960030522461380794021803623156775883912024219502439575655827846237313013466967798160374445729790609924492010641355725458960242879142938806132329469055043996695442708923020216775417900000,
  mkRat (-56708250708387454702790309374716121606397322758680365088986919382711281943991460489391375187553401885282211313809203713435266681390644098305849992207782154082417694443279824373994976108055664236782813158744079391583131386330169846174470940058895309999504328598194642065738460837150765745513826387753334330233691754284045971532802435181058949303690077028079840645897618685948138492182377873384014490620108836374502233779263775860620858531) 837692756920359792784754829588612617510739576061307859554144354731543556845718831315284240542213010266017663204025928907540025781820760734175386561720640118094575148841902908526014015718715301284048015358955286847708591247378835916064232803000330236194119416971041028863798085747932897395869805236370891928112338939312117346038844367550218271522436087644599255154767755451005729965301205190071272996839225614902308642905018329554544785162250000]

def tMintChunk4 : List ℚ := [
  mkRat (-38318192133742024494763828982066264238304339363040594623133388644446712610364594923586954959938142451592302244863216765084803343683539787338732846186000027116515365786536862528686191378829493272585337290069932822283764374711164801937099050381691943534638647845452208859399892429148682832556372390650245602412430592528924109570921424116188292055525564957766229389154579745888570466790892016698812011274530524258208533351617581904761054517) 54484081750917710099821452330966674309641598443011893304334592177661369550941062199368080685672390911610904923839084806994473221581838096531732459298903422315094318623863603806570017282518068376198244901395465811233079105520574693727754979056932047882544352323319741714718574682792383570463076763341196222966656191174771859904965487320339399773816981310217837733643431248845901135954549931061546211176534999343239586530407696231189904726000000,
  mkRat (1304394333949110958412155177673462574433832038592205990041413711622406679958154222418684001443994980180302139148740314645297449159354269532793260152112478562706011899166159816388178881383348869245648695941231028848561036852869419531996116359019328563701648961227823223110634499395300464593714692646801294044417225639434632398666169920181876824980592604039082308084295235442803207552273762180356098517398404078707003354224822662346163779) 5878545662599016089717577751499035912356067200430230593362416524431884609443640921510766600296231650989597636519480202859930005486461478836318502187513263986628597535732651989656238706798002114274021160413721311211990114016693585375889353003511089376800838013831866869219635689459178227339437229728918539846402378521488542779219960474036619449280253246628766702840475476849163017300359334667166828047994565718612692230912409330207331825700000,
  mkRat (-4116527474155547229401136765172265131067811347909532402534701806463127455826566757595685407653765458332589408021725597182813824832193322244356766224001272708977116014058395864416195416763632900208218543142157815957934239238335986827273444636026883869079079757183804586614079044703363022244050907039122286260909438438339507258731489051243841372051687040002603595899048521462964339247809405115911083944122073318903110283348100379845543621) 31912105025537515915609707793851909238504364802335537506824546846915945022694050716772732973036686105372101455391463958382477172640790885111443297589357718784555243765405825086705295836903440048916114870817344260865089190376336606326256487733345913759775977789372991575763736599921253234128373532814129216309041483402366375087194071144770219867521374767413304958276866874324027808201950673907477066546256213901040329253524507792554087053800000,
  mkRat (389951453112242960772094558666187265261812553676065428456590714028344908308805764513785399866763256580164738373778057301529704397184105247162220354528640326164065126996206747333832018225750702657192192207533236512406586365405619127735077565454558962190710651200593167759472172134757783636773464738723690791251515810940712974072137948941729389198895075285107442629564094521495911737993399006263483680909200222653184790605183476921123981) 1595605251276875795780485389692595461925218240116776875341227342345797251134702535838636648651834305268605072769573197919123858632039544255572164879467885939227762188270291254335264791845172002445805743540867213043254459518816830316312824386667295687988798889468649578788186829996062661706418676640706460815452074170118318754359703557238510993376068738370665247913843343716201390410097533695373853327312810695052016462676225389627704352690000,
  mkRat (-42490141259062512175537848357355350149331870472045834921309923145068698557273287528583664334368628488854493586346485771970531892382130899432276426578201115137888674845616048314190361143549494628504530439403533409242982380343470237271129686443131651877044686578590699872195728474418955260607773751876910568985714087472169966942630504300262142004562343905320931317673608033677821180160599786086419931685450445548087717730206048760858557819) 47868157538306273873414561690777863857756547203503306260236820270373917534041076075159099459555029158058152183087195937573715758961186327667164946384036578176832865648108737630057943755355160073374172306226016391297633785564504909489384731600018870639663966684059487363645604899881879851192560299221193824463562225103549562630791106717155329801282062151119957437415300311486041712302926010861215599819384320851560493880286761688831130580700000,
  mkRat (40596787857313717749041149698651592920961435805043432463223741507708099598942991381318417471241209715077830445479117824763335891346996754830215349891320629450821246216610599091641998989796526001226705976010912822990247860013792958459133509933504049118765204331537088117740091519645397618637185473804414002728168515978858785048855824631532881365817755211591751934112400131342349388621347289796397295834560261973426564535411436640371727) 40023543092229325981115854256503230650298116390889052057054197550479864158897220798628009581567750132155645638032772523054946286756844755574552630755883426569258248869656135142188916183407324476065361460055197651586650322378348586529585895986637851705404654418109939267262211454750735661532241052860529953564851358782232075778253433709996095151573630561137088158373996915958228856440573587676601672089786221447793055083851807432133052325000,
  mkRat (-11162621717283326344958931376552774343262148747015416455673914185138723728706200551055640125803215106744605721890367194851733759035630920158891553392208289333647140626368081979325183150133078142409230615907093019709846405293453075762418223857822405712687244205635670085953837047253197401367263891541585260574216860170065171615565636931114545060770252627863477644520740488734565521115142080348672020279465755004592190545236504476507959) 12610157412620198596789926683555812396669269547814358867291048543301875008967617511896496169535044562186025338010325589455668008156266155865954938457333134398533420876740974085895137975594088533554839912072185561458807635817835856029869528872502336838689137693377104152699052924099546852263582797476605327835501113040977229354792177744245345047756075382276068871816464781740263886275797157761121074768014836894510140642857418779987126075000,
  mkRat (428685865572035032793673475366341881616121597501716748235749600559656810184771704840303020566915137661593718246585050152813067218085086843909052383513067173048067105140235548850241043480921238380398629014678959743173947152582751828515228332297145716963318821261378117604492852360199776904662394050558104744370401721700045694952827741733168005466902429779592639844554540661894903121020583767769130691972212850888898596008007295100567) 1717982899842309653426212600609333663200536453486821457138026065763698005743856586697738917544953133476587308727961667357201871979370000634072603322830871699990412577544009533433511960497977966241042684069411635189952043411136809011570352496142514109739222864876699830012762620675515194027655324237203238146056139866617003288618996759758652327505367769124644059771571629454331612256502387067480730711674418434897910988776756332370208900000,
  mkRat (-2876673313142152745747100631955616743429218013953801922274338362733752483025164182441050257728326647067130182647004544145952576744478717940396632743286654592516653821600490683358861778073605820397141701079500606334770690225674391044036805953242902122910561115946955598720159529095930180822460243974250013850345388711070320906972660963724550471627752806415266630475611871743452421177822121087723614639474214034341400526552909751739920797) 23934078769153136936707280845388931928878273601751653130118410135186958767020538037579549729777514579029076091543597968786857879480593163833582473192018289088416432824054368815028971877677580036687086153113008195648816892782252454744692365800009435319831983342029743681822802449940939925596280149610596912231781112551774781315395553358577664900641031075559978718707650155743020856151463005430607799909692160425780246940143380844415565290350000,
  mkRat (1829232543076024259593463290941858172085001584706848726790532690731434325747158065598181247763786273606995328083101481702913415217336814121413910416972430769227211825282335499400723953230982087111147269264581856816840684625170455701400621332659961589244726864937586349355006446946510883931494633924011868152449613762191111830780902158944375579912813987447854013676312701173368865211238691048666938155237339368468801839738155011575443089) 7904833354949659905701487251688087609537778437275775345727181329052573537731553847273979727265968117844465498124491072259879666617443613743201550779015214744798087905192268599459109977948558544226927536807966009572086313212487049273476377695415960289118820186358447454546980625668567314875835645742949438902239633503338459883983852485401797581863092832295038842875921152355493126802318056839466796300448786929615494402249190003660186701400000,
  mkRat (-1465143936859734758944971415506333266377462585558141141551076364410287335450795001318320352353548256539687501386649151814502776139384555105489604846234028758627645352540328907091310455709845517952922164230810247696981590958011193508204023726636820331013348895754199038663894509391895680946279024255954660894136800253882572358988817956957668333193188956056658752159843440101056845972138010572684297005246103906800618440705577672250416737) 1833248586573431765364813000923407551999186914176722367413325031631341522580296530538008064408490478393716466586318142290057199279364582761721210712580124270602109748225441015619240399141261449618585322366102755411398740723746996533636010997447531215987130638963980367118342315314625185790353373161662742213498127769923174739051574299805948800900164082383317518879734905546273937917984400415961448503721101649634231680521620660423319894580000,
  mkRat (983488132252692495603348859939443629309596502638191657622389857872811338528759566915750544856509170657291653279952131316288526471651028658200444599101046727688428511326243589116603050893662113726961885953009785135813938930817084289090906851101470157634560129925369319511341216062646710118956119525388509609518556332571605464149520126689330755800944530084391348045700840553808011479398178473622008772864408541708005677763953463058571897) 1053977780659954654093531633558411681271703791636770046096957510540343138364207179636530630302129082379262066416598809634650622215659148499093540103868695299306411720692302479927881330393141139230257004907728801276278175094998273236463517026055461371882509358181126327272930750089142308650111419432393258520298617800445127984531180331386906344248412377639338512383456153647399083573642407578595572840059838257282065920299892000488024893520000,
  mkRat (-159883071886902742581478140136854249295014127904631502773892858549355221512521406027816905864703346560157903663665141065744250001289944814462637278253897049568066940471411560872748623911614278306470767479129768372731692481459665375398861910491473930799513743288228437273455818066664442460130067080724970961625118439881119319047218410562515474798340905387395964194479262860248915045473205930625023173724148860821602549625649156294059939581) 172325367137902585944292422086800309887923569932611902536852552973346103122547873870572758054398104969009347859113905375265376732260270779601793806982531681436598316333191455468208597519278576264147020302413659008671481628032217674161785033760067934302790280062614154509124177639574767464293217077196297768068824010372778425470847984181759187284615423744031846774695081121349750164290533639100376159349783555065617777969032342079792070090520000,
  mkRat (31556676825841730885900468184449337739366117493406689855910973512828373286491669995217289222173578065109136370201551508053705006985225168681608012123779982236091702092099129498079300269859776093600604215319123488547787043511676993922280319260842698043578611141871410693062475330035102183424634202168922993955983071254990407509977931422640638651844912100708260852298711963484216611632627767256327784791039938345840226680919458576484625651) 35807868496187550326086737056997466989698404141841434293371959059396592856633324440638495180134671162391552801893798519535662697612523798358814297554811777960851598199104718019368020263746197665277302919982059014788879299331369906319331955067027103231748629623400343794103725223807743888684304847209620315442872521635902010487448931778027883072127880258500124005131445427812935099073357639293584656488266712740907590227331395756839910668160000,
  mkRat (-167071050615952978327876306579989688358583476780037442618982769258493787388245079101289963713480694764375662409689779394916436281874144615624434549041143547689708998654627173143245599500871657520552124693374370902340770339567024709111893808577975190206751715824727870160879749155289531309546813279388146767013307136736051935258445779755842425643905074103977911801055735345065138653790061686488591067243795293456613714829212967138792559) 226111683959852499188837030784714200279381426842856358913370579594352767751415940784743654983628807569636670964886213383979500386761057280107323348509144407330291377835908093118856614753850846336423841630196698715658824507832990223600833240951376656457654951697705959664260032986156821340716046681576247686493454499423032213181365240848626127321128979818313067770634844836935870315618217010464656269443704845091838973880967481817014361280000,
  mkRat (138107980121238135558668110278502761324275084674553349282764442743059352850837258759228885571179337363806953884915937812505634801843990090843942433883802677182560832947338391560312923061674475961046122206839553397797948961674404906399936690391751532116728071816769620235074697792401265035741847860657338881454747050525051658469992833541475612987496535583973360721326206449933031553321716901435658392332038422932524619212357819917215455191) 393886553458063053586954107626972136886682445560255777227091549653362521422966568847023446981481382786307080820831783714892289673737761781946957273102929557569367580190151898213048222901208174318050332119802649162677672292645068969512651505737298135549234925857403781735140977461885182775527353319305823469871597737994922115361938249558306713793406682843501364056445899705942286089806934032229431221370933840149983492500645353325239017349760000,
  mkRat (-96313246246117337504610138191477158502744260186952163628883488181260587241350813280202072769282969482566474436987529677257961387012233029829773305492092353962700904986364418064008053764251833619521992487656617346836467912738342882213274777827624667327468975055417292232883665490453462270352558109777156911452397630768608755585762264491976767309618092574341901447260771860216895607363515161341012501912108434240485403690840932539825049) 145131375629352635809489354320918252353235978467301318064514203999028195071100430673184763073500877961056404134425859880210865760404481128204479466876539999104409572656651399488963973066031014855582288916655360782121470999500762332171205418473580742648944335245911489217074789042699035657895119130179006436946056646276684640885017778024431361014519779971813325002375055160627224056671677977976945917970130375884297528555875222301119755840000,
  mkRat (4767047944601271801122540347215833613508411431437972294308873566070345071574467135245811894087242849226578645576630800644160580476278734252433370670976695326184544499952661168970260434451742835848286562174024580025187807364085159982572492469618663629215470028380650563264034850349935166033308217068354563772590105509086937865719825328406380250524681616702893073005420326642769781549458439216520747395518019922628380841881079661674202109) 6676043278950221247236510298762239608248855009495860630967653383955296973270619810966499101381040386208594590183589554489699824978606131897406055476320839958802840342205964376492342761037426683356785290166146595977587665977035067279875449249784714161851439421311928503985440295964155640263175479988234296099518605728727493480710817789123842606667909878703412950109252537388852306606897186986939512226625997290677686313570260225851508768640000,
  mkRat (-35166178678427445141571541681260752665928017028573624833118098613281012453700075413151799231197058171056353473684633896071794234333240691463351540737051859716622743000031567979118904493938200806205817266205110080911295783004305188971851981054518001036001067650914776589553660746060995979561675808830670676158665604094091237212129394546592910363262766234664399598383019892325980907709757266177027113970551175527089242969308570937574131) 64192723836059819684966445180406150079315913552844813759304359461108624742986728951600952897894619098159563367149899562400959855563520499013519764195392691911565772521211195927810988086898333493815243174674486499784496788240721800768033165863314559248571532897230081769090772076578419617915148846040714385572294285853148975776065555664652332756422210372148201443358197474892810640450934490259033771409865358564208522245867886787033738160000,
  mkRat (6352153018616372236778871734222978685597371409724632579942568424502809428117265798309414155656876496226238686134637296704283177194416417929633020738764102830559525776047911197220291422804571324497732243792471386545649677578471087881555446615516361129944551470357551942578602536698531867772833288656037635987557528882146904114967913817291302719586813148139607515160409741900019592695131254737759872873119742363387189082880900547568193) 48377125209784211936496451440306084117745326155767106021504734666342731690366810224394921024500292653685468044808619960070288586801493709401493155625513333034803190885550466496321324355343671618527429638885120260707156999833587444057068472824526914216314778415303829739024929680899678552631706376726335478982018882092228213628339259341477120338173259990604441667458351720209074685557225992658981972656710125294765842851958407433706585280000,
  mkRat (2182638819941445592540611321222684697983356466387244489785192803630034704334443762005448093016709489211131707781461439423593095483360841692538434023195050537854137818736906611207028691679661068505314876800349032573844730764704550890823515346121189475141540269070009769383391372404509467569030068422431764173166029588331785317268085354699392323314570293818206580453087954130752832509737220835928569054829181796641249388833391334399333) 37089129327501229151313946104234664490271416719421447949820296577529427629281221172036106118783557701158858834353275302720554583214478510541144752646226888660015779678922024313846348672430148240871029389811925533208820366539083707110419162498803967565841330118399602799919112755356420223684308222156857200552881142937374963781726765495132458925932832659463405278384736318826957258927206594371886179036811096059320479519834779032508382048000,
  mkRat (-6283509188895135708697541288488757130664141904916548552649879429778170556899991635458661042099602469875915478240045964192562813619963821535484775502156373433970235458075544554314260371061444155405338725210889781941690170509194497943974798011729629137793252743954563213104508854146955866106674459037827539869202215918492547493406215746562221745518028149852914059604420700167363215561667370427117959383618289101401490535893218000300501) 22106103572682851812041424830338541749168394071178346460157792662103632361823244407173838084043180086783425795309899187051986175425848118865582965153380264764247815702668756213550803844494790342241010894589889390654263794625943931390316057118492430999508077554013008291342517536305151126699256556252431444038141078571945342651360323805045836445920231386435142218904809726453153333135421148963375868300086083743965848720431325251163936320000,
  mkRat (-741352239589151113614239698391082390431038725117320293208133319925499144880041043586262625485454729212081675309352864709380775353344536609631008289578345583862167547053688884587458275729666051954471175883742090156417262529565580924785301224056948957941770377442130958516152705903501269522166910880360302912686404893075785579459256650421360330119529394556147806987881185580365262193743485361753821944815374368034216685481191359617319) 6274476765930659066951607423648721436324111851029944202037268218003098659088928393765506674230301114857701682503373641437687805431020800655456819056692518758273346186283801105725886053606604025711264370456904695467657580805484085789356625234760069700988194944842038067655488999966311691976668684199468323401803200872864185602171821230379551322056306276976891870403432835891778483653098859950131120513746238055148201422528440061890515760000,
  mkRat (-85423695667782739014508415853936254746380630795570146910345404346460278375737636619106967821735244082155671495473380574275645554181514376435252411764506220990258618623392883504639641204512259087009319687673851889118572791960984926900533397645326324016852397154831480062306935471241581074991094300052041321585220200516793530076483836040144580260233883441752070396481485575979743209569611391516868854088278709697894318648113353958405021) 476860234210730089088322164197302829160632500678275759354832384568235498090758557926178507241502884729185327870256396749264273212757580849814718248308631425628774310157568884035167340074101905954056092154724756855541976141216790519991103517841765297275102815807994893141817163997439688590226819999159592578537043266337678105765058413508845900476279277050243782150660895527775164757635513356209965159044714092191263308112161444703679197760000,
  mkRat (-14193212834608495906286170999147874072781340392658438652766630665362608542433673434211101852238814261802774284499038359532858446390065476004028337020062251177422947153040887993691328145270049438952073662803549236460219869696402302058360744143897958256516947134715300668818218950500439756430051805840111988177425967638602118279328967119505919933604906558482609604065234179374969954585948234944699570549085920909780855335946462544881) 447336054606688638919626795682272822852375704201009155117103550251628046989454557154013609044561805562087549596863411584675678435982721247480973966518415971509169146489276626674641031964448317030071381008184574911390221520841266904306851330057941179432554236217631231840353812380337418940175253282513689098064768542530654883456902826931375141159736657645632065807374198431308784950877592266613475758953765564907376461643678653568179360000,
  mkRat (-3627541516276000538471565265245739685796067180360555693840523277432296586830586670943241667823626416050290842718858519729135805389048748012916721661893020242572612323628281189556054255419273481110390093186580811941761622775594756361696063771498352995052935261909810748988238630040009505834391540042171723771892750266224727579298903830210810922349484930185781024206490958358744072782931660160343600755667914507953838495676683502873291) 9474044388292650776589182070145089321072168887647862768639053998044413869352819031645930607447077180050039626561385365879422646611077765228106985065734399184677635301143752662950344504783481575246147526252809738851827340553975970595849738765068184714074890380291289267718221801273636197156824238393899190302060462245119432564868710202162501333965813451329346665244918454194208571343751920984303943557179750175985363737327710821927401280000,
  mkRat (4130853598507097334201135725729829450672219672887812438585764499558696134848069624842899940636288978015124116462106482153877511490746880730899971786474090223604536963648577758794588532281662812061322305995402900033987876847083800281551199613618691322300516981707351195922707444993199380287447718704538392246950818756565289150860387163795757788188874899332281938356435805813126759507922500599797314404027744856945353559270922288901849) 178822587829023783408120811573988560935237187754353409758062144213088311784034459222316940215563581773444497951346148780974102454784092818680519343115736784610790366309088331513187752527788214732771034558021783820828241052956296444996663819190661986478163555927998084928181436499039883221335057499684847216951391224876629289661896905065817212678604728893841418306497835822915686784113317508578736934641767784571723740542060541763879699160000,
  mkRat (-289478991806376907914353443320514233594454401117039508638766996919083167829511497886588372589680229851445590484139049209104975094609560737746917189808385681275381260368962435709015074118341591218296202572086640444269566069161824906597056018875185788618804764577036666316794536680893724734327512313850287193621505749741711666456921361466814534885785939183931925664106179158039124827465166339784650849086617344758613002419682098815823) 1007451199036753709341525699008386258790068663404807942298941657538525700191743432238405296989090601540532382824485345244924520872023058133411376580933728364004452767938525811341902831142468815395893152439559345469454879171584768704206556727834715416778386230580270901003839078867830328007521450702449843475782485773952841068517729042624322324949885796585022074966184990551637672023173619766640771462770522729981542200236960798669744784000,
  mkRat (8077381721570575062241414871412340916201675826337527085893157755895095251908713133875267132094653377381423087524324031407844779092543000547851928515563562427809299563708904070457985597628063466053475511254685188062320850672052972951788815717345968628466751988128330595109043532947778091277686398877092455760634438862305389239468621918999876305713450735680952886369814356349079697115174053442791539680091275617654341203282297751414611) 178822587829023783408120811573988560935237187754353409758062144213088311784034459222316940215563581773444497951346148780974102454784092818680519343115736784610790366309088331513187752527788214732771034558021783820828241052956296444996663819190661986478163555927998084928181436499039883221335057499684847216951391224876629289661896905065817212678604728893841418306497835822915686784113317508578736934641767784571723740542060541763879699160000,
  mkRat (-7150981499586699163688634841457461371499234438897175935597218283196721781376874304924645695096105861792808234738922444855564957307521305429372487193989405167650266401006371839590860635014441623772717401629378371412866335832747218810157504442621308319125217990824983328443080257008104010136574609202469221818004611995247498686322107646434575230632836777468113695606692399081968309501474325054290555907311678213764582395451124607893921) 44705646957255945852030202893497140233809296938588352439515536053272077946008614805579235053890895443361124487836537195243525613696023204670129835778934196152697591577272082878296938131947053683192758639505445955207060263239074111249165954797665496619540888981999521232045359124759970805333764374921211804237847806219157322415474226266454303169651182223460354576624458955728921696028329377144684233660441946142930935135515135440969924790000,
  mkRat (-15413772736970869645323193115182406639175798926658214566196728551560000370145543912319055676128368166300381627121999131575692349368945117269380285467841779991449290527779477404678963942724717638772975409291388854129273119454157485853421482512706087678257728638512137862187154415051807009477926540962820665590237536917183232163028388423995708252420716266294756635603199030672494350739251528776231780868083203846136468328820247658002869) 71529035131609513363248324629595424374094875101741363903224857685235324713613783688926776086225432709377799180538459512389640981913637127472207737246294713844316146523635332605275101011115285893108413823208713528331296421182518577998665527676264794591265422371199233971272574599615953288534022999873938886780556489950651715864758762026326885071441891557536567322599134329166274713645327003431494773856707113828689496216824216705551879664000,
  mkRat (1455684718828956361550445028283875841624287483513436129264101536782241457019392842129594553998366380326407421991958814278697284790687519133931676889809957850430790508588373687111041418403500272563578491170189870141343210208448177169639204604278003065185968285131657394516629815694587820769374860117071066339620527267278640779669407346532325491959446154352436775569190570730712873264910985459178407711201324155733335882641467976686449) 40641497233869041683663820812270127485281179035080320399559578230247343587280558914162940958082632221237385898033215632039568739723657458791027123435394723775179628706610984434815398301770048802902507854095859959279145693853703737499241777088786815108673535438181382938223053749781791641212513068110192549307134369290143020377703842060413002881501074748600322342385871777935383360025753979222440212418583587402664486486831941309972658900000,
  mkRat (-23455268129968759380067044192040719566941657927397715281478017111972162238760095497067716271179283217277013680954849789828262138042117980505647705115046032282688271347065238938717944307842182521594145815280672852388740997365613957647107849509361508376627828264478194039174602510277622678867145668908703207604513759641023212263115240911702477176346676466895778829498519102381757321340991240382607080844210034974541718632975833579571383) 127730419877874131005800579695706114953740848395966721255758674437920222702881756587369243011116844123888927108104391986410073181988637727628942387939811989007707404506491665366562680376991581951979310398586988443448743609254497460711902727993329990341545397091427203520129597499314202300953612499774890869250993732054735206901354932189869437627574806352743870218927025587796919131509512506127669239029834131836945528958614672688485499400000,
  mkRat (9572340517954161936736297141270547686813145454960243532298045722598256087822937483631004034702418918062485271057912047023014493922496842326044027760150368596533365137709853605932029223623908663600385258232220977216432360990764494555434263069837058518433326098249508214896249906821277264680437191942712481330366791585860494939951510571800534785709486078989748431222301627196906321567833433233672276078471718304053766695371580426641187) 223528234786279729260151014467485701169046484692941762197577680266360389730043074027896175269454477216805622439182685976217628068480116023350649178894670980763487957886360414391484690659735268415963793197527229776035301316195370556245829773988327483097704444909997606160226795623799854026668821874606059021189239031095786612077371131332271515848255911117301772883122294778644608480141646885723421168302209730714654675677575677204849623950000,
  mkRat (-1445953156998754244308826578155517895640475279993092954010716490493850973634926221735796521500940668164380637836708928851089185932455388386509529088226919607213368419221005751308491967674881166993669866058090179919747486907701660624134954843184988482365535670746921187784318763913656603391165600086386601237358135333782446350597246197227418875502210195820416730360744681413917582706242315219297119695510469047991534519836682494820479) 9511839778139562947240468700744072390172190837997521795641603415589803818299705277782815968912956477310877550603518552179473534828941107376623369314666850245254806718568528271978071942967458230466544391384137437278097928348739172606205522297375637578625721059999898134477735983991483150071013696791747192391031448131735600513930686439671128333968336643289437143962650841644451424686878590881847709289455733221900198965003220306589345700000,
  mkRat (-204878593921912743312617301540690572441580421089816135732545725205574900920894850086005385380401909661577195143274551000706826322714654011221343405910527127473128390654141704830008367612555340606942489646201846204563631454284937232071828820117049421932035548552035003555829135779945694098919734240076086480774258993685449055829560697694990703410135479662967121988074584712195157574057079487264428662485781779708325112707688304919247) 34274329333896225153223155551681140845920460986251070203628577640841926425273271350944080207983019839910195440674678516353369637166951123580432874097182883717068153542575263540027652567826074490447781623620841898992079535149956818624360565344876880741648014886199632944568108662315977617422552687439595716582349984768020613851863573470948299096732573037986271842078751866058839966955052522477591245806338825376247050270561603838076942339000]

def tMintChunk5 : List ℚ := [
  mkRat (-334986245011550757437982004518749598050182412434422367728868701170657334909221145588538946660696130406670038668225004285173551241598807080214809123009044480626456157944539115897748550383095696111529629862306521066510378572475447933403712577815244949526229792875551883033580738631209834411862472500425056213521826685403929405842552769904382639778883498902220314394526965461548845089896512314904387827453299072753503343121272789259739) 9768476914467858204414731774182350611605679551468099051005674797883885547769315414481497304194286482968894767435306436353800960621399712211789722809381403301463467663663860024708622240497646159162392634510975270470856793221534339338122904810434224038090826967375916666701912026120837246082810000220291387967608773922103538053922736121303904359699574303055179130366355272484943938900356979615501970113909982531706360517925594861697779500000,
  mkRat (-114660232469244040922808610073657751067780480213948666304566195779667013695038973557894463184717455679496015144563206815408091774124358353891929390321901467048708911739353265161699985817959409454577120403544647739026324890885195388334144259000057942445389188350908971677808624898814414199640532690640204951084032378553483113315195376238916277622473788678391211123650396310540614138012824373718633319383908318725175405883645746744487753) 1028229880016886754596694666550434225377613829587532106108857329225257792758198140528322406239490595197305863220240355490601089115008533707412986222915486511512044606277257906200829577034782234713433448708625256969762386054498704558730816960346306422249440446585988988337043259869479328522676580623187871497470499543040618415555907204128448972901977191139588155262362555981765199008651575674327737374190164761287411508116848115142308270170000,
  mkRat (350327496165577390117078908578266743699274962674566516267090509679991952021310229812685714160825444733595852742666935754564585893390260432533879068091110047067050846245522688604634311848491638786579345822608176804361752617981012359867986338506300807480839655723474085967725540726715773765945477679942219967735321086241705220830251682770813191836808403025572866342790854400631213619505785438355398136538974219829194954459282834862427) 3709343001503920471128047137627829095878837769074791147578850394030511517886717678673601754110716432890713792280809363241706670689063974413466761265928883519163220080365288261907754606907583819312530478746844361362779170470774547470168892353341653759918616329675284950710834270813417491063046827644977891405016232117751148685266620505513885183629066346102410372519345440049658005081715640960778273355664375040719377734909264484640361725000,
  mkRat (-1293635956587214672852358097137865903845045758448390987500317911385649850304756822150948594888252566055579080309410989347389511215606713671050023963892859016347925154135262349989966092868004308175460153453001653614925539565591105091871862376770867040333776807337083740767760781686713282457813343783338932275780002806965666075225453620983780671484258117342346047511007092830850011441813847654593311983353521282759529503766604592414549) 9934588212723543522673378420777142274179843764130744986559008011838239543557469956795385567531310098524694330630341598943005691932449601037806630173096488033932798128282685084065986251543789707376168586556765767823791169608683135833147989955036777026564641995999893607121190916613326845629725416649158178719521734715368293870105383614767622926589151605213412128138768656828649265784073194921040940813431543587317985585670030097993316620000,
  mkRat (20666441880630177769691247434251071331751639749894047848303757461453828414188743070570459411647322215623565904793631426800654841105431143641396305639157283157390540508613705241895340493869028363767105513117310431829963659150039676166791975396094504783946506158227726045045007135095213122728220341081398648376342141968216654870517756947436064065448330620344634313574101946404293262028463281564862459157506981763427191993654476745427) 483827348022250496234093104907977708158109274227146671423328312264849328420006653740035011405745621681397451167062090857613913568138779271321751469468984806847376532221559338509707122640119628605982236358284047134275543974448854017848116393914128751293732564740254558788369687497402281443006107953692768444132552015358845480686950500719202415255965175578575265980784187832564087619354214038362383481173614135746005791509904063213960225000,
  mkRat (-1628158434481176796682131791274815004513697266051157335406455250304703810889321992987875383072480228315703915635287948474228166684277067599872698215895902082720356184261255337769059056384656559433349936944286854373485706800824671872290022436502994415991545522448538040447076466645993372898438167773245507430065640425314896232624065533849648916409740415972297193166080389336701825361950738208779400409036430934087568136256718696841211) 223528234786279729260151014467485701169046484692941762197577680266360389730043074027896175269454477216805622439182685976217628068480116023350649178894670980763487957886360414391484690659735268415963793197527229776035301316195370556245829773988327483097704444909997606160226795623799854026668821874606059021189239031095786612077371131332271515848255911117301772883122294778644608480141646885723421168302209730714654675677575677204849623950000,
  mkRat (-6123233107822245575454436154518762306792995652317213889878117430877962267688692104105960425444433338296641550618563829784655415296274692374108015100880752778579859791357666483073902296229981083472067507383237678146557636027389073294937012372677960838350420901992651553167940933357741143488792968688268930840222768629287964603996275270685903210595710894952057039888677630480385038806355209775981333349930155698889430752329668254279693) 298037646381706305680201352623314268225395312923922349596770240355147186306724098703861567025939302955740829918910247968290170757973488031134198905192894641017983943848480552521979587546313691221285057596702973034713735088260494074994439698651103310796939259879996808213635727498399805368891762499474745361585652041461048816103161508443028687797674548156402363844163059704859477973522195847631228224402946307619539567570100902939799498600000,
  mkRat (3789071138181841239553009608580272798490721651960854271907303163831906996134246555523093722403172503300234358598536122240731565932341144637861640644979012215582224438580060795507410845127088517410833800591163808344173505130687972397586842017857436018909233392737599380038806795712482741402755794531964139519896219022445305672633928338774583839917913436379645818240358350003741137869094310570600100648850742181970510056307134176191) 713008723401211257608137207232809254127739983071584568413325933863988483987378226564262122071625126688375191193565186527009977889888727347211002165533240767985607521168613762014305233364386821103552769370102806303142906909714100657881434685768189738748658516459322507688123749996171783179166895931757764022932181917370930182064979685270403559324580258747374076182208276805883918596943052267060354603834799778994113798014595461578467700000,
  mkRat (6809113330506328995956605316319817962589119384387921030569894040753475906817096005518771534643415738570273060036617620335947261054864324426663518849714043022260533756079192120002036247352179289396366017256782979510108069257629032553384917523306362747524297787212218948008285006603536518158204595209209166254208232052859241591312081837660683400731882377560977106185263106843366457499638949628680260745926424949432231309893681053406637) 298037646381706305680201352623314268225395312923922349596770240355147186306724098703861567025939302955740829918910247968290170757973488031134198905192894641017983943848480552521979587546313691221285057596702973034713735088260494074994439698651103310796939259879996808213635727498399805368891762499474745361585652041461048816103161508443028687797674548156402363844163059704859477973522195847631228224402946307619539567570100902939799498600000,
  mkRat (977328919552258125177636662309018526110034264756778652780354031012830851824880330658047702117546522795783047903723759306542828452404453656730733859345282406120529663840988079347385305337937091577824281347487606696835886739218830379137850290890730311557886147178334559368822823524004758921594815027494101232375650347914054168938038601394410848747802899842909636119905945051029450625774158290269708381425438656792219944399162473630207) 149018823190853152840100676311657134112697656461961174798385120177573593153362049351930783512969651477870414959455123984145085378986744015567099452596447320508991971924240276260989793773156845610642528798351486517356867544130247037497219849325551655398469629939998404106817863749199902684445881249737372680792826020730524408051580754221514343898837274078201181922081529852429738986761097923815614112201473153809769783785050451469899749300000,
  mkRat (241345615501988077897101879707213662911680510774159905503806262052320243333565538195400557346730507841793963834016100609286815381814400665390545068237147644240175445859323229817379104517596049971614831857274022853567709893898154879694558012775705178935994599340124131139403148931265687445600598814530976619363395922413023587312482307621987440333100139353242214559659033462419439608244743348619066721864936880055383545488226612958017) 22925972798592792744630873278716482171184254840301719199751556950395937408209546054143197463533792535056986916839249843714628519844114463933399915784068818539844918757575427117075352888177976247791158276669459464208748852943114928845726130665469485445918404606153600631818132884492292720683981730728826566275819387804696062777166269880232975984436503704338643372627927669604575228732476603663940632646380485201503043659238530995369192200000,
  mkRat (1332448476519518864582263370103942647663228786038630210632058051867257089090004725111624205542601990972269476696416848839756337204152312924411746445350720126040721758704088788031736503994787543371568296153436199605141640665086392339201687091565755261016524397825211926824340792304357308547969030148790319150450723064674753942023902914377828128766034106819680025697450107856602253841509152882421706825505807969457507490204758678468653) 79476705701788348181387027366217138193438750113045959892472064094705916348459759654363084540250480788197554645042732791544045535459596808302453041384771904271462385026261480672527890012350317659009348692454126142590329356869465086665183919640294216212517135967999148856969527332906614765037803333193265429756173877722946350960843068918140983412713212841707297025110149254629194126272585559368327526507452348698543884685360240783946532960000,
  mkRat (11851963075670528462048271039222700438371907019313195079182568139446770539594481195423149265893829164256272228074604466154535999585054024943421517076718588604106556374689394340740222077274227785462595304749910915842718663493751559208656923055001387582140982421930447779152821058522267162424912710546236464652910126784849649541045128276404599956518027386444005655843197718667626510466478744715566951505013319601071705066666117114531) 537004768255326676901263698420386068874586149412472701976162595234499434786890267934885706353043789109442936790829275618540848212564843299340898928275485839672043142069334328868431689272637281479792896570635987449934657816685574909899891348920906866300791459243237492276821130627747397061066238737792333984839012687317205074059750465663114752788602789470995250169663170639386446799139091617353564368293596950665837058684866491783422520000,
  mkRat (225627192491758158113052971247978734023371756886590542014446734390326258874993079837540636805488715359312065015846297395494231392208379932964344936828681679154182937976572478327071411538247015847923447438973684926060906034612319689278017706524598951983665288140700434603147143808576664901627541256846479801812544075618319568249414639751354395525353205171009411362904144272970577127437133208867151375013011007526903625810036153796579) 19869176425447087045346756841554284548359687528261489973118016023676479087114939913590771135062620197049388661260683197886011383864899202075613260346192976067865596256565370168131972503087579414752337173113531535647582339217366271666295979910073554053129283991999787214242381833226653691259450833298316357439043469430736587740210767229535245853178303210426824256277537313657298531568146389842081881626863087174635971171340060195986633240000,
  mkRat (39923999941075709312986730643202923838846106461512225289152048112744199396252049752080926181699810793605892715552714180924640480738388286358852924854925630876912047715067468759469249045682089276323753870858627963212821502270276755815427602884043348346323402511520469400745497664320183498858352208382538570991524357815390896330229260067323418970221559332790016694573882299206323751933028090685944898998968209825623411611826349406801) 2207686269494120782816306315728253838706631947584609997013112891519608787457215545954530126118068910783265406806742577542890153762766578008401473371799219563096177361840596685347996944787508823861370797012614615071953593246374030185143997767785950450347698221333309690471375759247405965695494537033146261937671496603415176415578974136615027317019811467825202695141948590406366503507571821093564653514095898574959552352371117799554070360000,
  mkRat (275014477138313698039050182037756246408864091662128581624474576948011075442429981421694729995793173649027910842874864758147843957758857376151977898275130591134186558926946213519786002185946962758487528337172234312710810744377407406945231188804356539542410386153912374894937478943245300704778188269022272157766210327786362032861296930348996600231651623179784064147678756363427828494650815401776278329014445905976615479604428368410163) 13246117616964724696897837894369523032239791685507659982078677349117652724743293275727180756708413464699592440840455465257340922576599468050408840230795317378577064171043580112087981668725052943168224782075687690431721559478244181110863986606715702702086189327999858142828254555484435794172967222198877571626028979620491058493473844819690163902118868806951216170851691542438199021045430926561387921084575391449757314114226706797324422160000,
  mkRat (37010485789328934650752141742224699035716206092937014837673001120808768018175796536676883800148703904173660669019624687469618538683042145926984670890514685045172168967645196337796949892456975325607958848590810817796014884222987451587833220087943005076242134913814297540003100574389720079425872511018796317677479461881374227686848493866333543384209030793950867794223907649941920269380426585589378990170810658873900153045917422513201) 2207686269494120782816306315728253838706631947584609997013112891519608787457215545954530126118068910783265406806742577542890153762766578008401473371799219563096177361840596685347996944787508823861370797012614615071953593246374030185143997767785950450347698221333309690471375759247405965695494537033146261937671496603415176415578974136615027317019811467825202695141948590406366503507571821093564653514095898574959552352371117799554070360000,
  mkRat (942051191997744052275165000672847767817090139283342190661200146779812900811334664503666764847539242379172175757693029581671229155843099384722878028686325616028139525389785728539400556725863977080423148475047383316894680262466892352937767852477086654994031742287139079717962748371654314918548056675092491927629228944682601092000334772581833606453001695179278952307299765763800371522493522544197678083550180498146877675319433885837) 80769009859541004249377060331521481903901168814071097451699252128766175150873739486141346077490326004265807566100338202788664162052435780795175855065825105966933318116119390927365741882469835019318443793144437136778789996818562079944292601260461601841988959317072305748952771679783145086420531842676082753817249875734701576179718565973720511598285785408239122992998119161208530616130676381471877567588874338108276305574553090227587940000,
  mkRat (7618426922874666119267215192124077580932436329313279642064205110143194586523726862852991216160308439262267676909662828111005909747900137863298348066830195571309001300562082538805098262538872305833975905142839782372728365161625528211906302637709677863544066815650414039125058725945671243221525026126697771532125626485557453012199930152138052733094966115500140727514160651592289935799375460669304286173582042687284418091972800389311697) 476860234210730089088322164197302829160632500678275759354832384568235498090758557926178507241502884729185327870256396749264273212757580849814718248308631425628774310157568884035167340074101905954056092154724756855541976141216790519991103517841765297275102815807994893141817163997439688590226819999159592578537043266337678105765058413508845900476279277050243782150660895527775164757635513356209965159044714092191263308112161444703679197760000,
  mkRat (92157156089470018902386783955865479860497354716359958246682721783367251481450998816512493440998820100080083152366934768728075190545506218193793938363057464541074914773896361199164560800086745934440459781875840080701279979484872717027787670136971742958861000423686271221356563341074287263784149848994181400076846313366671614180290479406509851194076708294454276436144752083477351824597649182878423514424014177926585812642549886218983) 11921505855268252227208054104932570729015812516956893983870809614205887452268963948154462681037572118229633196756409918731606830318939521245367956207715785640719357753939222100879183501852547648851402303868118921388549403530419762999777587946044132431877570395199872328545429099935992214755670499978989814463426081658441952644126460337721147511906981926256094553766522388194379118940887833905249128976117852304781582702804036117591979944000,
  mkRat (2863731798452557956316493478932779620316882560762048519679580902625354205180589623158791508162417324674588475349577684836236180275328289818156192736332558328979105056166831772608961917879642305970566206934539057217057064871001444214049724613519500584986172776012701443006277723408667101166908568406892175266430084874665129903749547884382264033686854435229226057610747922303923082127046362709932738039027329972371640062412561646024009) 238430117105365044544161082098651414580316250339137879677416192284117749045379278963089253620751442364592663935128198374632136606378790424907359124154315712814387155078784442017583670037050952977028046077362378427770988070608395259995551758920882648637551407903997446570908581998719844295113409999579796289268521633168839052882529206754422950238139638525121891075330447763887582378817756678104982579522357046095631654056080722351839598880000,
  mkRat (59274482044281341962214775810152404614171126831121354692761424486887552685106753586709355317844462754059685660352715427976773312822476002726802532583246966941996140741518435863416636447468296015380407853394535113217251052675036061306280778808810318932673660396805996362180638961250707600791835028601290770558519594451420641689744784806853075895050280202429006595066080245630562532789286907072396612582013452451228713621906332151) 13862216110777037473497737331316942708157921531345225562640476295588241223568562730412165908183223393290271159019081300850705616649929675866706925822925332140371346225510723373115329653316915870757444539381533629521569073872581119767183241797725735385904151622325432940169103604576735133436826162766267226120262885649351107725728442253164125013845327821228016922984328358365557115047543992913080382530369595703234398491632600136734860400,
  mkRat (14387998433724142472660483812664107241236221936221011379625701996167275334885686757013092876793351257197980490146010700873411429675747650273908793538117421780478620493140976298666194258552216542759014016067358036073741915882537718118569424510491946494008804710280283702908971491781678886553649321170026360788559565217202195983821067373844634763595751348581603700916186926637511139595083217752853543605721637946001111903954105175713) 2337550167699657299452559628418151123336433826854292938013884238079585774954698813363620133536778846711692783677727435045413103984105788479483912981905056007984187794890043549191996765069126989970863196836886063017362628143219561372505409401185124006250503999058798495793221392144312198971700098035096042051652172874204304440024796144651205394491565083579626383091474978077329239008017222334362574309042716138192467196628242375998427440000,
  mkRat (47906885343080902257450448917461461671936464390934241130486315065846182699064179721082947579914358253194935985132138397076552774262687294405901753291629025683266787160620602457778180911873944776245190847479821906345104836312282736955677073691381172047463787645012469874311006646283129820153801845547745384530264583141652327578354483359614100039846335603250625505544806892342541923910047905490837275317003676635741495945580242389611) 16443456352094141003045591868872511350366637954423302046718358088559844761750295100902707146258720163075356133457117129284974938370951063786714422355470049159612907246812720139143701381865582963932968694990508857087654349697130707585900121304888458526727683303723961832476453930946196158283683448246882502708173905735782003647070979776167100016423423346560130418988306742337074646815017701938274660656714279041078045107315911886333765440000,
  mkRat (3021676254726282790467874797436413893471501984108160987843022185259036633820394360700380909385432952495534765710405500264215221659014126598026625382397909085184499283241398635983314920675176656557496532525662976610032072496611879675952660818997095227402438391530960004512190789085886260895362588875246402068245236700698216442224387077400322065928858132732127496971002010308606034236036205004833865776325774373440747699417564716495247) 1669010819737555311809127574690559902062213752373965157741913345988824243317654952741624775345260096552148647545897388622424956244651532974351513869080209989700710085551491094123085690259356670839196322541536648994396916494258766819968862312446178540462859855327982125996360073991038910065793869997058574024879651432181873370177704447280960651666977469675853237527313134347213076651724296746734878056656499322669421578392565056462877192160000,
  mkRat (2852796929509656585338899256246105039598794507173129420776707722586317121651085856094824272143319876935353955421689046532391506406460606095812683996959050961621129568988619926142378408601215166791404748744975550091742548238273363999243100624113362215069458377227437766006172836249460282686663670489645600075480934541456814081890195308680730207538128538852119407427961832934741735308654522257060428246839302550890439154132497319794027) 1669010819737555311809127574690559902062213752373965157741913345988824243317654952741624775345260096552148647545897388622424956244651532974351513869080209989700710085551491094123085690259356670839196322541536648994396916494258766819968862312446178540462859855327982125996360073991038910065793869997058574024879651432181873370177704447280960651666977469675853237527313134347213076651724296746734878056656499322669421578392565056462877192160000,
  mkRat (25508980258073629789748893265462955595180346463296098950732850730197998915361755417419944993066341529979000574939914080840524480037949534081949200474730208665121682449440063830367942051549523598599278142705244533418014310563550049670048928439062759536848348025087658606561696244288851869369290660991065891599978972590136844254169390205525012798833201295982661084346805250036898121935062712688531960365842438270608973824279843188859) 333802163947511062361825514938111980412442750474793031548382669197764848663530990548324955069052019310429729509179477724484991248930306594870302773816041997940142017110298218824617138051871334167839264508307329798879383298851753363993772462489235708092571971065596425199272014798207782013158773999411714804975930286436374674035540889456192130333395493935170647505462626869442615330344859349346975611331299864533884315678513011292575438432000,
  mkRat (24087019696133255044777654931514896643291110860178761232542772484691928161107137216961175371410554510312570924275757297650889735916772138159957399674343994876970124755764005933836330341772841236021176569679320155509085027778143100163656577338284590447364229351566302894794160602246735452005255579698389742119736231735509961936692313150807955122020312852831040633675366184071672689315240283708025001039397333208132916876364240016273) 52230779565044405205975542877940708172643958111276292276418340841755523972956485007561515017917101172328976167865921123319130920885254232483262169444899885879680827712848938934150619040833352430245119624343963410919960402380786443868157853305570309943361190351658046617240286810530378408886863641444222800209605023482220788255916782133970319113333576575915748542817765228504534404463633753098388786979293008675287730760507014569250779840000,
  mkRat (793729898418838759056900945618719010488815034722749391247376363137649593436997480881863791784321113574739708372033863890886046044879671446561715032266030643934563537798434488715476614319920705838188054985293136587804505613408165679327896882798832944017928619231133463904383989925008222856714004561628066275069263164265881253772134664138786740853771784411513038439438555299489800693941769211920924426532525682798968472230535640807933) 1835911901711310842990040332159615892268435127611361673516104680587706667649420448015787252879786106207363512300487127484667451869116686271786665255988230988670781094106640203535394259285292337923115954795690313893836608143684643501965748543690796394509145840860780338595996081390142801072373256996764431427367616575400060707195474892009056716833675216643438561280044447781934384316896726421408365862322149254936363736231821562109164911376000,
  mkRat (164784585919143326117717344453156220401150297797545268481789339045241721294861856901194365584524031912673713537791318932849620671359032323678733587980608606517951409822505694006417713483817319752973415760713238011385925956164638044012105953823664843584015028411039783644899022130043399279247705486351282740536052417593789298282701424912757867467690980484422331269549874008689455266759687164631979055538808843585029804643040031669649) 163920705509938468124110743942822847523967422108157292278223632195330952468698254287123861864266616625657456455400636382559593916885418417123809397856092052559891169116664303887088773150472530171706781678186635169092554298543271741246941834258106820938316592933998244517499650124119892952890469374711109948872108622803576848856738829643665778288721001486021300114289682837672712885437207716197175523421620469190746762163555496616889724230000,
  mkRat (14594216562196042166258247777308770950963519195081825218705654172961793425687867153287524797463126375911867434287142627687286233891678344962425548949215632504438591110415789636821319983059161543952933391608699363507544225831899523204999604125822606444199459237559902050820291734535806737189430167488782338326431340246138975456250845605757625823646316766308688906915548620034372712783026786935357496205127356627358859728957647457979173) 9179559508556554214950201660798079461342175638056808367580523402938533338247102240078936264398930531036817561502435637423337259345583431358933326279941154943353905470533201017676971296426461689615579773978451569469183040718423217509828742718453981972545729204303901692979980406950714005361866284983822157136838082877000303535977374460045283584168376083217192806400222238909671921584483632107041829311610746274681818681159107810545824556880000,
  mkRat (395112405053824204555289089966067157785937120888283385174471528276350314081668487040228170330155922695658562991865875086376939587552675706509088139500682648323291860582187643283098083518469670059405498237662289582387500650011041136730027639454077747574914238948596271230858864097493414565053070456226845352749797959647669298512212765635097004243053483783622459352939596533717009096262024815414801753971279835002472684337312742253850017) 149932805306423718844186627126368631201922202088261203337148548914662711191369336587955958985182532006934686837873115411247841902644529378862577662572372197408113789352042283288723864508298874263721136308314708967996656331734245885993869464401415038884913577003630394318673013313528328754243815988069095233235022020324338291087630449514072965208083476025880815837870296568857974719213232657748349878756308855819803038458932094238915134429040000,
  mkRat (595327224969574820466810769563584823591780561467295291082710515374459567721685497143303336566297896474348870964366599884652946672174934994352275617651814460938850312566201779248688778489677790373950518107096372105691504473527522310797217435738796115595828457713817004110175600122238342589009706722070516022533070697313653386772462728760395166390168944016999016023681081784012975764304433490488717151370234220129710540640233872003887) 201522587777451235005627186997807300002583604957340327066059877573471386009905022295639729818793725815772428545528380929096561697102862068363679653995123921247464770634465434527854656597175906268442387511175684096769699370610545545690684763980396557641012872316707519245528243700978936497639537618372439829616965081081099853612406518164076566139897145196076365373481581409755342364533914862564986396177834483628767524810392599783488083910000,
  mkRat (44499845304229986362292406571018246399944073818542927135979476963949775990448577684153716567934414290456177111048150100553019415638283431590418798923691528278374252041619386267111113693036704227074536030011292138184334467957333670479162198865507118439054017334412433595263106257063001653187262051610491736365426509549823324270604866647283893349764598026918571199582262028980096138614535373349823497988642965524391821748849488230956177) 7891200279285458886536138269808875326416958004645326491428870995508563746914175609892418893956975368786036149361742916381465363297080493624346192766966957758321778386949593857301256026752572329669533489911300471999824017459697151894414182336916580993942819842296336543088053332290964671275990315161531328065001158964438857425664760500740682379372814527677937675677384029939893406274380666197281572566121518727358054655733268117837638654160000]

/-- The interior (indices 1 through 214 of 216) second derivatives of the
`T`-axis natural cubic spline, to be certified against the system. -/
def tMint : List ℚ :=
  tMintChunk0 ++ tMintChunk1 ++ tMintChunk2 ++ tMintChunk3 ++ tMintChunk4 ++ tMintChunk5

theorem solvesTri_of_allB {rows : List (ℚ × ℚ × ℚ × ℚ)} {x : List ℚ}
    (h : allB (fun j =>
        decide ((rows.getD j (0,0,0,0)).1 * (if j = 0 then 0 else x.getD (j-1) 0)
          + (rows.getD j (0,0,0,0)).2.1 * x.getD j 0
          + (rows.getD j (0,0,0,0)).2.2.1 * x.getD (j+1) 0
          ≤ (rows.getD j (0,0,0,0)).2.2.2)
        && decide ((rows.getD j (0,0,0,0)).2.2.2
          ≤ (rows.getD j (0,0,0,0)).1 * (if j = 0 then 0 else x.getD (j-1) 0)
            + (rows.getD j (0,0,0,0)).2.1 * x.getD j 0
            + (rows.getD j (0,0,0,0)).2.2.1 * x.getD (j+1) 0))
      (List.range rows.length) = true) :
    SolvesTri rows x := by
  intro j hj
  have hb := forall_of_allB h j (List.mem_range.mpr hj)
  rcases Bool.and_eq_true_iff.mp hb with ⟨h1, h2⟩
  exact le_antisymm (of_decide_eq_true h1) (of_decide_eq_true h2)

/-- The recorded vector `tMint` checks against every row of the `T`-axis
natural-spline system. -/
theorem tMint_solves :
    SolvesTri (splineRows (rawData.reverse.map (·.t)) (rawData.reverse.map (·.bc)))
      tMint :=
  solvesTri_of_allB (by with_unfolding_all decide)

theorem rawData_length : rawData.length = 216 := by with_unfolding_all decide

theorem tXs_lit_sorted : List.Chain' (· < ·) (rawData.reverse.map (·.t)) := by
  rw [List.chain'_map]
  exact List.chain'_reverse.mpr rawData_t_strictDesc

theorem tMint_length : tMint.length = 214 := by with_unfolding_all decide

/-- The engine's `T`-axis second-derivative vector is the certified literal
vector (zero at both boundary knots — the natural boundary condition). -/
theorem tM_eq : tM = 0 :: (tMint ++ [0]) := by
  have e : tM = splineM tXs tYs := rfl
  rw [e, tXs_eq, tYs_eq]
  refine splineM_eq_of_solves _ _ _ tXs_lit_sorted ?_ ?_ tMint_solves
  · simp [rawData_length]
  · rw [splineRows_length _ _ (by simp), tMint_length]
    simp [rawData_length]

theorem findSeg_5780 : findSeg (rawData.reverse.map (·.t)) 5780 = 116 := by
  with_unfolding_all decide

/-- The interpolated bolometric correction at 5780 K lies strictly between
the two neighbouring tabulated values −0.085 (at 5751 K) and −0.079
(at 5784 K). -/
theorem bc_from_T_5780_bounds :
    -85/1000 < bc_from_T 5780 ∧ bc_from_T 5780 < -79/1000 := by
  have e : bc_from_T 5780 = segEval tXs tYs tM (findSeg tXs 5780) 5780 := rfl
  rw [e, tXs_eq, tYs_eq, tM_eq, findSeg_5780]
  constructor
  · with_unfolding_all decide
  · with_unfolding_all decide

/-! ## Support for the per-claim theorems -/

theorem allB_of_forall {α : Type} {f : α → Bool} :
    ∀ {l : List α}, (∀ x ∈ l, f x = true) → allB f l = true
  | [], _ => rfl
  | a :: rest, h => by
      have e : allB f (a :: rest) = (f a && allB f rest) := rfl
      rw [e, h a (by simp), allB_of_forall fun x hx => h x (by simp [hx])]
      rfl

theorem mem_rawData_of_mem_theData {r : Row} (h : r ∈ theData) : r ∈ rawData := by
  rw [theData_eq] at h
  exact List.mem_reverse.mp h

theorem revData_t_pairwise :
    List.Pairwise (fun a b : Row => a.t < b.t) rawData.reverse := by
  have ht : IsTrans Row (fun a b : Row => a.t < b.t) :=
    ⟨fun _ _ _ h1 h2 => lt_trans h1 h2⟩
  have hc := theData_t_strictAsc
  rw [theData_eq] at hc
  exact List.chain'_iff_pairwise.mp hc

theorem revData_logT_pairwise :
    List.Pairwise (fun a b : Row => a.logT < b.logT) rawData.reverse := by
  have ht : IsTrans Row (fun a b : Row => a.logT < b.logT) :=
    ⟨fun _ _ _ h1 h2 => lt_trans h1 h2⟩
  have hc := theData_logT_strictAsc
  rw [theData_eq] at hc
  exact List.chain'_iff_pairwise.mp hc

theorem rawData_bv_pairwise :
    List.Pairwise (fun a b : Row => a.b_v < b.b_v) rawData := by
  have ht : IsTrans Row (fun a b : Row => a.b_v < b.b_v) :=
    ⟨fun _ _ _ h1 h2 => lt_trans h1 h2⟩
  exact List.chain'_iff_pairwise.mp rawData_bv_strictAsc

/-- Evaluating a spline whose knots and values are two projections of one
row list, at a member row's knot projection, returns that row's value
projection — for any second-derivative vector. -/
theorem splineEval_map_at_row {rows : List Row} (f g : Row → ℚ) (M : List ℚ)
    (hp : List.Pairwise (fun a b => f a < f b) rows) (h2 : 2 ≤ rows.length)
    {r : Row} (hr : r ∈ rows) :
    splineEval (rows.map f) (rows.map g) M (f r) = g r := by
  obtain ⟨⟨j, hj⟩, hget⟩ := List.mem_iff_get.mp hr
  have hpm : (rows.map f).Pairwise (· < ·) := List.pairwise_map.mpr hp
  have hjm : j < (rows.map f).length := by simpa using hj
  have hjg : j < (rows.map g).length := by simpa using hj
  have hx : (rows.map f).getD j 0 = f r := by
    rw [List.getD_eq_getElem _ 0 hjm]
    simp only [List.getElem_map]
    rw [← hget]
    rfl
  have hy : (rows.map g).getD j 0 = g r := by
    rw [List.getD_eq_getElem _ 0 hjg]
    simp only [List.getElem_map]
    rw [← hget]
    rfl
  have h2m : 2 ≤ (rows.map f).length := by simpa using h2
  have hkey : splineEval (rows.map f) (rows.map g) M ((rows.map f).getD j 0)
      = (rows.map g).getD j 0 := splineEval_at_knot hpm h2m hjm
  rw [hx, hy] at hkey
  exact hkey

/-- Every row of the table lies inside all six recorded axis bounds. -/
theorem rawData_in_bounds : ∀ r ∈ rawData,
    (decide ((2936:ℚ) ≤ r.t) && decide (r.t ≤ 56728)
      && decide ((34678/10000:ℚ) ≤ r.logT) && decide (r.logT ≤ 47538/10000)
      && decide ((-35/100:ℚ) ≤ r.b_v) && decide (r.b_v ≤ 180/100)) = true :=
  forall_rawData_of_chunks (by with_unfolding_all decide)
    (by with_unfolding_all decide) (by with_unfolding_all decide)
    (by with_unfolding_all decide) (by with_unfolding_all decide)
    (by with_unfolding_all decide)

theorem rawData_bounds {r : Row} (h : r ∈ rawData) :
    ((2936:ℚ) ≤ r.t ∧ r.t ≤ 56728)
    ∧ ((34678/10000:ℚ) ≤ r.logT ∧ r.logT ≤ 47538/10000)
    ∧ ((-35/100:ℚ) ≤ r.b_v ∧ r.b_v ≤ 180/100) := by
  have hb := rawData_in_bounds r h
  simp only [Bool.and_eq_true, decide_eq_true_eq] at hb
  exact ⟨⟨hb.1.1.1.1.1, hb.1.1.1.1.2⟩, ⟨hb.1.1.1.2, hb.1.1.2⟩, hb.1.2, hb.2⟩

theorem extrapT_eq_false {v : ℚ} (h1 : T_min ≤ v) (h2 : v ≤ T_max) :
    extrapT v = false := by
  have e : extrapT v = (decide (v < T_min) || decide (T_max < v)) := rfl
  rw [e, decide_eq_false (not_lt.mpr h1), decide_eq_false (not_lt.mpr h2)]
  rfl

theorem extrapLogT_eq_false {v : ℚ} (h1 : logT_min ≤ v) (h2 : v ≤ logT_max) :
    extrapLogT v = false := by
  have e : extrapLogT v = (decide (v < logT_min) || decide (logT_max < v)) := rfl
  rw [e, decide_eq_false (not_lt.mpr h1), decide_eq_false (not_lt.mpr h2)]
  rfl

theorem extrapBV_eq_false {v : ℚ} (h1 : BV_min ≤ v) (h2 : v ≤ BV_max) :
    extrapBV v = false := by
  have e : extrapBV v = (decide (v < BV_min) || decide (BV_max < v)) := rfl
  rw [e, decide_eq_false (not_lt.mpr h1), decide_eq_false (not_lt.mpr h2)]
  rfl

theorem extrapT_eq_true {v : ℚ} (h : v < T_min ∨ T_max < v) : extrapT v = true := by
  have e : extrapT v = (decide (v < T_min) || decide (T_max < v)) := rfl
  rw [e]
  rcases h with h | h
  · rw [decide_eq_true h]
    exact Bool.true_or _
  · rw [decide_eq_true h]
    exact Bool.or_true _

/-- The scalar `T` query, unfolded: the interpolated value paired with the
verbose-gated range check. -/
theorem get_BC_from_T_eq (v : ℚ) (b : Bool) :
    get_BC_from_T v b = (bc_from_T v, b && extrapT v) := rfl

/-- The finite case of the NaN-aware `T` query agrees with the all-finite
model. -/
theorem get_BC_from_T_nf_fin (q : ℚ) (b : Bool) :
    get_BC_from_T_nf (FVal.fin q) b = (FVal.fin (bc_from_T q), b && extrapT q) := rfl

/-- The `T`-axis interpolant reproduces every tabulated row exactly. -/
theorem bc_from_T_at_row {r : Row} (hr : r ∈ theData) : bc_from_T r.t = r.bc := by
  have hmem : r ∈ rawData.reverse := by
    rw [← theData_eq]
    exact hr
  have h2 : 2 ≤ rawData.reverse.length := by
    rw [List.length_reverse, rawData_length]
    omega
  have e : bc_from_T r.t = splineEval tXs tYs tM r.t := rfl
  rw [e, tXs_eq, tYs_eq]
  exact splineEval_map_at_row (fun s => s.t) (fun s => s.bc) tM revData_t_pairwise h2 hmem

/-- The `logT`-axis interpolant reproduces every tabulated row exactly. -/
theorem bc_from_logT_at_row {r : Row} (hr : r ∈ theData) : bc_from_logT r.logT = r.bc := by
  have hmem : r ∈ rawData.reverse := by
    rw [← theData_eq]
    exact hr
  have h2 : 2 ≤ rawData.reverse.length := by
    rw [List.length_reverse, rawData_length]
    omega
  have e : bc_from_logT r.logT = splineEval lXs lYs lM r.logT := rfl
  rw [e, lXs_eq, lYs_eq]
  exact splineEval_map_at_row (fun s => s.logT) (fun s => s.bc) lM revData_logT_pairwise h2 hmem

/-- The `B_V`-axis interpolant reproduces every tabulated row exactly. -/
theorem bc_from_BV_at_row {r : Row} (hr : r ∈ theData) : bc_from_BV r.b_v = r.bc := by
  have hmem : r ∈ rawData := mem_rawData_of_mem_theData hr
  have h2 : 2 ≤ rawData.length := by
    rw [rawData_length]
    omega
  have e : bc_from_BV r.b_v = splineEval bXs bYs bM r.b_v := rfl
  rw [e, bXs_eq, bYs_eq]
  exact splineEval_map_at_row (fun s => s.b_v) (fun s => s.bc) bM rawData_bv_pairwise h2 hmem

/-! ## Derivatives of the cubic pieces -/

/-- `segEval1` really is the derivative of the cubic piece `segEval`. -/
theorem segEval_hasDerivAt (xs ys M : List ℚ) (i : Nat) (v : ℚ)
    (hne : xs.getD (i+1) 0 - xs.getD i 0 ≠ 0) :
    HasDerivAt (segEval xs ys M i) (segEval1 xs ys M i v) v := by
  set x0 := xs.getD i 0 with hx0
  set x1 := xs.getD (i+1) 0 with hx1
  set y0 := ys.getD i 0 with hy0
  set y1 := ys.getD (i+1) 0 with hy1
  set m0 := M.getD i 0 with hm0
  set m1 := M.getD (i+1) 0 with hm1
  have h1 : HasDerivAt (fun t : ℚ => x1 - t) (0 - 1) v :=
    (hasDerivAt_const v x1).sub (hasDerivAt_id' v)
  have h2 : HasDerivAt (fun t : ℚ => t - x0) (1 - 0) v :=
    (hasDerivAt_id' v).sub (hasDerivAt_const v x0)
  have hd := ((((h1.pow 3).const_mul m0).div_const (6*(x1 - x0))).add
      (((h2.pow 3).const_mul m1).div_const (6*(x1 - x0)))).add
      (((h1.const_mul (y0 - m0 * (x1 - x0)^2 / 6)).div_const (x1 - x0)).add
       ((h2.const_mul (y1 - m1 * (x1 - x0)^2 / 6)).div_const (x1 - x0)))
  have hfun : segEval xs ys M i = fun t =>
      (m0 * (x1 - t)^3 / (6*(x1 - x0)) + m1 * (t - x0)^3 / (6*(x1 - x0)))
      + ((y0 - m0 * (x1 - x0)^2 / 6) * (x1 - t) / (x1 - x0)
         + (y1 - m1 * (x1 - x0)^2 / 6) * (t - x0) / (x1 - x0)) := by
    funext t
    show m0 * (x1 - t)^3 / (6*(x1 - x0)) + m1 * (t - x0)^3 / (6*(x1 - x0))
      + (y0 - m0 * (x1 - x0)^2 / 6) * (x1 - t) / (x1 - x0)
      + (y1 - m1 * (x1 - x0)^2 / 6) * (t - x0) / (x1 - x0) = _
    ring
  rw [hfun]
  convert hd using 1
  show m1 * (v - x0)^2 / (2*(x1 - x0)) - m0 * (x1 - v)^2 / (2*(x1 - x0))
    + (y1 - m1 * (x1 - x0)^2 / 6) / (x1 - x0) - (y0 - m0 * (x1 - x0)^2 / 6) / (x1 - x0) = _
  push_cast
  field_simp
  ring

/-- `segEval2` really is the derivative of `segEval1`. -/
theorem segEval1_hasDerivAt (xs ys M : List ℚ) (i : Nat) (v : ℚ)
    (hne : xs.getD (i+1) 0 - xs.getD i 0 ≠ 0) :
    HasDerivAt (segEval1 xs ys M i) (segEval2 xs ys M i v) v := by
  set x0 := xs.getD i 0 with hx0
  set x1 := xs.getD (i+1) 0 with hx1
  set y0 := ys.getD i 0 with hy0
  set y1 := ys.getD (i+1) 0 with hy1
  set m0 := M.getD i 0 with hm0
  set m1 := M.getD (i+1) 0 with hm1
  have h1 : HasDerivAt (fun t : ℚ => x1 - t) (0 - 1) v :=
    (hasDerivAt_const v x1).sub (hasDerivAt_id' v)
  have h2 : HasDerivAt (fun t : ℚ => t - x0) (1 - 0) v :=
    (hasDerivAt_id' v).sub (hasDerivAt_const v x0)
  have hd := (((((h2.pow 2).const_mul m1).div_const (2*(x1 - x0))).sub
      (((h1.pow 2).const_mul m0).div_const (2*(x1 - x0)))).add
      (hasDerivAt_const v ((y1 - m1 * (x1 - x0)^2 / 6) / (x1 - x0)))).sub
      (hasDerivAt_const v ((y0 - m0 * (x1 - x0)^2 / 6) / (x1 - x0)))
  have hfun : segEval1 xs ys M i = fun t =>
      (m1 * (t - x0)^2 / (2*(x1 - x0)) - m0 * (x1 - t)^2 / (2*(x1 - x0))
       + (y1 - m1 * (x1 - x0)^2 / 6) / (x1 - x0))
      - (y0 - m0 * (x1 - x0)^2 / 6) / (x1 - x0) := by
    funext t
    show m1 * (t - x0)^2 / (2*(x1 - x0)) - m0 * (x1 - t)^2 / (2*(x1 - x0))
      + (y1 - m1 * (x1 - x0)^2 / 6) / (x1 - x0) - (y0 - m0 * (x1 - x0)^2 / 6) / (x1 - x0) = _
    ring
  rw [hfun]
  convert hd using 1
  show m0 * (x1 - v) / (x1 - x0) + m1 * (v - x0) / (x1 - x0) = _
  push_cast
  field_simp
  ring

/-- Both cubic pieces meeting at a knot have second derivative `M` there:
piece `i` at its right knot. -/
theorem segEval2_right {xs ys M : List ℚ} {i : Nat}
    (hne : xs.getD (i+1) 0 - xs.getD i 0 ≠ 0) :
    segEval2 xs ys M i (xs.getD (i+1) 0) = M.getD (i+1) 0 :=
  cubic_dd_left (xs.getD i 0) (xs.getD (i+1) 0) (M.getD i 0) (M.getD (i+1) 0) hne

/-- Piece `i` at its left knot has second derivative `M _i`. -/
theorem segEval2_left {xs ys M : List ℚ} {i : Nat}
    (hne : xs.getD (i+1) 0 - xs.getD i 0 ≠ 0) :
    segEval2 xs ys M i (xs.getD i 0) = M.getD i 0 :=
  cubic_dd_right (xs.getD i 0) (xs.getD (i+1) 0) (M.getD i 0) (M.getD (i+1) 0) hne

/-- The generic correctness theorem behind claim C4: for strictly sorted
knots the engine's `splineM` coefficients make the piecewise evaluation a
natural cubic spline in the sense of `IsNaturalCubicSpline`. -/
theorem isNaturalCubicSpline_of (xs ys : List ℚ) (hc : List.Chain' (· < ·) xs)
    (hlen : ys.length = xs.length) (h2 : 2 ≤ xs.length) :
    IsNaturalCubicSpline xs ys (splineM xs ys) := by
  have ht : IsTrans ℚ (· < ·) := ⟨fun _ _ _ a b => lt_trans a b⟩
  have hp : xs.Pairwise (· < ·) := List.chain'_iff_pairwise.mp hc
  have hMl : (thomasBack (thomasFwd 0 0 (splineRows xs ys))).length = xs.length - 2 := by
    rw [thomasBack_length, thomasFwd_length, splineRows_length xs ys hlen]
  have hM := splineM_eq xs ys h2
  have hne : ∀ i, i + 1 < xs.length → xs.getD (i+1) 0 - xs.getD i 0 ≠ 0 := by
    intro i hi
    exact sub_ne_zero.mpr (ne_of_gt (pairwise_getD_lt hp (by omega) hi))
  refine ⟨⟨?_, ?_⟩, ?_, ?_, ?_, ?_, ?_, ?_, ?_⟩
  · rw [hM]
    rfl
  · rw [hM]
    have hidx : xs.length - 1
        = (thomasBack (thomasFwd 0 0 (splineRows xs ys))).length + 1 := by omega
    rw [hidx]
    have e2 : ((0:ℚ) :: (thomasBack (thomasFwd 0 0 (splineRows xs ys)) ++ [0])).getD
        ((thomasBack (thomasFwd 0 0 (splineRows xs ys))).length + 1) 0
        = (thomasBack (thomasFwd 0 0 (splineRows xs ys)) ++ [0]).getD
          (thomasBack (thomasFwd 0 0 (splineRows xs ys))).length 0 := rfl
    rw [e2, getD_append_ge _ [0] _ 0 (le_refl _), Nat.sub_self]
    rfl
  · intro j hj
    exact splineEval_at_knot hp h2 hj
  · intro j hj
    exact segEval_is_cubic xs ys (splineM xs ys) j (hne j hj)
  · intro j v hj
    exact segEval_hasDerivAt xs ys (splineM xs ys) j v (hne j hj)
  · intro j v hj
    exact segEval1_hasDerivAt xs ys (splineM xs ys) j v (hne j hj)
  · intro j hj
    refine ⟨?_, splineM_deriv_cont hc hlen hj, segEval2_right (hne j (by omega)), ?_⟩
    · rw [segEval_right (hne j (by omega))]
      rw [segEval_left (hne (j+1) (by omega))]
    · exact segEval2_left (hne (j+1) (by omega))
  · intro v hv
    have e : splineEval xs ys (splineM xs ys) v
        = segEval xs ys (splineM xs ys) (findSeg xs v) v := rfl
    rw [e, findSeg_of_forall_le fun x hx => le_of_lt (hv x hx)]
  · intro v hv
    have e : splineEval xs ys (splineM xs ys) v
        = segEval xs ys (splineM xs ys) (findSeg xs v) v := rfl
    rw [e, findSeg_of_forall_gt hv]

/-- The `logT` knot vector is strictly sorted. -/
theorem lXs_lit_sorted : List.Chain' (· < ·) (rawData.reverse.map (·.logT)) := by
  rw [List.chain'_map]
  exact List.chain'_reverse.mpr rawData_logT_strictDesc

/-- The `B_V` knot vector is strictly sorted. -/
theorem bXs_lit_sorted : List.Chain' (· < ·) (rawData.map (·.b_v)) := by
  rw [List.chain'_map]
  exact rawData_bv_strictAsc

/-! ## The claims -/

/-- Claim C1: for every query value `v` on any of the three axes, the
result carries `extrapolated = false` exactly when `v` lies between that
axis's recorded bounds (the min/max of its tabulated values, which is what
`T_min`, …, `BV_max` are computed as), and `extrapolated = true` exactly
when `v < min` or `v > max`. -/
theorem extrapolation_classification (v : ℚ) :
    ((get_BC_from_T v true).2 = false ↔ T_min ≤ v ∧ v ≤ T_max)
    ∧ ((get_BC_from_T v true).2 = true ↔ v < T_min ∨ T_max < v)
    ∧ ((get_BC_from_logT v true).2 = false ↔ logT_min ≤ v ∧ v ≤ logT_max)
    ∧ ((get_BC_from_logT v true).2 = true ↔ v < logT_min ∨ logT_max < v)
    ∧ ((get_BC_from_BV v true).2 = false ↔ BV_min ≤ v ∧ v ≤ BV_max)
    ∧ ((get_BC_from_BV v true).2 = true ↔ v < BV_min ∨ BV_max < v) := by
  have eT : (get_BC_from_T v true).2 = extrapT v := Bool.true_and _
  have eL : (get_BC_from_logT v true).2 = extrapLogT v := Bool.true_and _
  have eB : (get_BC_from_BV v true).2 = extrapBV v := Bool.true_and _
  have hT : extrapT v = (decide (v < T_min) || decide (T_max < v)) := rfl
  have hL : extrapLogT v = (decide (v < logT_min) || decide (logT_max < v)) := rfl
  have hB : extrapBV v = (decide (v < BV_min) || decide (BV_max < v)) := rfl
  refine ⟨?_, ?_, ?_, ?_, ?_, ?_⟩
  · rw [eT, hT]
    simp [not_lt]
  · rw [eT, hT]
    simp
  · rw [eL, hL]
    simp [not_lt]
  · rw [eL, hL]
    simp
  · rw [eB, hB]
    simp [not_lt]
  · rw [eB, hB]
    simp

/-- Claim C2: querying any of the three axes at a tabulated row's value
returns the row's tabulated bolometric correction exactly (the model
computes in exact rationals, so the tolerance is 0) with
`extrapolated = false`; in particular the temperature, log-temperature and
color-index queries agree at every tabulated row. -/
theorem tabulated_row_queries (r : Row) (hr : r ∈ theData) :
    get_BC_from_T r.t true = (r.bc, false)
    ∧ get_BC_from_logT r.logT true = (r.bc, false)
    ∧ get_BC_from_BV r.b_v true = (r.bc, false) := by
  have hraw : r ∈ rawData := mem_rawData_of_mem_theData hr
  obtain ⟨⟨hT1, hT2⟩, ⟨hL1, hL2⟩, hB1, hB2⟩ := rawData_bounds hraw
  refine ⟨?_, ?_, ?_⟩
  · have e : get_BC_from_T r.t true = (bc_from_T r.t, true && extrapT r.t) := rfl
    rw [e, Bool.true_and, bc_from_T_at_row hr,
      extrapT_eq_false (by rw [T_min_eq]; exact hT1) (by rw [T_max_eq]; exact hT2)]
  · have e : get_BC_from_logT r.logT true
        = (bc_from_logT r.logT, true && extrapLogT r.logT) := rfl
    rw [e, Bool.true_and, bc_from_logT_at_row hr,
      extrapLogT_eq_false (by rw [logT_min_eq]; exact hL1)
        (by rw [logT_max_eq]; exact hL2)]
  · have e : get_BC_from_BV r.b_v true
        = (bc_from_BV r.b_v, true && extrapBV r.b_v) := rfl
    rw [e, Bool.true_and, bc_from_BV_at_row hr,
      extrapBV_eq_false (by rw [BV_min_eq]; exact hB1) (by rw [BV_max_eq]; exact hB2)]

/-- The claim instantiated at the hottest tabulated row
(`T = 56728`, `logT = 4.7538`, `B_V = -0.35`, `BC = -4.720`). -/
theorem tabulated_row_queries_witness :
    get_BC_from_T 56728 true = (-4720/1000, false)
    ∧ get_BC_from_logT (47538/10000) true = (-4720/1000, false)
    ∧ get_BC_from_BV (-35/100) true = (-4720/1000, false) :=
  tabulated_row_queries ⟨-35/100, 47538/10000, -4720/1000, 56728⟩ (by
    rw [theData_eq]
    refine List.mem_reverse.mpr ?_
    rw [rawData_chunks]
    exact List.mem_append_left _ (List.mem_append_left _ (List.mem_append_left _
      (List.mem_append_left _ (List.mem_append_left _ (List.mem_cons_self _ _))))))

/-- The query body performs no finiteness validation and raises nothing:
a NaN query is answered, with NaN as the numeric result and the warning
flag `false` — there is no `InvalidQueryError` path. -/
theorem nonfinite_rejection_counterexample :
    get_BC_from_T_nf FVal.nan true = (FVal.nan, false) := rfl

/-- Claim C3 (amended): a non-finite query does not fail — the method body
(lines 46–54) has no validation, IEEE comparisons with NaN are false, so a
NaN query returns NaN with `extrapolated = false` whatever `verbose` is,
and finite queries behave exactly as in the all-finite model. -/
theorem nonfinite_query_total :
    (∀ b : Bool, get_BC_from_T_nf FVal.nan b = (FVal.nan, false))
    ∧ (∀ (q : ℚ) (b : Bool),
        get_BC_from_T_nf (FVal.fin q) b = (FVal.fin (bc_from_T q), b && extrapT q)) := by
  constructor
  · intro b
    cases b <;> rfl
  · intro q b
    rfl

/-- Claim C4: each of the three interpolants is a natural cubic spline in
the sense of `IsNaturalCubicSpline` — zero second derivative at the
boundary knots, exact interpolation at every knot, cubic polynomial pieces
whose first and second derivatives really are `segEval1` and `segEval2`,
value and first derivative continuous and second derivative consistent at
every interior knot, and beyond the outermost knots the unbounded boundary
piece is evaluated (no separate linear or constant extrapolation rule) —
and each scalar query evaluates exactly this spline. -/
theorem natural_cubic_spline_interpolants :
    IsNaturalCubicSpline tXs tYs tM
    ∧ IsNaturalCubicSpline lXs lYs lM
    ∧ IsNaturalCubicSpline bXs bYs bM
    ∧ (∀ v, bc_from_T v = splineEval tXs tYs tM v)
    ∧ (∀ v, bc_from_logT v = splineEval lXs lYs lM v)
    ∧ (∀ v, bc_from_BV v = splineEval bXs bYs bM v) := by
  have et : tM = splineM tXs tYs := rfl
  have el : lM = splineM lXs lYs := rfl
  have eb : bM = splineM bXs bYs := rfl
  refine ⟨?_, ?_, ?_, fun v => rfl, fun v => rfl, fun v => rfl⟩
  · rw [et, tXs_eq, tYs_eq]
    exact isNaturalCubicSpline_of _ _ tXs_lit_sorted (by simp) (by simp [rawData_length])
  · rw [el, lXs_eq, lYs_eq]
    exact isNaturalCubicSpline_of _ _ lXs_lit_sorted (by simp) (by simp [rawData_length])
  · rw [eb, bXs_eq, bYs_eq]
    exact isNaturalCubicSpline_of _ _ bXs_lit_sorted (by simp) (by simp [rawData_length])

/-- Claim C5: engine construction from a table of fewer than 4 points
fails with `InsufficientDataError` and yields no engine, while the embedded
216-row table constructs successfully, the engine table being the sorted
input. -/
theorem engine_construction_minimum (rows : List Row) (h : rows.length < 4) :
    mkEngine rows = Except.error BCError.insufficientData
    ∧ mkEngine rawData = Except.ok theData := by
  constructor
  · have e : mkEngine rows = if rows.length < 4 then Except.error BCError.insufficientData
        else Except.ok (sortByT rows) := rfl
    rw [e, if_pos h]
  · have e : mkEngine rawData
        = if rawData.length < 4 then Except.error BCError.insufficientData
          else Except.ok (sortByT rawData) := rfl
    rw [e, if_neg (by rw [rawData_length]; omega)]
    rfl

/-- The claim instantiated at the empty table. -/
theorem engine_construction_minimum_witness :
    mkEngine [] = Except.error BCError.insufficientData
    ∧ mkEngine rawData = Except.ok theData :=
  engine_construction_minimum [] (by decide)

/-- Claim C6: a batch query returns one numeric result per input, in
order, each equal to the scalar query's numeric result for that input, and
the batch's single `extrapolated` flag is `true` exactly when at least one
input lies outside the axis's recorded bounds. -/
theorem batch_queries (vs : List ℚ) :
    ((get_BC_from_T_batch vs true).1.length = vs.length
      ∧ (get_BC_from_T_batch vs true).1 = vs.map (fun v => (get_BC_from_T v true).1)
      ∧ ((get_BC_from_T_batch vs true).2 = true ↔ ∃ v ∈ vs, v < T_min ∨ T_max < v))
    ∧ ((get_BC_from_logT_batch vs true).1.length = vs.length
      ∧ (get_BC_from_logT_batch vs true).1 = vs.map (fun v => (get_BC_from_logT v true).1)
      ∧ ((get_BC_from_logT_batch vs true).2 = true ↔ ∃ v ∈ vs, v < logT_min ∨ logT_max < v))
    ∧ ((get_BC_from_BV_batch vs true).1.length = vs.length
      ∧ (get_BC_from_BV_batch vs true).1 = vs.map (fun v => (get_BC_from_BV v true).1)
      ∧ ((get_BC_from_BV_batch vs true).2 = true ↔ ∃ v ∈ vs, v < BV_min ∨ BV_max < v)) := by
  refine ⟨⟨?_, rfl, ?_⟩, ⟨?_, rfl, ?_⟩, ⟨?_, rfl, ?_⟩⟩
  · show (vs.map bc_from_T).length = vs.length
    exact List.length_map _ _
  · have e : (get_BC_from_T_batch vs true).2 = vs.any extrapT := Bool.true_and _
    rw [e, List.any_eq_true]
    refine exists_congr fun v => and_congr_right fun _ => ?_
    have e2 : extrapT v = (decide (v < T_min) || decide (T_max < v)) := rfl
    rw [e2]
    simp
  · show (vs.map bc_from_logT).length = vs.length
    exact List.length_map _ _
  · have e : (get_BC_from_logT_batch vs true).2 = vs.any extrapLogT := Bool.true_and _
    rw [e, List.any_eq_true]
    refine exists_congr fun v => and_congr_right fun _ => ?_
    have e2 : extrapLogT v = (decide (v < logT_min) || decide (logT_max < v)) := rfl
    rw [e2]
    simp
  · show (vs.map bc_from_BV).length = vs.length
    exact List.length_map _ _
  · have e : (get_BC_from_BV_batch vs true).2 = vs.any extrapBV := Bool.true_and _
    rw [e, List.any_eq_true]
    refine exists_congr fun v => and_congr_right fun _ => ?_
    have e2 : extrapBV v = (decide (v < BV_min) || decide (BV_max < v)) := rfl
    rw [e2]
    simp

/-- Claim C7: the numeric BC returned by a query is independent of the
`verbose` flag and of the extrapolation classification: it is always
exactly the interpolant's value, computed by the one unconditional code
path — for in-range and out-of-range values alike, on all three axes. -/
theorem query_value_verbose_independence (v : ℚ) :
    (get_BC_from_T v true).1 = (get_BC_from_T v false).1
    ∧ (get_BC_from_logT v true).1 = (get_BC_from_logT v false).1
    ∧ (get_BC_from_BV v true).1 = (get_BC_from_BV v false).1
    ∧ (get_BC_from_T v true).1 = bc_from_T v
    ∧ (get_BC_from_logT v true).1 = bc_from_logT v
    ∧ (get_BC_from_BV v true).1 = bc_from_BV v :=
  ⟨rfl, rfl, rfl, rfl, rfl, rfl⟩

/-- The table's row with `t = 3061` has `logT = 3.4860`, yet
`3061^100000 < 10^348595`, i.e. `log10 3061 < 3.48595 < 3.4860`: the
tabulated `log_temperature` is not `log10` of the tabulated `temperature`,
not even rounded to the table's four decimals (it rounds to 3.4859). -/
theorem log10_equality_counterexample :
    (⟨178/100, 34860/10000, -4544/1000, 3061⟩ : Row) ∈ theData
    ∧ (3061:Nat) ^ 100000 < 10 ^ 348595
    ∧ (348595/100000 : ℚ) < 34860/10000 := by
  refine ⟨?_, ?_, ?_⟩
  · rw [theData_eq]
    refine List.mem_reverse.mpr ?_
    rw [rawData_chunks]
    refine List.mem_append_right _ ?_
    repeat first
    | exact List.mem_cons_self _ _
    | apply List.mem_cons_of_mem
  · decide
  · with_unfolding_all decide

/-- Claim C8 (amended): after load the table is strictly ascending in
temperature, and this same order is strictly ascending in log-temperature
and strictly descending in color index; the exact relation between the
columns is `t = ⌊10^logT⌋` (so `log_temperature` is the log10 of the
*unfloored* temperature — `log10 t` itself differs from `logT` by up to
`log10(1 + 1/t) < 1.5e-4`, see `log10_equality_counterexample`). -/
theorem table_order_invariants :
    List.Chain' (fun a b : Row => a.t < b.t) theData
    ∧ List.Chain' (fun a b : Row => a.logT < b.logT) theData
    ∧ List.Chain' (fun a b : Row => b.b_v < a.b_v) theData
    ∧ allB floorPow10Row theData = true := by
  refine ⟨theData_t_strictAsc, theData_logT_strictAsc, theData_bv_strictDesc, ?_⟩
  refine allB_of_forall ?_
  intro r hr
  exact forall_rawData_of_chunks (by with_unfolding_all decide)
    (by with_unfolding_all decide) (by with_unfolding_all decide)
    (by with_unfolding_all decide) (by with_unfolding_all decide)
    (by with_unfolding_all decide) r (mem_rawData_of_mem_theData hr)

/-- At 5780 K the interpolated BC lies strictly between −0.085 and −0.079,
so it is not in the claimed range −0.16 … −0.15. -/
theorem solar_range_counterexample :
    ¬(-16/100 ≤ (get_BC_from_T 5780 true).1 ∧ (get_BC_from_T 5780 true).1 ≤ -15/100) := by
  intro h
  simp only [get_BC_from_T_eq] at h
  have hb := bc_from_T_5780_bounds
  linarith [h.1, h.2, hb.1, hb.2]

/-- Claim C9 (amended): `get_BC_from_T 5780` returns a BC strictly between
−0.085 and −0.079 (not the claimed −0.16…−0.15) with `extrapolated = false`, and
`get_BC_from_T 100000` — above the maximum tabulated 56728 K — returns a
finite BC with `extrapolated = true`. -/
theorem solar_and_hot_queries :
    (-85/1000 < (get_BC_from_T 5780 true).1 ∧ (get_BC_from_T 5780 true).1 < -79/1000)
    ∧ (get_BC_from_T 5780 true).2 = false
    ∧ (get_BC_from_T 100000 true).2 = true
    ∧ (∃ q : ℚ, get_BC_from_T_nf (FVal.fin 100000) true = (FVal.fin q, true)) := by
  have hcold : extrapT 5780 = false :=
    extrapT_eq_false (by rw [T_min_eq]; norm_num) (by rw [T_max_eq]; norm_num)
  have hhot : extrapT 100000 = true :=
    extrapT_eq_true (Or.inr (by rw [T_max_eq]; norm_num))
  simp only [get_BC_from_T_eq, get_BC_from_T_nf_fin, Bool.true_and, hcold, hhot]
  exact ⟨bc_from_T_5780_bounds, trivial, trivial, ⟨bc_from_T 100000, rfl⟩⟩

/-- Claim C10: construction copies the caller's table — `initBC` hands the
caller's table back unchanged — and no query mutates the engine: each query
returns exactly the engine object it was called on, its stored table and
bounds included. -/
theorem construction_and_queries_frame (tbl : List Row) (e : Engine) (v : ℚ) (b : Bool) :
    (initBC tbl).1 = tbl
    ∧ (get_BC_from_T_st e v b).2 = e
    ∧ (get_BC_from_logT_st e v b).2 = e
    ∧ (get_BC_from_BV_st e v b).2 = e :=
  ⟨rfl, rfl, rfl, rfl⟩
end BCUtil
